import Mathlib

/-!
# VTOL attitude-control coordinator: Standard airframe and command intake

Shallow embedding of `standard.cpp` (`Standard::update_vtol_state`,
`Standard::update_transition_state`, `Standard::fill_actuator_outputs`) and of
`vtol_att_control_main.cpp` (`vehicle_status_poll`, `action_request_poll`,
`vehicle_cmd_poll`, `quadchute`, `Run`), followed by the theorems about them.

Conventions of the embedding:
* C++ `float` values are `F32`: a finite value is an exact rational, next to
  the two infinities and NaN. Comparisons follow IEEE-754 (every comparison
  with NaN is false). The pusher ramp, whose throttle accumulates over the
  ticks, rounds every arithmetic result to the nearest `float` (`F32.round`);
  the other computations are carried out on the exact values.
* `hrt_abstime` is a natural number of microseconds; differences of clock
  readings wrap around as unsigned 64 bit numbers (`hrt_sub`).
* Member functions become functions from the state before the call to the
  state after it; what a function reads through a pointer to a uORB snapshot,
  a parameter or the clock is passed in an input record.
* Publications (command acks, events, MAVLink log lines) are appended to
  lists carried in the coordinator state.
-/

namespace VtolAttControl

/-! ## Floating point values -/

/-- C++ `float`: finite values (exact rationals), the infinities and NaN. -/
inductive F32 where
  | finite (q : ℚ)
  | posInf
  | negInf
  | nan
deriving DecidableEq

namespace F32

/-- The literal `0.0f`. -/
def zero : F32 := finite 0

/-- The literal `1.0f`. -/
def one : F32 := finite 1

/-- The literal `0.5f`. -/
def half : F32 := finite (1 / 2)

/-- The macro `PX4_ISFINITE(x)`: neither NaN nor an infinity. -/
def isFinite : F32 → Bool
  | finite _ => true
  | _ => false

/-- The C++ comparison `a < b` on floats; false as soon as an operand is NaN. -/
def lt : F32 → F32 → Bool
  | finite a, finite b => decide (a < b)
  | finite _, posInf => true
  | negInf, finite _ => true
  | negInf, posInf => true
  | _, _ => false

/-- The C++ comparison `a > b` on floats. -/
def gt (a b : F32) : Bool := lt b a

/-- The C++ sum `a + b` on floats (exact on finite operands). -/
def add : F32 → F32 → F32
  | finite a, finite b => finite (a + b)
  | nan, _ => nan
  | _, nan => nan
  | posInf, negInf => nan
  | negInf, posInf => nan
  | posInf, _ => posInf
  | _, posInf => posInf
  | negInf, _ => negInf
  | _, negInf => negInf

/-- Smallest value of a 32 bit `int`. -/
def INT_MIN : Int := -2147483648

/-- Largest value of a 32 bit `int`. -/
def INT_MAX : Int := 2147483647

/-- The C++ conversion `int(x)`: truncation toward zero. C++ leaves the
conversion undefined for NaN, the infinities and values outside the range of
`int`; the model takes the saturating conversion of the ARM targets there
(NaN gives 0). -/
def toInt : F32 → Int
  | finite q =>
    let t : Int := if 0 ≤ q then ⌊q⌋ else ⌈q⌉
    if t < INT_MIN then INT_MIN else if INT_MAX < t then INT_MAX else t
  | posInf => INT_MAX
  | negInf => INT_MIN
  | nan => 0

/-- The C++ negation `-a` on floats. -/
def neg : F32 → F32
  | finite a => finite (-a)
  | posInf => negInf
  | negInf => posInf
  | nan => nan

/-- The C++ difference `a - b` on floats (exact on finite operands). -/
def sub (a b : F32) : F32 := add a (neg b)

/-- The C++ product `a * b` on floats (exact on finite operands); an infinity
times zero is NaN. -/
def mul : F32 → F32 → F32
  | finite a, finite b => finite (a * b)
  | nan, _ => nan
  | _, nan => nan
  | finite a, posInf => if a = 0 then nan else if 0 < a then posInf else negInf
  | finite a, negInf => if a = 0 then nan else if 0 < a then negInf else posInf
  | posInf, finite b => if b = 0 then nan else if 0 < b then posInf else negInf
  | negInf, finite b => if b = 0 then nan else if 0 < b then negInf else posInf
  | posInf, posInf => posInf
  | negInf, negInf => posInf
  | posInf, negInf => negInf
  | negInf, posInf => negInf

/-- The C++ quotient `a / b` on floats (exact on finite operands with a
nonzero divisor). A finite zero stands for +0: a nonzero value over zero is
the infinity of its sign and zero over zero is NaN. -/
def div : F32 → F32 → F32
  | finite a, finite b =>
    if b = 0 then (if a = 0 then nan else if 0 < a then posInf else negInf)
    else finite (a / b)
  | nan, _ => nan
  | _, nan => nan
  | finite _, posInf => finite 0
  | finite _, negInf => finite 0
  | posInf, finite b => if 0 ≤ b then posInf else negInf
  | negInf, finite b => if 0 ≤ b then negInf else posInf
  | posInf, posInf => nan
  | posInf, negInf => nan
  | negInf, posInf => nan
  | negInf, negInf => nan

/-- The function `fabsf`. -/
def fabsf : F32 → F32
  | finite a => finite |a|
  | posInf => posInf
  | negInf => posInf
  | nan => nan

/-- The C++ comparison `a <= b` on floats; false as soon as an operand is
NaN. -/
def le : F32 → F32 → Bool
  | finite a, finite b => decide (a ≤ b)
  | finite _, posInf => true
  | negInf, finite _ => true
  | negInf, negInf => true
  | negInf, posInf => true
  | posInf, posInf => true
  | _, _ => false

/-- The C++ comparison `a >= b` on floats. -/
def ge (a b : F32) : Bool := le b a

/-- The function `math::min(a, b)` of the PX4 math library:
`(a < b) ? a : b`. -/
def min (a b : F32) : F32 := if lt a b then a else b

/-- The function `math::constrain(val, min_val, max_val)` of the PX4 math
library: `(val < min_val) ? min_val : ((val > max_val) ? max_val : val)`. -/
def constrain (val min_val max_val : F32) : F32 :=
  if lt val min_val then min_val else if gt val max_val then max_val else val

/-- The constant `FLT_EPSILON` of `float.h`, 2⁻²³. -/
def FLT_EPSILON : F32 := finite (1 / 8388608)

/-- The float nearest to π, the value of `M_PI` as a `float`. -/
def M_PI_F : F32 := finite (13176795 / 4194304)

/-- The function `math::radians(degrees)` of the PX4 math library:
`degrees * (M_PI / 180)`. -/
def radians (degrees : F32) : F32 := mul degrees (div M_PI_F (finite 180))

/-- The conversion of an unsigned integer to `float`. -/
def ofNat (n : Nat) : F32 := finite n

/-- Membership in the closed interval [0, 1], by the float comparisons. -/
def in_unit_interval (w : F32) : Bool := le zero w && le w one

/-! ### Rounding to `float` -/

/-- Rounding of a rational to the nearest integer, a tie going to the even
one. -/
def roundHalfEven (x : ℚ) : ℤ :=
  if x - ⌊x⌋ < 1 / 2 then ⌊x⌋
  else if 1 / 2 < x - ⌊x⌋ then ⌊x⌋ + 1
  else if ⌊x⌋ % 2 = 0 then ⌊x⌋
  else ⌊x⌋ + 1

/-- Number of halvings that bring `n` below 2, at most `fuel` of them. -/
def log2_steps : Nat → Nat → Nat
  | 0, _ => 0
  | fuel + 1, n => if 2 ≤ n then log2_steps fuel (n / 2) + 1 else 0

/-- The binary exponent that a `float` uses for the magnitude `a`: the
largest `e` with 2 ^ e ≤ a, and -126, the exponent of the subnormal numbers,
below 2 ^ (-126). -/
def exponent (a : ℚ) : ℤ :=
  let d : ℤ := (log2_steps a.num.natAbs a.num.natAbs : ℤ) - (log2_steps a.den a.den : ℤ)
  max (if (2 : ℚ) ^ d ≤ a then d else d - 1) (-126)

/-- The spacing of the `float` values around `q`: 24 significant bits. -/
def ulp (q : ℚ) : ℚ := (2 : ℚ) ^ (exponent |q| - 23)

/-- The `float` nearest to the exact value `q` (IEEE-754 binary32, round to
nearest, ties to even); an infinity when the rounded magnitude reaches
2 ^ 128. -/
def round (q : ℚ) : F32 :=
  let r : ℚ := (roundHalfEven (q / ulp q) : ℚ) * ulp q
  if (2 : ℚ) ^ (128 : ℕ) ≤ r then posInf
  else if r ≤ -(2 : ℚ) ^ (128 : ℕ) then negInf
  else finite r

/-- The rounding of the exact result of an arithmetic operation to `float`;
an infinity or NaN stays. -/
def rounded : F32 → F32
  | finite q => round q
  | x => x

/-- The C++ sum `a + b` of two floats as the machine computes it: the exact
sum rounded to `float`. -/
def add_f (a b : F32) : F32 := rounded (add a b)

/-- The C++ product `a * b` of two floats as the machine computes it: the
exact product rounded to `float`. -/
def mul_f (a b : F32) : F32 := rounded (mul a b)

/-- The C++ quotient `a / b` of two floats as the machine computes it: the
exact quotient rounded to `float`. -/
def div_f (a b : F32) : F32 := rounded (div a b)

/-- The conversion of a `uint64_t` to `float`, rounded to the nearest
float. -/
def ofUInt64 (n : Nat) : F32 := round n

end F32

/-- The difference `a - b` of two `hrt_abstime` values: unsigned 64 bit
arithmetic, wrapping around below zero. -/
def hrt_sub (a b : Nat) : Nat := (a + 2 ^ 64 - b % 2 ^ 64) % 2 ^ 64

/-- The time literal `1_s` in microseconds. -/
def time_1_s : Nat := 1000000

/-- The time literal `2_ms` in microseconds. -/
def time_2_ms : Nat := 2000

/-! ## Modes -/

/-- The common VTOL mode, `enum class mode` of the airframe base class. -/
inductive mode where
  | TRANSITION_TO_FW
  | TRANSITION_TO_MC
  | ROTARY_WING
  | FIXED_WING
deriving DecidableEq

/-- The airframe mode of the Standard airframe, `Standard::vtol_mode` in
`standard.h`. -/
inductive vtol_mode where
  | MC_MODE
  | TRANSITION_TO_FW
  | TRANSITION_TO_MC
  | FW_MODE
deriving DecidableEq

/-! ## The Standard airframe -/

/-- Members of the base class `VtolType` that `standard.cpp` reads or writes.
`_trans_start_ts` is the transition clock of the data model. -/
structure VtolType where
  _common_vtol_mode : mode
  _mc_roll_weight : F32
  _mc_pitch_weight : F32
  _mc_yaw_weight : F32
  _mc_throttle_weight : F32
  _trans_start_ts : Nat
  _trans_finished_ts : Nat
  _time_since_trans_start : F32
deriving DecidableEq

/-- State of `class Standard` (`standard.h`): the base members and its own. -/
structure Standard extends VtolType where
  _vtol_mode : vtol_mode
  _pusher_throttle : F32
  _airspeed_trans_blend_margin : F32
  _last_time_pusher_transition_update : Nat
deriving DecidableEq

/-! ## uORB messages and coordinator state -/

/-- The `NAVIGATION_STATE_*` values of `vehicle_status_s::nav_state` that the
sources name; `OTHER` stands for every other code of the `uint8` field. -/
inductive NAVIGATION_STATE where
  | AUTO_TAKEOFF
  | AUTO_LAND
  | AUTO_RTL
  | ORBIT
  | DESCEND
  | OTHER (code : Nat)
deriving DecidableEq

/-- The `ACTION_*` values of `action_request_s::action` that the sources
name; `OTHER` stands for every other code. -/
inductive ACTION where
  | VTOL_TRANSITION_TO_MULTICOPTER
  | VTOL_TRANSITION_TO_FIXEDWING
  | OTHER (code : Nat)
deriving DecidableEq

/-- The `VEHICLE_CMD_*` values of `vehicle_command_s::command` that the
sources name; `OTHER` stands for every other command id. -/
inductive VEHICLE_CMD where
  | DO_VTOL_TRANSITION
  | OTHER (code : Nat)
deriving DecidableEq

/-- The `VEHICLE_CMD_RESULT_*` values that `vehicle_cmd_poll` assigns. -/
inductive VEHICLE_CMD_RESULT where
  | ACCEPTED
  | TEMPORARILY_REJECTED
deriving DecidableEq

/-- Values of the `VEHICLE_VTOL_STATE_*` constants of `vtol_vehicle_status_s`.
`_transition_command` is an `int` that receives the rounded `param1` of a
command, so these stay numbers; the message declaration is generated outside
the sources, hence the functions take the values as a parameter. -/
structure VEHICLE_VTOL_STATE where
  MC : Int
  FW : Int
deriving DecidableEq

/-- The field of `vehicle_status_s` the coordinator reads. -/
structure vehicle_status_s where
  nav_state : NAVIGATION_STATE
deriving DecidableEq

/-- The field of `vtol_vehicle_status_s` the state machine depends on. -/
structure vtol_vehicle_status_s where
  fixed_wing_system_failure : Bool
deriving DecidableEq

/-- The message `action_request_s`. -/
structure action_request_s where
  action : ACTION
deriving DecidableEq

/-- The fields of `vehicle_command_s` that `vehicle_cmd_poll` reads. -/
structure vehicle_command_s where
  command : VEHICLE_CMD
  param1 : F32
  param2 : F32
  from_external : Bool
  source_system : Nat
  source_component : Nat
deriving DecidableEq

/-- The message `vehicle_command_ack_s` as `vehicle_cmd_poll` fills it. -/
structure vehicle_command_ack_s where
  timestamp : Nat
  command : VEHICLE_CMD
  result : VEHICLE_CMD_RESULT
  target_system : Nat
  target_component : Nat
deriving DecidableEq

/-- One `events::send(events::ID(id), events::Log::Critical, message)`. -/
structure event_s where
  id : String
  message : String
deriving DecidableEq

/-- The causes of a quadchute, `enum class QuadchuteReason`. -/
inductive QuadchuteReason where
  | None
  | TransitionTimeout
  | ExternalCommand
  | MinimumAltBreached
  | UncommandedDescent
  | TransitionAltitudeLoss
  | MaximumPitchExceeded
  | MaximumRollExceeded
deriving DecidableEq

/-- Three floats indexed 0, 1, 2 as `x`, `y`, `z`: the array `xyz` of a torque
or thrust setpoint and the array `thrust_body` of an attitude setpoint. -/
structure Vector3f where
  x : F32 := F32.zero
  y : F32 := F32.zero
  z : F32 := F32.zero
deriving DecidableEq

/-- The quaternion `q_d` of an attitude setpoint: either the four components
of a received message, or the value `Quatf(Eulerf(roll, pitch, yaw))` that
`update_transition_state` composes; the trigonometry of the matrix library is
not evaluated. -/
inductive Quatf where
  | components (w x y z : F32)
  | from_euler (roll pitch yaw : F32)
deriving DecidableEq

/-- The Euler angles `phi`, `theta`, `psi` of the matrix library. -/
structure Eulerf where
  phi : F32
  theta : F32
  psi : F32
deriving DecidableEq

/-- The fields of `vehicle_attitude_setpoint_s` that the airframe reads or
writes; `memcpy` copies the message as a whole. -/
structure vehicle_attitude_setpoint_s where
  timestamp : Nat := 0
  q_d : Quatf := Quatf.components F32.zero F32.zero F32.zero F32.zero
  thrust_body : Vector3f := {}
deriving DecidableEq

/-- The message `vehicle_torque_setpoint_s`. -/
structure vehicle_torque_setpoint_s where
  timestamp : Nat := 0
  timestamp_sample : Nat := 0
  xyz : Vector3f := {}
deriving DecidableEq

/-- The message `vehicle_thrust_setpoint_s`. -/
structure vehicle_thrust_setpoint_s where
  timestamp : Nat := 0
  timestamp_sample : Nat := 0
  xyz : Vector3f := {}
deriving DecidableEq

/-- State of `class VtolAttitudeControl` that command intake and the state
machine use, with the Standard airframe as `_vtol_type`. The fields
`command_ack_pub`, `events` and `_mavlink_log_pub` record what has been
published: command acks, events and MAVLink critical log lines, oldest first.
The setpoints and the two fields of `Run` start zero-initialised. -/
structure VtolAttitudeControl where
  _vehicle_status : vehicle_status_s
  _nav_state_prev : NAVIGATION_STATE
  _transition_command : Int
  _immediate_transition : Bool
  _vtol_vehicle_status : vtol_vehicle_status_s
  _vtol_type : Standard
  command_ack_pub : List vehicle_command_ack_s
  events : List event_s
  _mavlink_log_pub : List String
  /-- The setpoint the airframe reaches through `_v_att_sp`. -/
  _vehicle_attitude_sp : vehicle_attitude_setpoint_s := {}
  _torque_setpoint_0 : vehicle_torque_setpoint_s := {}
  _torque_setpoint_1 : vehicle_torque_setpoint_s := {}
  _thrust_setpoint_0 : vehicle_thrust_setpoint_s := {}
  _thrust_setpoint_1 : vehicle_thrust_setpoint_s := {}
  _last_run_timestamp : Nat := 0
  _initialized : Bool := false
deriving DecidableEq

/-- What `Standard::update_vtol_state` reads besides the airframe and the
coordinator state: uORB snapshots, parameters, the clock and the two
predicates of the base class. -/
structure update_vtol_state_inputs where
  /-- The flag `_local_pos->v_xy_valid`. -/
  v_xy_valid : Bool
  /-- The value `vel(0)`: body-x component of the local velocity rotated by
  the inverse attitude. -/
  vel_body_x : F32
  /-- The value `_airspeed_validated->calibrated_airspeed_m_s`. -/
  calibrated_airspeed_m_s : F32
  /-- The parameter `MPC_XY_CRUISE`. -/
  param_mpc_xy_cruise : F32
  /-- The parameter `VT_B_TRANS_DUR`. -/
  param_vt_b_trans_dur : F32
  /-- Result of the base-class predicate `can_transition_on_ground()`. -/
  can_transition_on_ground : Bool
  /-- Result of the base-class predicate `isFrontTransitionCompleted()`. -/
  isFrontTransitionCompleted : Bool
  /-- The clock reading `hrt_absolute_time()`. -/
  hrt_absolute_time : Nat
deriving DecidableEq

/-! ## Base-class and coordinator helpers whose source is not available -/

/-- Modelled from the spec: `VtolType::get_mode()` (the base class is declared
in `vtol_type.h`, not among the sources). The common VTOL mode is the
observable mode exported to the rest of the system. -/
def Standard.get_mode (s : Standard) : mode :=
  s._common_vtol_mode

/-- Modelled from the spec: `VtolType::resetTransitionStates()` (defined in
`vtol_type.cpp`, not among the sources). The transition clock `trans_start_ts`
is captured when entering any transition state. -/
def Standard.resetTransitionStates (now : Nat) (s : Standard) : Standard :=
  { s with _trans_start_ts := now }

/-- Modelled from the spec: `VtolAttitudeControl::is_fixed_wing_requested()`
(defined in `vtol_att_control_main.h`, not among the sources). The command
state `transition_command` is RequestMc or RequestFw; forward flight is
requested when it is the FW state. -/
def VtolAttitudeControl.is_fixed_wing_requested (k : VEHICLE_VTOL_STATE)
    (a : VtolAttitudeControl) : Bool :=
  a._transition_command == k.FW

/-! ## `Standard::update_vtol_state` (standard.cpp, lines 41 to 142) -/

/-- Lines 76 to 85: the speed exit condition of the back transition; ground
velocity if valid, otherwise airspeed. -/
def Standard.exit_backtransition_speed_condition (inp : update_vtol_state_inputs) : Bool :=
  if inp.v_xy_valid then
    F32.lt inp.vel_body_x inp.param_mpc_xy_cruise
  else if inp.calibrated_airspeed_m_s.isFinite then
    F32.lt inp.calibrated_airspeed_m_s inp.param_mpc_xy_cruise
  else
    false

/-- Line 87: the time exit condition of the back transition. -/
def Standard.exit_backtransition_time_condition (inp : update_vtol_state_inputs)
    (s : Standard) : Bool :=
  F32.gt s._time_since_trans_start inp.param_vt_b_trans_dur

/-- Lines 48 to 117: the branch on failure flag, transition switch and
airframe mode. Returns the airframe state and the local `mc_weight`. -/
def Standard.update_vtol_state_branch (k : VEHICLE_VTOL_STATE)
    (inp : update_vtol_state_inputs) (a : VtolAttitudeControl) : Standard × F32 :=
  let s := a._vtol_type
  let mc_weight := s._mc_roll_weight
  if a._vtol_vehicle_status.fixed_wing_system_failure then
    -- Failsafe event, engage mc motors immediately
    ({ s with _vtol_mode := vtol_mode.MC_MODE, _pusher_throttle := F32.zero }, mc_weight)
  else if !a.is_fixed_wing_requested k then
    -- the transition to fw mode switch is off
    match s._vtol_mode with
    | vtol_mode.MC_MODE =>
      ({ s with _vtol_mode := vtol_mode.MC_MODE }, F32.one)
    | vtol_mode.FW_MODE =>
      -- Regular backtransition
      ({ s.resetTransitionStates inp.hrt_absolute_time with
          _vtol_mode := vtol_mode.TRANSITION_TO_MC }, mc_weight)
    | vtol_mode.TRANSITION_TO_FW =>
      -- failsafe back to mc mode
      ({ s with _vtol_mode := vtol_mode.MC_MODE, _pusher_throttle := F32.zero }, F32.one)
    | vtol_mode.TRANSITION_TO_MC =>
      if inp.can_transition_on_ground || Standard.exit_backtransition_speed_condition inp
          || Standard.exit_backtransition_time_condition inp s then
        ({ s with _vtol_mode := vtol_mode.MC_MODE }, mc_weight)
      else
        (s, mc_weight)
  else
    -- the transition to fw mode switch is on
    match s._vtol_mode with
    | vtol_mode.MC_MODE | vtol_mode.TRANSITION_TO_MC =>
      -- start transition to fw mode
      ({ s.resetTransitionStates inp.hrt_absolute_time with
          _vtol_mode := vtol_mode.TRANSITION_TO_FW }, mc_weight)
    | vtol_mode.FW_MODE =>
      ({ s with _vtol_mode := vtol_mode.FW_MODE }, F32.zero)
    | vtol_mode.TRANSITION_TO_FW =>
      if inp.isFrontTransitionCompleted then
        ({ s with _vtol_mode := vtol_mode.FW_MODE,
                  _trans_finished_ts := inp.hrt_absolute_time }, mc_weight)
      else
        (s, mc_weight)

/-- Lines 125 to 141: map specific control phases to simple control modes. -/
def Standard.common_mode_of : vtol_mode → mode
  | vtol_mode.MC_MODE => mode.ROTARY_WING
  | vtol_mode.FW_MODE => mode.FIXED_WING
  | vtol_mode.TRANSITION_TO_FW => mode.TRANSITION_TO_FW
  | vtol_mode.TRANSITION_TO_MC => mode.TRANSITION_TO_MC

/-- The member function `Standard::update_vtol_state`: the branch, then the
four weights are set to `mc_weight` and the common mode to the image of the
airframe mode. The coordinator state is only read. -/
def Standard.update_vtol_state (k : VEHICLE_VTOL_STATE)
    (inp : update_vtol_state_inputs) (a : VtolAttitudeControl) : VtolAttitudeControl :=
  let r := Standard.update_vtol_state_branch k inp a
  let s := r.1
  let mc_weight := r.2
  { a with _vtol_type :=
      { s with _mc_roll_weight := mc_weight,
               _mc_pitch_weight := mc_weight,
               _mc_yaw_weight := mc_weight,
               _mc_throttle_weight := mc_weight,
               _common_vtol_mode := Standard.common_mode_of s._vtol_mode } }

/-! ## Command intake (vtol_att_control_main.cpp) -/

namespace VtolAttitudeControl

/-- The member function `vehicle_status_poll` (lines 111 to 122).
`vehicle_status_sub` is the message the subscription copies into
`_vehicle_status`. -/
def vehicle_status_poll (k : VEHICLE_VTOL_STATE) (vehicle_status_sub : vehicle_status_s)
    (a : VtolAttitudeControl) : VtolAttitudeControl :=
  let a1 := { a with _vehicle_status := vehicle_status_sub }
  -- abort front transition when RTL is triggered
  let a2 :=
    if a1._vehicle_status.nav_state = NAVIGATION_STATE.AUTO_RTL
        ∧ a1._nav_state_prev ≠ NAVIGATION_STATE.AUTO_RTL
        ∧ a1._vtol_type.get_mode = mode.TRANSITION_TO_FW then
      { a1 with _transition_command := k.MC }
    else
      a1
  { a2 with _nav_state_prev := a2._vehicle_status.nav_state }

/-- Body of the loop of `action_request_poll` (lines 133 to 153) for one
copied request. -/
def action_request_poll_step (k : VEHICLE_VTOL_STATE) (action_request : action_request_s)
    (a : VtolAttitudeControl) : VtolAttitudeControl :=
  match action_request.action with
  | ACTION.VTOL_TRANSITION_TO_MULTICOPTER =>
    { a with _transition_command := k.MC, _immediate_transition := false }
  | ACTION.VTOL_TRANSITION_TO_FIXEDWING =>
    let a1 := { a with _transition_command := k.FW, _immediate_transition := false }
    -- reset fixed_wing_system_failure flag when a new transition to FW is triggered
    if a1._transition_command = k.FW then
      { a1 with _vtol_vehicle_status :=
          { a1._vtol_vehicle_status with fixed_wing_system_failure := false } }
    else
      a1
  | ACTION.OTHER _ => a

/-- The member function `action_request_poll` (lines 130 to 155): the loop
body once for every pending request, oldest first. -/
def action_request_poll (k : VEHICLE_VTOL_STATE) (action_request_sub : List action_request_s)
    (a : VtolAttitudeControl) : VtolAttitudeControl :=
  action_request_sub.foldl (fun acc req => action_request_poll_step k req acc) a

/-- Lines 175 to 179: deny transition from MC to FW in Takeoff, Land, RTL and
Orbit. -/
def vehicle_cmd_denied (k : VEHICLE_VTOL_STATE) (transition_command_param1 : Int)
    (a : VtolAttitudeControl) : Bool :=
  decide (transition_command_param1 = k.FW) &&
    (decide (a._vehicle_status.nav_state = NAVIGATION_STATE.AUTO_TAKEOFF)
      || decide (a._vehicle_status.nav_state = NAVIGATION_STATE.AUTO_LAND)
      || decide (a._vehicle_status.nav_state = NAVIGATION_STATE.AUTO_RTL)
      || decide (a._vehicle_status.nav_state = NAVIGATION_STATE.ORBIT))

/-- Body of the loop of `vehicle_cmd_poll` (lines 168 to 204) for one
received command; `now` is the clock reading `hrt_absolute_time()`. -/
def vehicle_cmd_poll_step (k : VEHICLE_VTOL_STATE) (now : Nat)
    (vehicle_command : vehicle_command_s) (a : VtolAttitudeControl) : VtolAttitudeControl :=
  if vehicle_command.command = VEHICLE_CMD.DO_VTOL_TRANSITION then
    let transition_command_param1 : Int := (F32.add vehicle_command.param1 F32.half).toInt
    let denied := vehicle_cmd_denied k transition_command_param1 a
    let result :=
      if denied then VEHICLE_CMD_RESULT.TEMPORARILY_REJECTED else VEHICLE_CMD_RESULT.ACCEPTED
    let a1 :=
      if denied then
        a
      else
        let a2 := { a with
          _transition_command := transition_command_param1,
          _immediate_transition :=
            if vehicle_command.param2.isFinite then
              decide ((F32.add vehicle_command.param2 F32.half).toInt ≠ 0)
            else
              false }
        -- reset fixed_wing_system_failure flag when a new transition to FW is triggered
        if a2._transition_command = k.FW then
          { a2 with _vtol_vehicle_status :=
              { a2._vtol_vehicle_status with fixed_wing_system_failure := false } }
        else
          a2
    if vehicle_command.from_external then
      { a1 with command_ack_pub := a1.command_ack_pub ++
          [{ timestamp := now,
             command := vehicle_command.command,
             result := result,
             target_system := vehicle_command.source_system,
             target_component := vehicle_command.source_component }] }
    else
      a1
  else
    a

/-- The member function `vehicle_cmd_poll` (lines 163 to 206): the loop body
once for every pending command, oldest first, each paired with the clock
reading of its iteration. -/
def vehicle_cmd_poll (k : VEHICLE_VTOL_STATE) (vehicle_cmd_sub : List (Nat × vehicle_command_s))
    (a : VtolAttitudeControl) : VtolAttitudeControl :=
  vehicle_cmd_sub.foldl (fun acc m => vehicle_cmd_poll_step k m.1 m.2 acc) a

/-- One call of `events::send` with log level Critical. -/
def events_send (id message : String) (a : VtolAttitudeControl) : VtolAttitudeControl :=
  { a with events := a.events ++ [{ id := id, message := message }] }

/-- The id that `quadchute` passes to `events::ID` in the case of each cause
(lines 224 to 257); the empty string for `None`, which sends no event. -/
def quadchute_event_id : QuadchuteReason → String
  | QuadchuteReason.TransitionTimeout => "vtol_att_ctrl_quadchute_tout"
  | QuadchuteReason.ExternalCommand => "vtol_att_ctrl_quadchute_ext_cmd"
  | QuadchuteReason.MinimumAltBreached => "vtol_att_ctrl_quadchute_min_alt"
  | QuadchuteReason.UncommandedDescent => "vtol_att_ctrl_quadchute_alt_loss"
  | QuadchuteReason.TransitionAltitudeLoss => "vtol_att_ctrl_quadchute_trans_alt_err"
  | QuadchuteReason.MaximumPitchExceeded => "vtol_att_ctrl_quadchute_max_pitch"
  | QuadchuteReason.MaximumRollExceeded => "vtol_att_ctrl_quadchute_max_roll"
  | QuadchuteReason.None => ""

/-- The member function `quadchute` (lines 216 to 266). -/
def quadchute (reason : QuadchuteReason) (a : VtolAttitudeControl) : VtolAttitudeControl :=
  if !a._vtol_vehicle_status.fixed_wing_system_failure then
    -- only publish generic warning through mavlink to safe flash
    let a1 := { a with _mavlink_log_pub := a._mavlink_log_pub ++ ["Quad-chute triggered\t"] }
    -- the switch: `some` when control leaves it by `break`, `none` for `return`
    let after_switch : Option VtolAttitudeControl :=
      match reason with
      | QuadchuteReason.TransitionTimeout =>
        some (events_send "vtol_att_ctrl_quadchute_tout"
          "Quad-chute triggered due to transition timeout" a1)
      | QuadchuteReason.ExternalCommand =>
        some (events_send "vtol_att_ctrl_quadchute_ext_cmd"
          "Quad-chute triggered due to external command" a1)
      | QuadchuteReason.MinimumAltBreached =>
        some (events_send "vtol_att_ctrl_quadchute_min_alt"
          "Quad-chute triggered due to minimum altitude breach" a1)
      | QuadchuteReason.UncommandedDescent =>
        some (events_send "vtol_att_ctrl_quadchute_alt_loss"
          "Quad-chute triggered due to uncommanded descent detection" a1)
      | QuadchuteReason.TransitionAltitudeLoss =>
        some (events_send "vtol_att_ctrl_quadchute_trans_alt_err"
          "Quad-chute triggered due to loss of altitude during transition" a1)
      | QuadchuteReason.MaximumPitchExceeded =>
        some (events_send "vtol_att_ctrl_quadchute_max_pitch"
          "Quad-chute triggered due to maximum pitch angle exceeded" a1)
      | QuadchuteReason.MaximumRollExceeded =>
        some (events_send "vtol_att_ctrl_quadchute_max_roll"
          "Quad-chute triggered due to maximum roll angle exceeded" a1)
      | QuadchuteReason.None =>
        -- should never get in here
        none
    match after_switch with
    | some a2 =>
      { a2 with _vtol_vehicle_status :=
          { a2._vtol_vehicle_status with fixed_wing_system_failure := true } }
    | none => a1
  else
    a

/-- Lines 380 to 397 of `Run`, the part of a working cycle that drives the
state machine: `vehicle_status_poll`, `action_request_poll`,
`vehicle_cmd_poll`, then `update_vtol_state` of the airframe. The statements
in between (air density, `handleEkfResets`, which re-expresses stored
setpoints, and the two virtual attitude setpoint subscriptions) write none of
the fields of this state. -/
def Run_state_update (k : VEHICLE_VTOL_STATE) (inp : update_vtol_state_inputs)
    (vehicle_status_sub : vehicle_status_s) (action_request_sub : List action_request_s)
    (vehicle_cmd_sub : List (Nat × vehicle_command_s)) (a : VtolAttitudeControl) :
    VtolAttitudeControl :=
  Standard.update_vtol_state k inp
    (vehicle_cmd_poll k vehicle_cmd_sub
      (action_request_poll k action_request_sub
        (vehicle_status_poll k vehicle_status_sub a)))

end VtolAttitudeControl

/-! ## `Standard::update_transition_state` (standard.cpp, lines 148 to 244) -/

/-- What `Standard::update_transition_state` reads besides the airframe and
the coordinator state. -/
structure update_transition_state_inputs where
  /-- The clock reading `hrt_absolute_time()`, the local `now`. -/
  hrt_absolute_time : Nat
  /-- The cause found by the common quadchute checks of the base class;
  `None` when no check fires. -/
  quadchute_check : QuadchuteReason
  /-- The value `Eulerf(Quatf(_v_att_sp->q_d))` at entry. -/
  attitude_setpoint_euler : Eulerf
  /-- The flag `_v_control_mode->flag_control_climb_rate_enabled`. -/
  flag_control_climb_rate_enabled : Bool
  /-- The message behind `_mc_virtual_att_sp`. -/
  mc_virtual_att_sp : vehicle_attitude_setpoint_s
  /-- The message behind `_fw_virtual_att_sp`. -/
  fw_virtual_att_sp : vehicle_attitude_setpoint_s
  /-- The value `Eulerf(Quatf(_fw_virtual_att_sp->q_d)).phi()`. -/
  fw_virtual_att_sp_phi : F32
  /-- The parameter `VT_PSHER_SLEW`. -/
  param_vt_psher_slew : F32
  /-- The parameter `VT_F_TRANS_THR`. -/
  param_vt_f_trans_thr : F32
  /-- Result of the base-class getter `getTransitionAirspeed()`. -/
  getTransitionAirspeed : F32
  /-- Result of the base-class getter `getBlendAirspeed()`. -/
  getBlendAirspeed : F32
  /-- Result of the base-class getter `getMinimumFrontTransitionTime()`. -/
  getMinimumFrontTransitionTime : F32
  /-- The value `_airspeed_validated->calibrated_airspeed_m_s`. -/
  calibrated_airspeed_m_s : F32
  /-- The parameter `FW_USE_AIRSPD`. -/
  param_fw_use_airspd : Bool
  /-- The parameter `FW_PSP_OFF`, in degrees. -/
  param_fw_psp_off : F32
  /-- Result of the base-class function
  `update_and_get_backtransition_pitch_sp()`. -/
  update_and_get_backtransition_pitch_sp : F32
  /-- The parameter `VT_B_TRANS_RAMP`. -/
  param_vt_b_trans_ramp : F32
deriving DecidableEq

/-- Modelled from the spec: `VtolType::update_transition_state()` (defined in
`vtol_type.cpp`, not among the sources), the shared housekeeping: it
maintains `time_since_trans_start`, the time in seconds since
`trans_start_ts`, and runs the common quadchute checks, calling `quadchute`
with the cause they find. The EKF-reset handling is the separate call
`handleEkfResets()` at line 390 of `Run`. -/
def VtolType.update_transition_state (inp : update_transition_state_inputs)
    (a : VtolAttitudeControl) : VtolAttitudeControl :=
  let a1 := { a with _vtol_type := { a._vtol_type with
    _time_since_trans_start :=
      F32.div (F32.ofNat (hrt_sub inp.hrt_absolute_time a._vtol_type._trans_start_ts))
        (F32.finite 1000000) } }
  if inp.quadchute_check = QuadchuteReason.None then a1
  else VtolAttitudeControl.quadchute inp.quadchute_check a1

/-- Lines 160 to 179: the check that the incoming virtual attitude setpoints
are recent and the copy into `_v_att_sp`. `none` stands for the early
`return`; otherwise the new `_v_att_sp` and the local `roll_body`. -/
def Standard.update_transition_state_copy (inp : update_transition_state_inputs) :
    Option (vehicle_attitude_setpoint_s × F32) :=
  let now := inp.hrt_absolute_time
  if inp.flag_control_climb_rate_enabled then
    if decide (inp.mc_virtual_att_sp.timestamp < hrt_sub now time_1_s)
        || decide (inp.fw_virtual_att_sp.timestamp < hrt_sub now time_1_s) then
      none
    else
      some (inp.mc_virtual_att_sp, inp.fw_virtual_att_sp_phi)
  else
    if decide (inp.fw_virtual_att_sp.timestamp < hrt_sub now time_1_s) then
      none
    else
      some ({ inp.fw_virtual_att_sp with
                thrust_body := { inp.fw_virtual_att_sp.thrust_body with
                  z := F32.neg inp.fw_virtual_att_sp.thrust_body.x } },
            inp.attitude_setpoint_euler.phi)

/-- Lines 182 to 193: the pusher throttle of the front transition. Returns
the new `_pusher_throttle` and `_last_time_pusher_transition_update`. The
clock difference is converted to `float`, and the quotient by `1e6f`, the
product with the slew rate and the sum with the throttle are each rounded to
`float`; `0.05f` is the float nearest to 0.05. -/
def Standard.update_pusher_throttle (inp : update_transition_state_inputs)
    (s : Standard) : F32 × Nat :=
  let now := inp.hrt_absolute_time
  if F32.le inp.param_vt_psher_slew F32.FLT_EPSILON then
    -- just set the final target throttle value
    (inp.param_vt_f_trans_thr, s._last_time_pusher_transition_update)
  else if F32.le s._pusher_throttle inp.param_vt_f_trans_thr then
    -- ramp up throttle to the target throttle value
    let dt := F32.min
      (F32.div_f (F32.ofUInt64 (hrt_sub now s._last_time_pusher_transition_update))
        (F32.finite 1000000))
      (F32.round (1 / 20))
    (F32.min (F32.add_f s._pusher_throttle (F32.mul_f inp.param_vt_psher_slew dt))
        inp.param_vt_f_trans_thr,
      now)
  else
    (s._pusher_throttle, s._last_time_pusher_transition_update)

/-- Lines 197 to 212: the local `mc_weight` of the front transition, before
the final `constrain`; it keeps its initial value 1 when neither blend
applies. -/
def Standard.front_transition_mc_weight (inp : update_transition_state_inputs)
    (airspeed_trans_blend_margin time_since_trans_start : F32) : F32 :=
  if F32.gt airspeed_trans_blend_margin F32.zero
      && inp.calibrated_airspeed_m_s.isFinite
      && F32.gt inp.calibrated_airspeed_m_s F32.zero
      && F32.ge inp.calibrated_airspeed_m_s inp.getBlendAirspeed
      && F32.gt time_since_trans_start inp.getMinimumFrontTransitionTime then
    F32.sub F32.one
      (F32.div (F32.fabsf (F32.sub inp.calibrated_airspeed_m_s inp.getBlendAirspeed))
        airspeed_trans_blend_margin)
  else if !inp.param_fw_use_airspd || !inp.calibrated_airspeed_m_s.isFinite then
    -- time based blending when no airspeed sensor is set
    F32.constrain
      (F32.mul (F32.finite 2)
        (F32.sub F32.one (F32.div time_since_trans_start inp.getMinimumFrontTransitionTime)))
      F32.zero F32.one
  else
    F32.one

/-- The member function `Standard::update_transition_state`. -/
def Standard.update_transition_state (inp : update_transition_state_inputs)
    (a0 : VtolAttitudeControl) : VtolAttitudeControl :=
  let a := VtolType.update_transition_state inp a0
  let s := a._vtol_type
  let pitch_body := inp.attitude_setpoint_euler.theta
  let yaw_body := inp.attitude_setpoint_euler.psi
  match Standard.update_transition_state_copy inp with
  | none => a
  | some (v_att_sp, roll_body) =>
    -- the branch on the airframe mode: airframe, `_v_att_sp`, `mc_weight`
    let r : Standard × vehicle_attitude_setpoint_s × F32 :=
      match s._vtol_mode with
      | vtol_mode.TRANSITION_TO_FW =>
        let p := Standard.update_pusher_throttle inp s
        let margin := F32.sub inp.getTransitionAirspeed inp.getBlendAirspeed
        let mc_weight :=
          Standard.front_transition_mc_weight inp margin s._time_since_trans_start
        -- ramp up FW_PSP_OFF
        let pitch_body := F32.mul (F32.radians inp.param_fw_psp_off) (F32.sub F32.one mc_weight)
        ({ s with _pusher_throttle := p.1,
                  _last_time_pusher_transition_update := p.2,
                  _airspeed_trans_blend_margin := margin },
          { v_att_sp with
              thrust_body := { v_att_sp.thrust_body with x := p.1 },
              q_d := Quatf.from_euler roll_body pitch_body yaw_body },
          mc_weight)
      | vtol_mode.TRANSITION_TO_MC =>
        let pitch_body :=
          if inp.flag_control_climb_rate_enabled then
            -- control backtransition deceleration using pitch.
            inp.update_and_get_backtransition_pitch_sp
          else
            pitch_body
        ({ s with _pusher_throttle := F32.zero },
          { v_att_sp with q_d := Quatf.from_euler roll_body pitch_body yaw_body },
          -- continually increase mc attitude control as we transition back to mc mode
          if F32.gt inp.param_vt_b_trans_ramp F32.FLT_EPSILON then
            F32.div s._time_since_trans_start inp.param_vt_b_trans_ramp
          else
            F32.one)
      | _ => (s, v_att_sp, F32.one)
    let mc_weight := F32.constrain r.2.2 F32.zero F32.one
    { a with
      _vehicle_attitude_sp := r.2.1,
      _vtol_type := { r.1 with
        _mc_roll_weight := mc_weight,
        _mc_pitch_weight := mc_weight,
        _mc_yaw_weight := mc_weight,
        _mc_throttle_weight := mc_weight } }

/-! ## `Standard::fill_actuator_outputs` (standard.cpp, lines 267 to 338) -/

/-- What `Standard::fill_actuator_outputs` reads besides the airframe state:
the clock, the four virtual setpoints and the parameter `VT_ELEV_MC_LOCK`. -/
structure fill_actuator_outputs_inputs where
  hrt_absolute_time : Nat
  vehicle_torque_setpoint_virtual_mc : vehicle_torque_setpoint_s
  vehicle_torque_setpoint_virtual_fw : vehicle_torque_setpoint_s
  vehicle_thrust_setpoint_virtual_mc : vehicle_thrust_setpoint_s
  vehicle_thrust_setpoint_virtual_fw : vehicle_thrust_setpoint_s
  param_vt_elev_mc_lock : Bool
deriving DecidableEq

/-- The member function `Standard::fill_actuator_outputs`: the four setpoints
are stamped and zeroed (lines 269 to 291), then filled by airframe mode. -/
def Standard.fill_actuator_outputs (inp : fill_actuator_outputs_inputs)
    (a : VtolAttitudeControl) : VtolAttitudeControl :=
  let s := a._vtol_type
  let mc_torque := inp.vehicle_torque_setpoint_virtual_mc
  let fw_torque := inp.vehicle_torque_setpoint_virtual_fw
  let mc_thrust := inp.vehicle_thrust_setpoint_virtual_mc
  let fw_thrust := inp.vehicle_thrust_setpoint_virtual_fw
  let torque_0 : vehicle_torque_setpoint_s :=
    { a._torque_setpoint_0 with
      timestamp := inp.hrt_absolute_time,
      timestamp_sample := mc_torque.timestamp_sample,
      xyz := { x := F32.zero, y := F32.zero, z := F32.zero } }
  let torque_1 : vehicle_torque_setpoint_s :=
    { a._torque_setpoint_1 with
      timestamp := inp.hrt_absolute_time,
      timestamp_sample := fw_torque.timestamp_sample,
      xyz := { x := F32.zero, y := F32.zero, z := F32.zero } }
  let thrust_0 : vehicle_thrust_setpoint_s :=
    { a._thrust_setpoint_0 with
      timestamp := inp.hrt_absolute_time,
      timestamp_sample := mc_thrust.timestamp_sample,
      xyz := { x := F32.zero, y := F32.zero, z := F32.zero } }
  let thrust_1 : vehicle_thrust_setpoint_s :=
    { a._thrust_setpoint_1 with
      timestamp := inp.hrt_absolute_time,
      timestamp_sample := fw_thrust.timestamp_sample,
      xyz := { x := F32.zero, y := F32.zero, z := F32.zero } }
  match s._vtol_mode with
  | vtol_mode.MC_MODE =>
    { a with
      -- MC actuators
      _torque_setpoint_0 := { torque_0 with
        xyz := { x := mc_torque.xyz.x, y := mc_torque.xyz.y, z := mc_torque.xyz.z } },
      -- FW actuators
      _torque_setpoint_1 :=
        if !inp.param_vt_elev_mc_lock then
          { torque_1 with
            xyz := { torque_1.xyz with x := fw_torque.xyz.x, y := fw_torque.xyz.y } }
        else
          torque_1,
      _thrust_setpoint_0 := { thrust_0 with
        xyz := { thrust_0.xyz with z := mc_thrust.xyz.z, x := s._pusher_throttle } },
      _thrust_setpoint_1 := thrust_1 }
  | vtol_mode.TRANSITION_TO_FW | vtol_mode.TRANSITION_TO_MC =>
    { a with
      -- MC actuators
      _torque_setpoint_0 := { torque_0 with
        xyz := { x := F32.mul mc_torque.xyz.x s._mc_roll_weight,
                 y := F32.mul mc_torque.xyz.y s._mc_pitch_weight,
                 z := F32.mul mc_torque.xyz.z s._mc_yaw_weight } },
      -- FW actuators
      _torque_setpoint_1 := { torque_1 with
        xyz := { x := fw_torque.xyz.x, y := fw_torque.xyz.y, z := fw_torque.xyz.z } },
      _thrust_setpoint_0 := { thrust_0 with
        xyz := { thrust_0.xyz with
          z := F32.mul mc_thrust.xyz.z s._mc_throttle_weight,
          x := s._pusher_throttle } },
      _thrust_setpoint_1 := thrust_1 }
  | vtol_mode.FW_MODE =>
    { a with
      _torque_setpoint_0 := torque_0,
      -- FW actuators
      _torque_setpoint_1 := { torque_1 with
        xyz := { x := fw_torque.xyz.x, y := fw_torque.xyz.y, z := fw_torque.xyz.z } },
      _thrust_setpoint_0 := { thrust_0 with
        xyz := { thrust_0.xyz with x := fw_thrust.xyz.x } },
      _thrust_setpoint_1 := thrust_1 }

/-! ## `VtolAttitudeControl::Run` (vtol_att_control_main.cpp, lines 298 to 484) -/

/-- Modelled from the spec: `VtolType::update_mc_state()` (defined in
`vtol_type.cpp`, not among the sources), a pure passthrough of the virtual
multirotor attitude setpoint. -/
def VtolType.update_mc_state (mc_virtual_att_sp : vehicle_attitude_setpoint_s)
    (a : VtolAttitudeControl) : VtolAttitudeControl :=
  { a with _vehicle_attitude_sp := mc_virtual_att_sp }

/-- Modelled from the spec: `VtolType::update_fw_state()` (defined in
`vtol_type.cpp`, not among the sources), a pure passthrough of the virtual
fixed-wing attitude setpoint. -/
def VtolType.update_fw_state (fw_virtual_att_sp : vehicle_attitude_setpoint_s)
    (a : VtolAttitudeControl) : VtolAttitudeControl :=
  { a with _vehicle_attitude_sp := fw_virtual_att_sp }

/-- The member function `Standard::update_mc_state` (standard.cpp, lines 246
to 251); `pusher_assist` is the result of `VtolType::pusher_assist()`. -/
def Standard.update_mc_state (mc_virtual_att_sp : vehicle_attitude_setpoint_s)
    (pusher_assist : F32) (a : VtolAttitudeControl) : VtolAttitudeControl :=
  let a1 := VtolType.update_mc_state mc_virtual_att_sp a
  { a1 with _vtol_type := { a1._vtol_type with _pusher_throttle := pusher_assist } }

/-- The member function `Standard::update_fw_state` (standard.cpp, lines 257
to 260). -/
def Standard.update_fw_state (fw_virtual_att_sp : vehicle_attitude_setpoint_s)
    (a : VtolAttitudeControl) : VtolAttitudeControl :=
  VtolType.update_fw_state fw_virtual_att_sp a

/-- What one invocation of `Run` reads. -/
structure Run_inputs where
  /-- Result of `should_exit()`. -/
  should_exit : Bool
  /-- Whether the build defines `ENABLE_LOCKSTEP_SCHEDULER`. -/
  ENABLE_LOCKSTEP_SCHEDULER : Bool
  /-- The clock reading `hrt_absolute_time()`, the local `now` of the gate. -/
  hrt_absolute_time : Nat
  /-- Result of `_vtol_type->init()`. -/
  init : Bool
  /-- Whether a virtual fixed-wing torque or thrust setpoint was updated. -/
  updated_fw_in : Bool
  /-- Whether a virtual multirotor torque or thrust setpoint was updated. -/
  updated_mc_in : Bool
  vehicle_status_sub : vehicle_status_s
  action_request_sub : List action_request_s
  vehicle_cmd_sub : List (Nat × vehicle_command_s)
  mc_att_sp_updated : Bool
  fw_att_sp_updated : Bool
  vtol_state : update_vtol_state_inputs
  transition_state : update_transition_state_inputs
  /-- Result of `VtolType::pusher_assist()`. -/
  pusher_assist : F32
  actuator_outputs : fill_actuator_outputs_inputs
deriving DecidableEq

/-- How an invocation of `Run` ends: it exits the module, returns at the rate
check, finds no setpoint update to run on, or does a working cycle. -/
inductive Run_outcome where
  | exited
  | dropped
  | idle
  | worked
deriving DecidableEq

namespace VtolAttitudeControl

/-- Lines 310 to 319: whether `Run` returns early at the rate check. -/
def Run_rate_check (inp : Run_inputs) (a : VtolAttitudeControl) : Bool :=
  !inp.ENABLE_LOCKSTEP_SCHEDULER
    -- prevent excessive scheduling (> 500 Hz)
    && decide (hrt_sub inp.hrt_absolute_time a._last_run_timestamp < time_2_ms)

/-- Lines 342 to 355: run on actuator publications corresponding to VTOL
mode. -/
def Run_should_run (inp : Run_inputs) (a : VtolAttitudeControl) : Bool :=
  match a._vtol_type.get_mode with
  | mode.TRANSITION_TO_FW | mode.TRANSITION_TO_MC => inp.updated_fw_in || inp.updated_mc_in
  | mode.ROTARY_WING => inp.updated_mc_in
  | mode.FIXED_WING => inp.updated_fw_in

/-- Lines 399 to 444: the mode specific update of the airframe. -/
def Run_mode_update (inp : Run_inputs) (a : VtolAttitudeControl) : VtolAttitudeControl :=
  match a._vtol_type.get_mode with
  | mode.TRANSITION_TO_FW | mode.TRANSITION_TO_MC =>
    if inp.mc_att_sp_updated || inp.fw_att_sp_updated then
      Standard.update_transition_state inp.transition_state a
    else a
  | mode.ROTARY_WING =>
    if inp.mc_att_sp_updated then
      Standard.update_mc_state inp.transition_state.mc_virtual_att_sp inp.pusher_assist a
    else a
  | mode.FIXED_WING =>
    if inp.fw_att_sp_updated then
      Standard.update_fw_state inp.transition_state.fw_virtual_att_sp a
    else a

/-- The member function `Run`: exit request, rate check, initialisation, then,
when a setpoint of the current mode was updated, the polls, the state
machine, the mode specific update and `fill_actuator_outputs`. The state
`_vtol_vehicle_status.vehicle_vtol_state` and the publications at the end of
the cycle are not carried. -/
def Run (k : VEHICLE_VTOL_STATE) (inp : Run_inputs) (a : VtolAttitudeControl) :
    VtolAttitudeControl × Run_outcome :=
  if inp.should_exit then
    (a, Run_outcome.exited)
  else if Run_rate_check inp a then
    (a, Run_outcome.dropped)
  else if !a._initialized && !inp.init then
    (a, Run_outcome.exited)
  else
    let a1 := if !a._initialized then { a with _initialized := true } else a
    if Run_should_run inp a1 then
      let a2 := Run_state_update k inp.vtol_state inp.vehicle_status_sub
        inp.action_request_sub inp.vehicle_cmd_sub a1
      let a3 := Run_mode_update inp a2
      (Standard.fill_actuator_outputs inp.actuator_outputs a3, Run_outcome.worked)
    else
      (a1, Run_outcome.idle)

end VtolAttitudeControl

/-! ## `Standard::parameters_update` (standard.cpp, lines 27 to 34) -/

/-- The two parameters that `Standard::parameters_update` reads and writes,
`VT_B_TRANS_RAMP` and `VT_B_TRANS_DUR`, as stored. -/
structure Standard_parameters where
  _param_vt_b_trans_ramp : F32
  _param_vt_b_trans_dur : F32
deriving DecidableEq

/-- The member function `Standard::parameters_update` on the stored values:
`updateParams()` loads them into the members, then `set` stores the minimum
of the two as `VT_B_TRANS_RAMP`. The result is the pair of members, which is
also what is stored afterwards. -/
def Standard.parameters_update (stored : Standard_parameters) : Standard_parameters :=
  let loaded := stored
  -- make sure that pusher ramp in backtransition is smaller than back transition (max) duration
  { loaded with
    _param_vt_b_trans_ramp :=
      F32.min loaded._param_vt_b_trans_ramp loaded._param_vt_b_trans_dur }

/-! ## Concrete values used to instantiate the theorems -/

/-- Example values of the state codes, as in the description of
`DO_VTOL_TRANSITION` in the spec (param1: 2 = FW, 3 = MC). -/
def example_codes : VEHICLE_VTOL_STATE :=
  { MC := 3, FW := 2 }

/-- An airframe in the middle of a front transition: weights at one half,
pusher throttle at 0.7, one second after the start of the transition. -/
def example_front_transition : Standard :=
  { _common_vtol_mode := mode.TRANSITION_TO_FW,
    _mc_roll_weight := F32.finite (1 / 2),
    _mc_pitch_weight := F32.finite (1 / 2),
    _mc_yaw_weight := F32.finite (1 / 2),
    _mc_throttle_weight := F32.finite (1 / 2),
    _trans_start_ts := 5000000,
    _trans_finished_ts := 0,
    _time_since_trans_start := F32.finite 1,
    _vtol_mode := vtol_mode.TRANSITION_TO_FW,
    _pusher_throttle := F32.finite (7 / 10),
    _airspeed_trans_blend_margin := F32.finite 2,
    _last_time_pusher_transition_update := 5990000 }

/-- An airframe in the middle of a back transition, one second after its
start. -/
def example_back_transition : Standard :=
  { example_front_transition with
    _common_vtol_mode := mode.TRANSITION_TO_MC,
    _vtol_mode := vtol_mode.TRANSITION_TO_MC,
    _pusher_throttle := F32.zero }

/-- A coordinator flying the airframe `s` with the given transition command
and failure flag; nav state outside the named ones, nothing published yet. -/
def example_coordinator (s : Standard) (transition_command : Int) (failure : Bool) :
    VtolAttitudeControl :=
  { _vehicle_status := { nav_state := NAVIGATION_STATE.OTHER 0 },
    _nav_state_prev := NAVIGATION_STATE.OTHER 0,
    _transition_command := transition_command,
    _immediate_transition := false,
    _vtol_vehicle_status := { fixed_wing_system_failure := failure },
    _vtol_type := s,
    command_ack_pub := [],
    events := [],
    _mavlink_log_pub := [] }

/-- Inputs of a tick in the air: valid ground velocity of 20 m/s along body
x, calibrated airspeed 5 m/s, cruise speed 10 m/s, back-transition duration
4 s, front transition not completed. -/
def example_inputs : update_vtol_state_inputs :=
  { v_xy_valid := true,
    vel_body_x := F32.finite 20,
    calibrated_airspeed_m_s := F32.finite 5,
    param_mpc_xy_cruise := F32.finite 10,
    param_vt_b_trans_dur := F32.finite 4,
    can_transition_on_ground := false,
    isFrontTransitionCompleted := false,
    hrt_absolute_time := 6000000 }

/-- An external command to enter forward flight with the immediate flag set:
param1 = 2, param2 = 1, sent by system 255, component 190. -/
def example_fw_command : vehicle_command_s :=
  { command := VEHICLE_CMD.DO_VTOL_TRANSITION,
    param1 := F32.finite 2,
    param2 := F32.finite 1,
    from_external := true,
    source_system := 255,
    source_component := 190 }

/-- The coordinator `a` after the nav state `nav` has been read. -/
def example_in_nav_state (nav : NAVIGATION_STATE) (a : VtolAttitudeControl) :
    VtolAttitudeControl :=
  { a with _vehicle_status := { nav_state := nav } }

/-- Virtual setpoints of one cycle at clock 6000000: multirotor torque
(1, 2, 3) and thrust z of -5, fixed-wing torque (4, 5, 6) and thrust x of 7,
with `VT_ELEV_MC_LOCK` as given. -/
def example_actuator_inputs (elev_mc_lock : Bool) : fill_actuator_outputs_inputs :=
  { hrt_absolute_time := 6000000,
    vehicle_torque_setpoint_virtual_mc :=
      { timestamp := 5999000, timestamp_sample := 5998000,
        xyz := { x := F32.finite 1, y := F32.finite 2, z := F32.finite 3 } },
    vehicle_torque_setpoint_virtual_fw :=
      { timestamp := 5999000, timestamp_sample := 5998000,
        xyz := { x := F32.finite 4, y := F32.finite 5, z := F32.finite 6 } },
    vehicle_thrust_setpoint_virtual_mc :=
      { timestamp := 5999000, timestamp_sample := 5998000,
        xyz := { x := F32.zero, y := F32.zero, z := F32.finite (-5) } },
    vehicle_thrust_setpoint_virtual_fw :=
      { timestamp := 5999000, timestamp_sample := 5998000,
        xyz := { x := F32.finite 7, y := F32.zero, z := F32.zero } },
    param_vt_elev_mc_lock := elev_mc_lock }

/-- An airframe hovering in MC_MODE with the weights at 1 and the pusher
throttle at 0.2 (pusher assist). -/
def example_hover : Standard :=
  { example_front_transition with
    _common_vtol_mode := mode.ROTARY_WING,
    _vtol_mode := vtol_mode.MC_MODE,
    _mc_roll_weight := F32.one,
    _mc_pitch_weight := F32.one,
    _mc_yaw_weight := F32.one,
    _mc_throttle_weight := F32.one,
    _pusher_throttle := F32.finite (1 / 5) }

/-- An airframe in FW_MODE that still holds the weights and the pusher
throttle of the front transition. -/
def example_forward_flight : Standard :=
  { example_front_transition with
    _common_vtol_mode := mode.FIXED_WING,
    _vtol_mode := vtol_mode.FW_MODE }

/-- Inputs of `update_transition_state` at clock 6000000 with fresh virtual
attitude setpoints and climb-rate control enabled: blend airspeed 8 m/s,
transition airspeed 10 m/s, minimum front transition time 0.5 s, calibrated
airspeed 9 m/s, pusher slew 0.5 per second toward 0.7, back transition ramp
3 s. -/
def example_transition_inputs : update_transition_state_inputs :=
  { hrt_absolute_time := 6000000,
    quadchute_check := QuadchuteReason.None,
    attitude_setpoint_euler := { phi := F32.zero, theta := F32.zero, psi := F32.zero },
    flag_control_climb_rate_enabled := true,
    mc_virtual_att_sp := { timestamp := 5999000 },
    fw_virtual_att_sp := { timestamp := 5999000 },
    fw_virtual_att_sp_phi := F32.zero,
    param_vt_psher_slew := F32.finite (1 / 2),
    param_vt_f_trans_thr := F32.finite (7 / 10),
    getTransitionAirspeed := F32.finite 10,
    getBlendAirspeed := F32.finite 8,
    getMinimumFrontTransitionTime := F32.finite (1 / 2),
    calibrated_airspeed_m_s := F32.finite 9,
    param_fw_use_airspd := true,
    param_fw_psp_off := F32.finite 5,
    update_and_get_backtransition_pitch_sp := F32.zero,
    param_vt_b_trans_ramp := F32.finite 3 }

/-- Inputs of one invocation of `Run` at clock `now` in a build without
lockstep: every setpoint updated and fresh, no pending request or command,
nav state outside the named ones. -/
def example_run_inputs (now : Nat) : Run_inputs :=
  { should_exit := false,
    ENABLE_LOCKSTEP_SCHEDULER := false,
    hrt_absolute_time := now,
    init := true,
    updated_fw_in := true,
    updated_mc_in := true,
    vehicle_status_sub := { nav_state := NAVIGATION_STATE.OTHER 0 },
    action_request_sub := [],
    vehicle_cmd_sub := [],
    mc_att_sp_updated := true,
    fw_att_sp_updated := true,
    vtol_state := { example_inputs with hrt_absolute_time := now },
    transition_state :=
      { example_transition_inputs with
        hrt_absolute_time := now,
        mc_virtual_att_sp := { timestamp := now },
        fw_virtual_att_sp := { timestamp := now } },
    pusher_assist := F32.zero,
    actuator_outputs := { example_actuator_inputs false with hrt_absolute_time := now } }

/-- First half of a round trip: hover with forward flight requested, one
call of `update_vtol_state` (into TRANSITION_TO_FW at clock 6000000), one of
`update_transition_state` a second later, then `update_vtol_state` with the
front transition completed (into FW_MODE) and once more in forward flight. -/
def example_round_trip_forward : VtolAttitudeControl :=
  Standard.update_vtol_state example_codes
    { example_inputs with hrt_absolute_time := 7004000 }
    (Standard.update_vtol_state example_codes
      { example_inputs with isFrontTransitionCompleted := true, hrt_absolute_time := 7000000 }
      (Standard.update_transition_state
        { example_transition_inputs with
          hrt_absolute_time := 7000000,
          mc_virtual_att_sp := { timestamp := 7000000 },
          fw_virtual_att_sp := { timestamp := 7000000 } }
        (Standard.update_vtol_state example_codes example_inputs
          (example_coordinator { example_hover with _pusher_throttle := F32.zero } 2 false))))

/-- Second half, the request: the TransitionToMc action request and
`update_vtol_state` (into TRANSITION_TO_MC at clock 8000000). -/
def example_round_trip_request : VtolAttitudeControl :=
  Standard.update_vtol_state example_codes
    { example_inputs with hrt_absolute_time := 8000000 }
    (VtolAttitudeControl.action_request_poll example_codes
      [{ action := ACTION.VTOL_TRANSITION_TO_MULTICOPTER }] example_round_trip_forward)

/-- Inputs of `update_transition_state` one second into the back transition,
at clock 9000000, with fresh setpoints and a ramp of 3 s. -/
def example_back_transition_inputs : update_transition_state_inputs :=
  { example_transition_inputs with
    hrt_absolute_time := 9000000,
    mc_virtual_att_sp := { timestamp := 9000000 },
    fw_virtual_att_sp := { timestamp := 9000000 } }

/-- Second half, the back transition: one call of `update_transition_state`
one second after the request. -/
def example_round_trip_back : VtolAttitudeControl :=
  Standard.update_transition_state example_back_transition_inputs example_round_trip_request

/-- End of the round trip: `update_vtol_state` with the ground velocity not
valid and the calibrated airspeed of 5 m/s below the cruise speed. -/
def example_round_trip_end : VtolAttitudeControl :=
  Standard.update_vtol_state example_codes
    { example_inputs with v_xy_valid := false, hrt_absolute_time := 9004000 }
    example_round_trip_back

/-- An internal DO_VTOL_TRANSITION command whose param1 is 7, neither of the
two state codes. -/
def example_other_command : vehicle_command_s :=
  { command := VEHICLE_CMD.DO_VTOL_TRANSITION,
    param1 := F32.finite 7,
    param2 := F32.zero,
    from_external := false,
    source_system := 1,
    source_component := 1 }

/-- Successive calls of `Standard::update_transition_state`, one per tick, in
the order of the list. -/
def Standard.update_transition_state_ticks (ticks : List update_transition_state_inputs)
    (a : VtolAttitudeControl) : VtolAttitudeControl :=
  ticks.foldl (fun b t => Standard.update_transition_state t b) a

/-- Specification side: the capped time step min(dt, 0.05 s) in seconds, as
an exact number, for a clock difference of `n` microseconds. -/
def capped_step (n : Nat) : ℚ := min ((n : ℚ) / 1000000) (1 / 20)

/-- Specification side: the sum d_1 + ... + d_n of the capped time steps
d_i = min(dt_i, 0.05 s) in seconds, dt_i being the clock difference between
tick i and the pusher update before it; `last` is the clock of the pusher
update before the first tick, the list holds the clocks of the ticks. -/
def pusher_ramp_capped_steps (last : Nat) : List Nat → ℚ
  | [] => 0
  | now :: rest => capped_step (hrt_sub now last) + pusher_ramp_capped_steps now rest

/-- Specification side: the ticks are at most 50 ms apart. Each clock of the
list follows the one before it, the first follows `c0`, by at most 50000
microseconds, and none has wrapped around 2⁶⁴. -/
def ticks_at_most_50_ms_apart (c0 : Nat) : List Nat → Bool
  | [] => true
  | now :: rest =>
    decide (c0 ≤ now) && decide (now ≤ c0 + 50000) && decide (now < 2 ^ 64)
      && ticks_at_most_50_ms_apart now rest

/-- Specification side: the clock of the last tick of the list, `c0` when the
list is empty. -/
def clock_of_last_tick (c0 : Nat) : List Nat → Nat
  | [] => c0
  | now :: rest => clock_of_last_tick now rest

/-- A front transition that has just started at clock 5000000: pusher
throttle 0, weights 1, no pusher update yet. -/
def example_transition_start : Standard :=
  { example_front_transition with
    _mc_roll_weight := F32.one,
    _mc_pitch_weight := F32.one,
    _mc_yaw_weight := F32.one,
    _mc_throttle_weight := F32.one,
    _time_since_trans_start := F32.zero,
    _pusher_throttle := F32.zero,
    _last_time_pusher_transition_update := 0 }

/-- Inputs of the first `n` ticks of a front transition started at clock
5000000, 50 ms apart, each with fresh setpoints, slew 0.5 per second and, as
target throttle, the float nearest to 0.7. -/
def example_ramp_ticks (n : Nat) : List update_transition_state_inputs :=
  (List.range n).map fun i =>
    { example_transition_inputs with
      hrt_absolute_time := 5050000 + 50000 * i,
      mc_virtual_att_sp := { timestamp := 5050000 + 50000 * i },
      fw_virtual_att_sp := { timestamp := 5050000 + 50000 * i },
      param_vt_f_trans_thr := F32.round (7 / 10) }

/-- Inputs like `example_transition_inputs` with a calibrated airspeed of
12 m/s, above the transition airspeed of 10 m/s. -/
def example_fast_inputs : update_transition_state_inputs :=
  { example_transition_inputs with calibrated_airspeed_m_s := F32.finite 12 }

/-- A front transition whose four weights have reached 0. -/
def example_faded_transition : Standard :=
  { example_front_transition with
    _mc_roll_weight := F32.zero,
    _mc_pitch_weight := F32.zero,
    _mc_yaw_weight := F32.zero,
    _mc_throttle_weight := F32.zero }

/-- Virtual setpoints like `example_actuator_inputs` with a virtual
multirotor roll torque of NaN and a virtual multirotor thrust z of minus
infinity. -/
def example_nan_actuator_inputs : fill_actuator_outputs_inputs :=
  { example_actuator_inputs false with
    vehicle_torque_setpoint_virtual_mc :=
      { timestamp := 5999000, timestamp_sample := 5998000,
        xyz := { x := F32.nan, y := F32.finite 2, z := F32.finite 3 } },
    vehicle_thrust_setpoint_virtual_mc :=
      { timestamp := 5999000, timestamp_sample := 5998000,
        xyz := { x := F32.zero, y := F32.zero, z := F32.negInf } } }

open VtolAttitudeControl

/-! ## Theorems about `Standard::update_vtol_state` -/

/-- C1: whatever the airframe state, if `fixed_wing_system_failure` is set
when `update_vtol_state` runs, then afterwards the airframe mode is MC_MODE,
the common mode is ROTARY_WING and the pusher throttle is 0. -/
theorem update_vtol_state_failure_forces_mc (k : VEHICLE_VTOL_STATE)
    (inp : update_vtol_state_inputs) (a : VtolAttitudeControl)
    (h : a._vtol_vehicle_status.fixed_wing_system_failure = true) :
    (Standard.update_vtol_state k inp a)._vtol_type._vtol_mode = vtol_mode.MC_MODE
      ∧ (Standard.update_vtol_state k inp a)._vtol_type._common_vtol_mode = mode.ROTARY_WING
      ∧ (Standard.update_vtol_state k inp a)._vtol_type._pusher_throttle = F32.zero := by
  simp [Standard.update_vtol_state, Standard.update_vtol_state_branch, h,
    Standard.common_mode_of]

/-- Witness of C1: a failure latched in the middle of a front transition with
forward flight still requested. -/
theorem update_vtol_state_failure_forces_mc_witness :
    (example_coordinator example_front_transition 2 true)._vtol_vehicle_status.fixed_wing_system_failure
        = true
    ∧ (Standard.update_vtol_state example_codes example_inputs
        (example_coordinator example_front_transition 2 true))._vtol_type._vtol_mode
        = vtol_mode.MC_MODE
    ∧ (Standard.update_vtol_state example_codes example_inputs
        (example_coordinator example_front_transition 2 true))._vtol_type._common_vtol_mode
        = mode.ROTARY_WING
    ∧ (Standard.update_vtol_state example_codes example_inputs
        (example_coordinator example_front_transition 2 true))._vtol_type._pusher_throttle
        = F32.zero :=
  ⟨rfl, update_vtol_state_failure_forces_mc example_codes example_inputs
    (example_coordinator example_front_transition 2 true) rfl⟩

/-- C7: soft abort. In mode TRANSITION_TO_FW with FW not requested and no
failure latched, `update_vtol_state` sets the airframe mode to MC_MODE and the
common mode to ROTARY_WING, the pusher throttle to 0 and the four MC weights
to 1, and `fixed_wing_system_failure` stays false. -/
theorem update_vtol_state_soft_abort (k : VEHICLE_VTOL_STATE)
    (inp : update_vtol_state_inputs) (a : VtolAttitudeControl)
    (hmode : a._vtol_type._vtol_mode = vtol_mode.TRANSITION_TO_FW)
    (hreq : a.is_fixed_wing_requested k = false)
    (hfail : a._vtol_vehicle_status.fixed_wing_system_failure = false) :
    (Standard.update_vtol_state k inp a)._vtol_type._vtol_mode = vtol_mode.MC_MODE
      ∧ (Standard.update_vtol_state k inp a)._vtol_type._common_vtol_mode = mode.ROTARY_WING
      ∧ (Standard.update_vtol_state k inp a)._vtol_type._pusher_throttle = F32.zero
      ∧ (Standard.update_vtol_state k inp a)._vtol_type._mc_roll_weight = F32.one
      ∧ (Standard.update_vtol_state k inp a)._vtol_type._mc_pitch_weight = F32.one
      ∧ (Standard.update_vtol_state k inp a)._vtol_type._mc_yaw_weight = F32.one
      ∧ (Standard.update_vtol_state k inp a)._vtol_type._mc_throttle_weight = F32.one
      ∧ (Standard.update_vtol_state k inp a)._vtol_vehicle_status.fixed_wing_system_failure
          = false := by
  simp [Standard.update_vtol_state, Standard.update_vtol_state_branch, hmode, hreq, hfail,
    Standard.common_mode_of]

/-- Witness of C7: forward flight is no longer requested (command MC) in the
middle of a front transition. -/
theorem update_vtol_state_soft_abort_witness :
    (example_coordinator example_front_transition 3 false)._vtol_type._vtol_mode
        = vtol_mode.TRANSITION_TO_FW
    ∧ (example_coordinator example_front_transition 3 false).is_fixed_wing_requested
        example_codes = false
    ∧ (Standard.update_vtol_state example_codes example_inputs
        (example_coordinator example_front_transition 3 false))._vtol_type._vtol_mode
        = vtol_mode.MC_MODE
    ∧ (Standard.update_vtol_state example_codes example_inputs
        (example_coordinator example_front_transition 3 false))._vtol_type._mc_roll_weight
        = F32.one :=
  have h := update_vtol_state_soft_abort example_codes example_inputs
    (example_coordinator example_front_transition 3 false) rfl (by decide) rfl
  ⟨rfl, by decide, h.1, h.2.2.2.1⟩

/-- C9: with no failure latched, one call of `update_vtol_state` follows the
transition table. MC stays MC when FW is not requested; MC or TransitionToMc
goes to TransitionToFw when FW is requested; FW goes to TransitionToMc when FW
is not requested and stays FW when it is; TransitionToFw with FW requested
goes to FW exactly when `isFrontTransitionCompleted()` holds, recording the
clock in `_trans_finished_ts`, and otherwise stays TransitionToFw. After the
call the common mode is the image of the airframe mode. -/
theorem update_vtol_state_transition_table (k : VEHICLE_VTOL_STATE)
    (inp : update_vtol_state_inputs) (a : VtolAttitudeControl)
    (hfail : a._vtol_vehicle_status.fixed_wing_system_failure = false) :
    (a._vtol_type._vtol_mode = vtol_mode.MC_MODE → a.is_fixed_wing_requested k = false →
        (Standard.update_vtol_state k inp a)._vtol_type._vtol_mode = vtol_mode.MC_MODE)
    ∧ (a._vtol_type._vtol_mode = vtol_mode.MC_MODE
          ∨ a._vtol_type._vtol_mode = vtol_mode.TRANSITION_TO_MC →
        a.is_fixed_wing_requested k = true →
        (Standard.update_vtol_state k inp a)._vtol_type._vtol_mode
          = vtol_mode.TRANSITION_TO_FW)
    ∧ (a._vtol_type._vtol_mode = vtol_mode.FW_MODE → a.is_fixed_wing_requested k = false →
        (Standard.update_vtol_state k inp a)._vtol_type._vtol_mode
          = vtol_mode.TRANSITION_TO_MC)
    ∧ (a._vtol_type._vtol_mode = vtol_mode.FW_MODE → a.is_fixed_wing_requested k = true →
        (Standard.update_vtol_state k inp a)._vtol_type._vtol_mode = vtol_mode.FW_MODE)
    ∧ (a._vtol_type._vtol_mode = vtol_mode.TRANSITION_TO_FW →
        a.is_fixed_wing_requested k = true →
        ((Standard.update_vtol_state k inp a)._vtol_type._vtol_mode = vtol_mode.FW_MODE
            ↔ inp.isFrontTransitionCompleted = true)
        ∧ (inp.isFrontTransitionCompleted = true →
            (Standard.update_vtol_state k inp a)._vtol_type._trans_finished_ts
              = inp.hrt_absolute_time)
        ∧ (inp.isFrontTransitionCompleted = false →
            (Standard.update_vtol_state k inp a)._vtol_type._vtol_mode
              = vtol_mode.TRANSITION_TO_FW))
    ∧ ((Standard.update_vtol_state k inp a)._vtol_type._vtol_mode = vtol_mode.MC_MODE →
        (Standard.update_vtol_state k inp a)._vtol_type._common_vtol_mode = mode.ROTARY_WING)
    ∧ ((Standard.update_vtol_state k inp a)._vtol_type._vtol_mode = vtol_mode.FW_MODE →
        (Standard.update_vtol_state k inp a)._vtol_type._common_vtol_mode = mode.FIXED_WING)
    ∧ ((Standard.update_vtol_state k inp a)._vtol_type._vtol_mode
          = vtol_mode.TRANSITION_TO_FW →
        (Standard.update_vtol_state k inp a)._vtol_type._common_vtol_mode
          = mode.TRANSITION_TO_FW)
    ∧ ((Standard.update_vtol_state k inp a)._vtol_type._vtol_mode
          = vtol_mode.TRANSITION_TO_MC →
        (Standard.update_vtol_state k inp a)._vtol_type._common_vtol_mode
          = mode.TRANSITION_TO_MC) := by
  refine ⟨?_, ?_, ?_, ?_, ?_, ?_, ?_, ?_, ?_⟩
  · intro hm hr
    simp [Standard.update_vtol_state, Standard.update_vtol_state_branch, hfail, hm, hr]
  · intro hm hr
    rcases hm with hm | hm <;>
      simp [Standard.update_vtol_state, Standard.update_vtol_state_branch, hfail, hm, hr,
        Standard.resetTransitionStates]
  · intro hm hr
    simp [Standard.update_vtol_state, Standard.update_vtol_state_branch, hfail, hm, hr,
      Standard.resetTransitionStates]
  · intro hm hr
    simp [Standard.update_vtol_state, Standard.update_vtol_state_branch, hfail, hm, hr]
  · intro hm hr
    cases hc : inp.isFrontTransitionCompleted <;>
      simp [Standard.update_vtol_state, Standard.update_vtol_state_branch, hfail, hm, hr, hc]
  all_goals
    intro hm
    simp only [Standard.update_vtol_state] at hm ⊢
    simp only [hm, Standard.common_mode_of]

/-- Witness of C9: a front transition with forward flight requested whose
completion predicate holds ends in FW_MODE and records the clock. -/
theorem update_vtol_state_transition_table_witness :
    (example_coordinator example_front_transition 2 false)._vtol_vehicle_status.fixed_wing_system_failure
        = false
    ∧ (Standard.update_vtol_state example_codes
        { example_inputs with isFrontTransitionCompleted := true }
        (example_coordinator example_front_transition 2 false))._vtol_type._vtol_mode
        = vtol_mode.FW_MODE
    ∧ (Standard.update_vtol_state example_codes
        { example_inputs with isFrontTransitionCompleted := true }
        (example_coordinator example_front_transition 2 false))._vtol_type._trans_finished_ts
        = 6000000 :=
  have h := (update_vtol_state_transition_table example_codes
    { example_inputs with isFrontTransitionCompleted := true }
    (example_coordinator example_front_transition 2 false) rfl).2.2.2.2.1 rfl (by decide)
  ⟨rfl, h.1.mpr rfl, h.2.1 rfl⟩

/-- C10 as stated fails: in TRANSITION_TO_MC with FW not requested and no
failure latched, the calibrated airspeed (5 m/s) is below MPC_XY_CRUISE
(10 m/s), yet the mode stays TRANSITION_TO_MC, because the ground velocity is
valid and its body-x component (20 m/s) is not below the cruise speed. -/
theorem update_vtol_state_back_exit_airspeed_counterexample :
    (example_coordinator example_back_transition 3 false)._vtol_type._vtol_mode
        = vtol_mode.TRANSITION_TO_MC
    ∧ (example_coordinator example_back_transition 3 false).is_fixed_wing_requested
        example_codes = false
    ∧ (example_coordinator example_back_transition 3 false)._vtol_vehicle_status.fixed_wing_system_failure
        = false
    ∧ F32.lt example_inputs.calibrated_airspeed_m_s example_inputs.param_mpc_xy_cruise = true
    ∧ (Standard.update_vtol_state example_codes example_inputs
        (example_coordinator example_back_transition 3 false))._vtol_type._vtol_mode
        = vtol_mode.TRANSITION_TO_MC
    ∧ (Standard.update_vtol_state example_codes example_inputs
        (example_coordinator example_back_transition 3 false))._vtol_type._vtol_mode
        ≠ vtol_mode.MC_MODE := by
  refine ⟨rfl, by decide, rfl, by decide, by decide, by decide⟩

/-- C10, amended: in TRANSITION_TO_MC with FW not requested and no failure
latched, `update_vtol_state` moves to MC_MODE exactly when the vehicle can
transition on ground, or the ground velocity is valid and its body-x component
is below MPC_XY_CRUISE, or the ground velocity is not valid and the calibrated
airspeed is finite and below MPC_XY_CRUISE, or the elapsed transition time
exceeds VT_B_TRANS_DUR; otherwise the mode stays TRANSITION_TO_MC. -/
theorem update_vtol_state_back_exit (k : VEHICLE_VTOL_STATE)
    (inp : update_vtol_state_inputs) (a : VtolAttitudeControl)
    (hmode : a._vtol_type._vtol_mode = vtol_mode.TRANSITION_TO_MC)
    (hreq : a.is_fixed_wing_requested k = false)
    (hfail : a._vtol_vehicle_status.fixed_wing_system_failure = false) :
    (Standard.update_vtol_state k inp a)._vtol_type._vtol_mode =
      if inp.can_transition_on_ground = true
          ∨ (inp.v_xy_valid = true ∧ F32.lt inp.vel_body_x inp.param_mpc_xy_cruise = true)
          ∨ (inp.v_xy_valid = false ∧ inp.calibrated_airspeed_m_s.isFinite = true
              ∧ F32.lt inp.calibrated_airspeed_m_s inp.param_mpc_xy_cruise = true)
          ∨ F32.gt a._vtol_type._time_since_trans_start inp.param_vt_b_trans_dur = true
      then vtol_mode.MC_MODE else vtol_mode.TRANSITION_TO_MC := by
  obtain ⟨vxy, vel, ias, cruise, dur, ground, done, now⟩ := inp
  simp only [Standard.update_vtol_state, Standard.update_vtol_state_branch, hfail, hmode, hreq,
    Standard.exit_backtransition_speed_condition, Standard.exit_backtransition_time_condition]
  cases ground <;> cases vxy <;> cases ias.isFinite <;> cases F32.lt vel cruise <;>
    cases F32.lt ias cruise <;> cases F32.gt a._vtol_type._time_since_trans_start dur <;>
    simp [hmode]

/-- Witness of C10, amended: with the ground velocity not valid, a calibrated
airspeed of 5 m/s below the cruise speed of 10 m/s ends the back transition. -/
theorem update_vtol_state_back_exit_witness :
    (example_coordinator example_back_transition 3 false)._vtol_type._vtol_mode
        = vtol_mode.TRANSITION_TO_MC
    ∧ (example_coordinator example_back_transition 3 false).is_fixed_wing_requested
        example_codes = false
    ∧ (example_coordinator example_back_transition 3 false)._vtol_vehicle_status.fixed_wing_system_failure
        = false
    ∧ (Standard.update_vtol_state example_codes { example_inputs with v_xy_valid := false }
        (example_coordinator example_back_transition 3 false))._vtol_type._vtol_mode
        = vtol_mode.MC_MODE :=
  ⟨rfl, by decide, rfl,
    (update_vtol_state_back_exit example_codes { example_inputs with v_xy_valid := false }
      (example_coordinator example_back_transition 3 false) rfl (by decide) rfl).trans
      (by decide)⟩

/-! ## Theorems about command intake -/

/-- C2: a DO_VTOL_TRANSITION command whose param1 rounds to the FW state,
processed by `vehicle_cmd_poll` while nav_state is AUTO_TAKEOFF, AUTO_LAND,
AUTO_RTL or ORBIT, leaves `_transition_command`, `_immediate_transition` and
`fixed_wing_system_failure` at the values they had before the command. -/
theorem vehicle_cmd_poll_rejected_keeps_state (k : VEHICLE_VTOL_STATE) (now : Nat)
    (cmd : vehicle_command_s) (a : VtolAttitudeControl)
    (hcmd : cmd.command = VEHICLE_CMD.DO_VTOL_TRANSITION)
    (hfw : (F32.add cmd.param1 F32.half).toInt = k.FW)
    (hnav : a._vehicle_status.nav_state = NAVIGATION_STATE.AUTO_TAKEOFF
      ∨ a._vehicle_status.nav_state = NAVIGATION_STATE.AUTO_LAND
      ∨ a._vehicle_status.nav_state = NAVIGATION_STATE.AUTO_RTL
      ∨ a._vehicle_status.nav_state = NAVIGATION_STATE.ORBIT) :
    (vehicle_cmd_poll k [(now, cmd)] a)._transition_command = a._transition_command
      ∧ (vehicle_cmd_poll k [(now, cmd)] a)._immediate_transition = a._immediate_transition
      ∧ (vehicle_cmd_poll k [(now, cmd)] a)._vtol_vehicle_status.fixed_wing_system_failure
          = a._vtol_vehicle_status.fixed_wing_system_failure := by
  have hden : vehicle_cmd_denied k k.FW a = true := by
    rcases hnav with h | h | h | h <;> simp [vehicle_cmd_denied, h]
  cases hext : cmd.from_external <;>
    simp [vehicle_cmd_poll, vehicle_cmd_poll_step, hcmd, hfw, hden, hext]

/-- Witness of C2: an external FW command with the immediate flag, received
during AUTO_LAND while the command is MC and a failure is latched. -/
theorem vehicle_cmd_poll_rejected_keeps_state_witness :
    example_fw_command.command = VEHICLE_CMD.DO_VTOL_TRANSITION
    ∧ (F32.add example_fw_command.param1 F32.half).toInt = example_codes.FW
    ∧ (example_in_nav_state NAVIGATION_STATE.AUTO_LAND
        (example_coordinator example_front_transition 3 true))._vehicle_status.nav_state
        = NAVIGATION_STATE.AUTO_LAND
    ∧ (vehicle_cmd_poll example_codes [(7000000, example_fw_command)]
        (example_in_nav_state NAVIGATION_STATE.AUTO_LAND
          (example_coordinator example_front_transition 3 true)))._transition_command = 3
    ∧ (vehicle_cmd_poll example_codes [(7000000, example_fw_command)]
        (example_in_nav_state NAVIGATION_STATE.AUTO_LAND
          (example_coordinator example_front_transition 3 true)))._vtol_vehicle_status.fixed_wing_system_failure
        = true :=
  have h := vehicle_cmd_poll_rejected_keeps_state example_codes 7000000 example_fw_command
    (example_in_nav_state NAVIGATION_STATE.AUTO_LAND
      (example_coordinator example_front_transition 3 true))
    rfl (by decide!) (Or.inr (Or.inl rfl))
  ⟨rfl, by decide!, rfl, h.1, h.2.2⟩

/-- C3: for a DO_VTOL_TRANSITION command processed by `vehicle_cmd_poll`, a
command ack is published if and only if `from_external` is set. Its result is
TEMPORARILY_REJECTED when the command requests FW while nav_state is
AUTO_TAKEOFF, AUTO_LAND, AUTO_RTL or ORBIT and ACCEPTED otherwise; its
target_system and target_component are the source_system and source_component
of the command. -/
theorem vehicle_cmd_poll_ack (k : VEHICLE_VTOL_STATE) (now : Nat)
    (cmd : vehicle_command_s) (a : VtolAttitudeControl)
    (hcmd : cmd.command = VEHICLE_CMD.DO_VTOL_TRANSITION) :
    (vehicle_cmd_poll k [(now, cmd)] a).command_ack_pub =
      if cmd.from_external = true then
        a.command_ack_pub ++
          [{ timestamp := now,
             command := VEHICLE_CMD.DO_VTOL_TRANSITION,
             result :=
               if (F32.add cmd.param1 F32.half).toInt = k.FW
                   ∧ (a._vehicle_status.nav_state = NAVIGATION_STATE.AUTO_TAKEOFF
                     ∨ a._vehicle_status.nav_state = NAVIGATION_STATE.AUTO_LAND
                     ∨ a._vehicle_status.nav_state = NAVIGATION_STATE.AUTO_RTL
                     ∨ a._vehicle_status.nav_state = NAVIGATION_STATE.ORBIT)
               then VEHICLE_CMD_RESULT.TEMPORARILY_REJECTED
               else VEHICLE_CMD_RESULT.ACCEPTED,
             target_system := cmd.source_system,
             target_component := cmd.source_component }]
      else
        a.command_ack_pub := by
  cases hext : cmd.from_external <;>
    by_cases hfw : (F32.add cmd.param1 F32.half).toInt = k.FW <;>
    by_cases h1 : a._vehicle_status.nav_state = NAVIGATION_STATE.AUTO_TAKEOFF <;>
    by_cases h2 : a._vehicle_status.nav_state = NAVIGATION_STATE.AUTO_LAND <;>
    by_cases h3 : a._vehicle_status.nav_state = NAVIGATION_STATE.AUTO_RTL <;>
    by_cases h4 : a._vehicle_status.nav_state = NAVIGATION_STATE.ORBIT <;>
    simp [vehicle_cmd_poll, vehicle_cmd_poll_step, vehicle_cmd_denied, hcmd, hfw, hext,
      h1, h2, h3, h4]

/-- Witness of C3: the external FW command during AUTO_LAND is answered by
one ack, TEMPORARILY_REJECTED, addressed to system 255, component 190. -/
theorem vehicle_cmd_poll_ack_witness :
    example_fw_command.command = VEHICLE_CMD.DO_VTOL_TRANSITION
    ∧ (vehicle_cmd_poll example_codes [(7000000, example_fw_command)]
        (example_in_nav_state NAVIGATION_STATE.AUTO_LAND
          (example_coordinator example_front_transition 3 false))).command_ack_pub
        = [{ timestamp := 7000000,
             command := VEHICLE_CMD.DO_VTOL_TRANSITION,
             result := VEHICLE_CMD_RESULT.TEMPORARILY_REJECTED,
             target_system := 255,
             target_component := 190 }] :=
  ⟨rfl, (vehicle_cmd_poll_ack example_codes 7000000 example_fw_command
    (example_in_nav_state NAVIGATION_STATE.AUTO_LAND
      (example_coordinator example_front_transition 3 false)) rfl).trans (by decide!)⟩

/-- C4: processing one action request or one vehicle command clears
`fixed_wing_system_failure` exactly when the message sets
`_transition_command` to FW, that is for a TransitionToFw action request and
for an accepted DO_VTOL_TRANSITION command whose param1 rounds to FW; every
other message leaves the flag as it was, and so does `vehicle_status_poll`. -/
theorem fixed_wing_system_failure_cleared_iff (k : VEHICLE_VTOL_STATE)
    (a : VtolAttitudeControl) (req : action_request_s) (now : Nat)
    (cmd : vehicle_command_s) (status : vehicle_status_s) :
    ((action_request_poll k [req] a)._vtol_vehicle_status.fixed_wing_system_failure =
        if req.action = ACTION.VTOL_TRANSITION_TO_FIXEDWING then false
        else a._vtol_vehicle_status.fixed_wing_system_failure)
    ∧ (req.action = ACTION.VTOL_TRANSITION_TO_FIXEDWING →
        (action_request_poll k [req] a)._transition_command = k.FW)
    ∧ ((vehicle_cmd_poll k [(now, cmd)] a)._vtol_vehicle_status.fixed_wing_system_failure =
        if cmd.command = VEHICLE_CMD.DO_VTOL_TRANSITION
            ∧ (F32.add cmd.param1 F32.half).toInt = k.FW
            ∧ ¬ (a._vehicle_status.nav_state = NAVIGATION_STATE.AUTO_TAKEOFF
                ∨ a._vehicle_status.nav_state = NAVIGATION_STATE.AUTO_LAND
                ∨ a._vehicle_status.nav_state = NAVIGATION_STATE.AUTO_RTL
                ∨ a._vehicle_status.nav_state = NAVIGATION_STATE.ORBIT)
        then false
        else a._vtol_vehicle_status.fixed_wing_system_failure)
    ∧ (cmd.command = VEHICLE_CMD.DO_VTOL_TRANSITION
          ∧ (F32.add cmd.param1 F32.half).toInt = k.FW
          ∧ ¬ (a._vehicle_status.nav_state = NAVIGATION_STATE.AUTO_TAKEOFF
              ∨ a._vehicle_status.nav_state = NAVIGATION_STATE.AUTO_LAND
              ∨ a._vehicle_status.nav_state = NAVIGATION_STATE.AUTO_RTL
              ∨ a._vehicle_status.nav_state = NAVIGATION_STATE.ORBIT) →
        (vehicle_cmd_poll k [(now, cmd)] a)._transition_command = k.FW)
    ∧ (vehicle_status_poll k status a)._vtol_vehicle_status.fixed_wing_system_failure
        = a._vtol_vehicle_status.fixed_wing_system_failure := by
  refine ⟨?_, ?_, ?_, ?_, ?_⟩
  · cases hact : req.action <;>
      simp [action_request_poll, action_request_poll_step, hact]
  · intro hact
    simp [action_request_poll, action_request_poll_step, hact]
  · by_cases hcmd : cmd.command = VEHICLE_CMD.DO_VTOL_TRANSITION <;>
      by_cases hfw : (F32.add cmd.param1 F32.half).toInt = k.FW <;>
      by_cases h1 : a._vehicle_status.nav_state = NAVIGATION_STATE.AUTO_TAKEOFF <;>
      by_cases h2 : a._vehicle_status.nav_state = NAVIGATION_STATE.AUTO_LAND <;>
      by_cases h3 : a._vehicle_status.nav_state = NAVIGATION_STATE.AUTO_RTL <;>
      by_cases h4 : a._vehicle_status.nav_state = NAVIGATION_STATE.ORBIT <;>
      cases hext : cmd.from_external <;>
      simp [vehicle_cmd_poll, vehicle_cmd_poll_step, vehicle_cmd_denied, hcmd, hfw, hext,
        h1, h2, h3, h4]
  · rintro ⟨hcmd, hfw, hnav⟩
    have hden : vehicle_cmd_denied k k.FW a = false := by
      simp only [not_or] at hnav
      simp [vehicle_cmd_denied, hnav.1, hnav.2.1, hnav.2.2.1, hnav.2.2.2]
    cases hext : cmd.from_external <;>
      simp [vehicle_cmd_poll, vehicle_cmd_poll_step, hcmd, hfw, hden, hext]
  · simp only [vehicle_status_poll]
    split_ifs <;> rfl

/-- C5: for each of the seven causes, `quadchute(cause)` called while
`fixed_wing_system_failure` is false sets the flag, emits exactly one event,
the one with the id of that cause (the seven ids are pairwise different), and
exactly one MAVLink critical log line, and changes nothing else; called while
the flag is already true it changes nothing and emits nothing. -/
theorem quadchute_latches_once (reason : QuadchuteReason) (a : VtolAttitudeControl)
    (hreason : reason ≠ QuadchuteReason.None) :
    (a._vtol_vehicle_status.fixed_wing_system_failure = false →
      ∃ message : String,
        quadchute reason a =
          { a with
            _vtol_vehicle_status := { fixed_wing_system_failure := true },
            events := a.events ++ [{ id := quadchute_event_id reason, message := message }],
            _mavlink_log_pub := a._mavlink_log_pub ++ ["Quad-chute triggered\t"] })
    ∧ (a._vtol_vehicle_status.fixed_wing_system_failure = true → quadchute reason a = a)
    ∧ (∀ other : QuadchuteReason, other ≠ QuadchuteReason.None →
        quadchute_event_id other = quadchute_event_id reason → other = reason) := by
  refine ⟨?_, ?_, ?_⟩
  · intro hf
    cases reason <;>
      first
      | exact absurd rfl hreason
      | exact ⟨_, by simp only [quadchute, events_send, quadchute_event_id, hf]; rfl⟩
  · intro hf
    simp [quadchute, hf]
  · intro other hother
    cases reason <;> cases other <;> simp [quadchute_event_id] at hreason hother ⊢

/-- Witness of C5: a transition timeout with no failure latched before. -/
theorem quadchute_latches_once_witness :
    QuadchuteReason.TransitionTimeout ≠ QuadchuteReason.None
    ∧ (quadchute QuadchuteReason.TransitionTimeout
        (example_coordinator example_front_transition 2 false))._vtol_vehicle_status.fixed_wing_system_failure
        = true
    ∧ (quadchute QuadchuteReason.TransitionTimeout
        (example_coordinator example_front_transition 2 false)).events.map event_s.id
        = ["vtol_att_ctrl_quadchute_tout"]
    ∧ quadchute QuadchuteReason.TransitionTimeout
        (quadchute QuadchuteReason.TransitionTimeout
          (example_coordinator example_front_transition 2 false))
        = quadchute QuadchuteReason.TransitionTimeout
          (example_coordinator example_front_transition 2 false) :=
  ⟨by decide, by decide, by decide,
    (quadchute_latches_once QuadchuteReason.TransitionTimeout
      (quadchute QuadchuteReason.TransitionTimeout
        (example_coordinator example_front_transition 2 false)) (by decide)).2.1 (by decide)⟩

/-- C6: `vehicle_status_poll` sets `_transition_command` to MC when the newly
read nav_state is AUTO_RTL, the previously recorded one was not AUTO_RTL and
the common mode of the airframe is TRANSITION_TO_FW, and leaves it unchanged
in every other case, in particular when the previous nav_state already was
AUTO_RTL and so over two consecutive polls reading AUTO_RTL; after every poll
`_nav_state_prev` is the newly read nav_state. -/
theorem vehicle_status_poll_rtl_edge (k : VEHICLE_VTOL_STATE) (status : vehicle_status_s)
    (a : VtolAttitudeControl) :
    ((vehicle_status_poll k status a)._transition_command =
        if status.nav_state = NAVIGATION_STATE.AUTO_RTL
            ∧ a._nav_state_prev ≠ NAVIGATION_STATE.AUTO_RTL
            ∧ a._vtol_type._common_vtol_mode = mode.TRANSITION_TO_FW
        then k.MC else a._transition_command)
    ∧ (a._nav_state_prev = NAVIGATION_STATE.AUTO_RTL →
        (vehicle_status_poll k status a)._transition_command = a._transition_command)
    ∧ ((vehicle_status_poll k { nav_state := NAVIGATION_STATE.AUTO_RTL }
          (vehicle_status_poll k { nav_state := NAVIGATION_STATE.AUTO_RTL } a))._transition_command
        = (vehicle_status_poll k { nav_state := NAVIGATION_STATE.AUTO_RTL } a)._transition_command)
    ∧ (vehicle_status_poll k status a)._nav_state_prev = status.nav_state
    ∧ (vehicle_status_poll k status a)._vehicle_status = status := by
  refine ⟨?_, ?_, ?_, ?_, ?_⟩
  · simp only [vehicle_status_poll, Standard.get_mode]
    split_ifs <;> rfl
  · intro hprev
    simp [vehicle_status_poll, hprev]
  · simp only [vehicle_status_poll, Standard.get_mode]
    split_ifs <;> simp_all
  · simp only [vehicle_status_poll]
    split_ifs <;> rfl
  · simp only [vehicle_status_poll]
    split_ifs <;> rfl

/-! ## The RTL abort over one working cycle -/

/-- C8 as stated fails: an airframe in TRANSITION_TO_FW with forward flight
requested and no failure latched reads nav state AUTO_RTL. After the cycle the
command is MC and no failure is latched, but the airframe mode is MC_MODE, not
TRANSITION_TO_MC. -/
theorem Run_rtl_abort_counterexample :
    (example_coordinator example_front_transition 2 false)._vtol_type._vtol_mode
        = vtol_mode.TRANSITION_TO_FW
    ∧ (example_coordinator example_front_transition 2 false)._vtol_type.get_mode
        = mode.TRANSITION_TO_FW
    ∧ (example_coordinator example_front_transition 2 false)._nav_state_prev
        ≠ NAVIGATION_STATE.AUTO_RTL
    ∧ (Run_state_update example_codes example_inputs
        { nav_state := NAVIGATION_STATE.AUTO_RTL } [] []
        (example_coordinator example_front_transition 2 false))._transition_command
        = example_codes.MC
    ∧ (Run_state_update example_codes example_inputs
        { nav_state := NAVIGATION_STATE.AUTO_RTL } [] []
        (example_coordinator example_front_transition 2 false))._vtol_type._vtol_mode
        = vtol_mode.MC_MODE
    ∧ ¬ ((Run_state_update example_codes example_inputs
        { nav_state := NAVIGATION_STATE.AUTO_RTL } [] []
        (example_coordinator example_front_transition 2 false))._vtol_type._vtol_mode
        = vtol_mode.TRANSITION_TO_MC) := by
  refine ⟨rfl, rfl, by decide, by decide, by decide, by decide⟩

/-- C8, amended: when the airframe is in TRANSITION_TO_FW (airframe mode and
common mode) and the nav state changes into AUTO_RTL, then after the next
cycle with no other command arriving (`vehicle_status_poll`, then
`update_vtol_state`) the command is MC, the airframe mode is MC_MODE with
common mode ROTARY_WING and pusher throttle 0, and
`fixed_wing_system_failure` has the value it had before: the abort latches no
failure. The state codes MC and FW are different numbers. -/
theorem Run_rtl_abort (k : VEHICLE_VTOL_STATE) (inp : update_vtol_state_inputs)
    (status : vehicle_status_s) (a : VtolAttitudeControl)
    (hcodes : k.MC ≠ k.FW)
    (hmode : a._vtol_type._vtol_mode = vtol_mode.TRANSITION_TO_FW)
    (hcommon : a._vtol_type.get_mode = mode.TRANSITION_TO_FW)
    (hprev : a._nav_state_prev ≠ NAVIGATION_STATE.AUTO_RTL)
    (hnav : status.nav_state = NAVIGATION_STATE.AUTO_RTL) :
    (Run_state_update k inp status [] [] a)._transition_command = k.MC
      ∧ (Run_state_update k inp status [] [] a)._vtol_type._vtol_mode = vtol_mode.MC_MODE
      ∧ (Run_state_update k inp status [] [] a)._vtol_type._common_vtol_mode
          = mode.ROTARY_WING
      ∧ (Run_state_update k inp status [] [] a)._vtol_type._pusher_throttle = F32.zero
      ∧ (Run_state_update k inp status [] [] a)._vtol_vehicle_status.fixed_wing_system_failure
          = a._vtol_vehicle_status.fixed_wing_system_failure := by
  have hpoll : vehicle_status_poll k status a =
      { a with _vehicle_status := status, _transition_command := k.MC,
               _nav_state_prev := status.nav_state } := by
    simp [vehicle_status_poll, hnav, hprev, hcommon]
  cases hfail : a._vtol_vehicle_status.fixed_wing_system_failure <;>
    simp [Run_state_update, vehicle_cmd_poll, action_request_poll, hpoll,
      Standard.update_vtol_state, Standard.update_vtol_state_branch,
      VtolAttitudeControl.is_fixed_wing_requested, hcodes, hmode, hfail,
      Standard.common_mode_of]

/-- Witness of C8, amended: the front transition of the example, nav state
changing from a manual state into AUTO_RTL. -/
theorem Run_rtl_abort_witness :
    example_codes.MC ≠ example_codes.FW
    ∧ (example_coordinator example_front_transition 2 false)._vtol_type._vtol_mode
        = vtol_mode.TRANSITION_TO_FW
    ∧ (Run_state_update example_codes example_inputs
        { nav_state := NAVIGATION_STATE.AUTO_RTL } [] []
        (example_coordinator example_front_transition 2 false))._transition_command = 3
    ∧ (Run_state_update example_codes example_inputs
        { nav_state := NAVIGATION_STATE.AUTO_RTL } [] []
        (example_coordinator example_front_transition 2 false))._vtol_type._vtol_mode
        = vtol_mode.MC_MODE
    ∧ (Run_state_update example_codes example_inputs
        { nav_state := NAVIGATION_STATE.AUTO_RTL } [] []
        (example_coordinator example_front_transition 2 false))._vtol_vehicle_status.fixed_wing_system_failure
        = false :=
  have h := Run_rtl_abort example_codes example_inputs
    { nav_state := NAVIGATION_STATE.AUTO_RTL }
    (example_coordinator example_front_transition 2 false)
    (by decide) rfl rfl (by decide) rfl
  ⟨by decide, rfl, h.1, h.2.1, h.2.2.2.2⟩

/-! ## Theorems about the blending weights in `update_vtol_state` -/

/-- C11 as stated fails: a front transition that completes ends in FW_MODE
with the weights still at one half, and a back transition that ends, here by
the calibrated airspeed with no valid ground velocity, ends in MC_MODE with
the weights still at one half. -/
theorem update_vtol_state_weights_counterexample :
    ((Standard.update_vtol_state example_codes
        { example_inputs with isFrontTransitionCompleted := true }
        (example_coordinator example_front_transition 2 false))._vtol_type._vtol_mode
        = vtol_mode.FW_MODE
      ∧ (Standard.update_vtol_state example_codes
        { example_inputs with isFrontTransitionCompleted := true }
        (example_coordinator example_front_transition 2 false))._vtol_type._mc_roll_weight
        = F32.finite (1 / 2)
      ∧ F32.finite (1 / 2) ≠ F32.zero)
    ∧ ((Standard.update_vtol_state example_codes { example_inputs with v_xy_valid := false }
        (example_coordinator example_back_transition 3 false))._vtol_type._vtol_mode
        = vtol_mode.MC_MODE
      ∧ (Standard.update_vtol_state example_codes { example_inputs with v_xy_valid := false }
        (example_coordinator example_back_transition 3 false))._vtol_type._mc_roll_weight
        = F32.finite (1 / 2)
      ∧ F32.finite (1 / 2) ≠ F32.one) := by
  refine ⟨⟨by decide, rfl, by decide!⟩, ⟨by decide, rfl, by decide!⟩⟩

/-- C11, amended: after every call of `update_vtol_state` the four MC weights
are equal to one another. They are 1 when no failure is latched, FW is not
requested and the airframe was in MC_MODE or TRANSITION_TO_FW (it is then in
MC_MODE); they are 0 when no failure is latched, FW is requested and the
airframe was, and stays, in FW_MODE; on every other path, among them a latched
failure, the end of a back transition in MC_MODE and the end of a front
transition in FW_MODE, they are the roll weight held before the call. -/
theorem update_vtol_state_weights (k : VEHICLE_VTOL_STATE)
    (inp : update_vtol_state_inputs) (a : VtolAttitudeControl) :
    ((Standard.update_vtol_state k inp a)._vtol_type._mc_pitch_weight
        = (Standard.update_vtol_state k inp a)._vtol_type._mc_roll_weight
      ∧ (Standard.update_vtol_state k inp a)._vtol_type._mc_yaw_weight
        = (Standard.update_vtol_state k inp a)._vtol_type._mc_roll_weight
      ∧ (Standard.update_vtol_state k inp a)._vtol_type._mc_throttle_weight
        = (Standard.update_vtol_state k inp a)._vtol_type._mc_roll_weight)
    ∧ ((Standard.update_vtol_state k inp a)._vtol_type._mc_roll_weight =
        if a._vtol_vehicle_status.fixed_wing_system_failure = false
            ∧ a.is_fixed_wing_requested k = false
            ∧ (a._vtol_type._vtol_mode = vtol_mode.MC_MODE
              ∨ a._vtol_type._vtol_mode = vtol_mode.TRANSITION_TO_FW)
        then F32.one
        else if a._vtol_vehicle_status.fixed_wing_system_failure = false
            ∧ a.is_fixed_wing_requested k = true
            ∧ a._vtol_type._vtol_mode = vtol_mode.FW_MODE
        then F32.zero
        else a._vtol_type._mc_roll_weight)
    ∧ (a._vtol_vehicle_status.fixed_wing_system_failure = false
        → a.is_fixed_wing_requested k = false
        → a._vtol_type._vtol_mode = vtol_mode.MC_MODE
          ∨ a._vtol_type._vtol_mode = vtol_mode.TRANSITION_TO_FW
        → (Standard.update_vtol_state k inp a)._vtol_type._vtol_mode = vtol_mode.MC_MODE)
    ∧ (a._vtol_vehicle_status.fixed_wing_system_failure = false
        → a.is_fixed_wing_requested k = true
        → a._vtol_type._vtol_mode = vtol_mode.FW_MODE
        → (Standard.update_vtol_state k inp a)._vtol_type._vtol_mode
            = vtol_mode.FW_MODE) := by
  refine ⟨⟨rfl, rfl, rfl⟩, ?_, ?_, ?_⟩
  · cases hf : a._vtol_vehicle_status.fixed_wing_system_failure <;>
      cases hr : a.is_fixed_wing_requested k <;>
      cases hm : a._vtol_type._vtol_mode <;>
      simp [Standard.update_vtol_state, Standard.update_vtol_state_branch, hf, hr, hm,
        Standard.resetTransitionStates] <;>
      split_ifs <;> rfl
  · intro hf hr hm
    rcases hm with hm | hm <;>
      simp [Standard.update_vtol_state, Standard.update_vtol_state_branch, hf, hr, hm]
  · intro hf hr hm
    simp [Standard.update_vtol_state, Standard.update_vtol_state_branch, hf, hr, hm]

/-! ## Theorems about `Standard::fill_actuator_outputs` -/

/-- C15 as stated fails: in MC_MODE with `VT_ELEV_MC_LOCK` off and a virtual
FW torque of (4, 5, 6), torque setpoint 1 is (4, 5, 0): the yaw axis is not
passed through. -/
theorem fill_actuator_outputs_mc_yaw_counterexample :
    (example_coordinator example_hover 3 false)._vtol_type._vtol_mode = vtol_mode.MC_MODE
    ∧ (example_actuator_inputs false).param_vt_elev_mc_lock = false
    ∧ (Standard.fill_actuator_outputs (example_actuator_inputs false)
        (example_coordinator example_hover 3 false))._torque_setpoint_1.xyz
        = { x := F32.finite 4, y := F32.finite 5, z := F32.finite 0 }
    ∧ (Standard.fill_actuator_outputs (example_actuator_inputs false)
        (example_coordinator example_hover 3 false))._torque_setpoint_1.xyz
        ≠ (example_actuator_inputs false).vehicle_torque_setpoint_virtual_fw.xyz := by
  refine ⟨rfl, rfl, by decide, by decide⟩

/-- C15, amended: `fill_actuator_outputs` in MC_MODE makes torque setpoint 0
the virtual MC torque on all three axes, thrust0.z the virtual MC thrust z and
thrust0.x the pusher throttle; torque setpoint 1 is the virtual FW torque on
the roll and pitch axes with 0 on the yaw axis when `VT_ELEV_MC_LOCK` is off,
and 0 on every axis when it is on. -/
theorem fill_actuator_outputs_mc (inp : fill_actuator_outputs_inputs)
    (a : VtolAttitudeControl) (hmode : a._vtol_type._vtol_mode = vtol_mode.MC_MODE) :
    (Standard.fill_actuator_outputs inp a)._torque_setpoint_0.xyz
        = inp.vehicle_torque_setpoint_virtual_mc.xyz
    ∧ (Standard.fill_actuator_outputs inp a)._thrust_setpoint_0.xyz.z
        = inp.vehicle_thrust_setpoint_virtual_mc.xyz.z
    ∧ (Standard.fill_actuator_outputs inp a)._thrust_setpoint_0.xyz.x
        = a._vtol_type._pusher_throttle
    ∧ (Standard.fill_actuator_outputs inp a)._torque_setpoint_1.xyz =
        if inp.param_vt_elev_mc_lock = true then
          { x := F32.zero, y := F32.zero, z := F32.zero }
        else
          { x := inp.vehicle_torque_setpoint_virtual_fw.xyz.x,
            y := inp.vehicle_torque_setpoint_virtual_fw.xyz.y,
            z := F32.zero } := by
  cases hlock : inp.param_vt_elev_mc_lock <;>
    simp [Standard.fill_actuator_outputs, hmode, hlock]

/-- Witness of C15, amended: hover with the elevons locked. -/
theorem fill_actuator_outputs_mc_witness :
    (example_coordinator example_hover 3 false)._vtol_type._vtol_mode = vtol_mode.MC_MODE
    ∧ (Standard.fill_actuator_outputs (example_actuator_inputs true)
        (example_coordinator example_hover 3 false))._torque_setpoint_0.xyz
        = { x := F32.finite 1, y := F32.finite 2, z := F32.finite 3 }
    ∧ (Standard.fill_actuator_outputs (example_actuator_inputs true)
        (example_coordinator example_hover 3 false))._thrust_setpoint_0.xyz.x
        = F32.finite (1 / 5)
    ∧ (Standard.fill_actuator_outputs (example_actuator_inputs true)
        (example_coordinator example_hover 3 false))._torque_setpoint_1.xyz
        = { x := F32.zero, y := F32.zero, z := F32.zero } :=
  have h := fill_actuator_outputs_mc (example_actuator_inputs true)
    (example_coordinator example_hover 3 false) rfl
  ⟨rfl, h.1, h.2.2.1, h.2.2.2⟩

/-- C16 as stated fails in its clause on weights 0: in a front transition
whose four weights are 0, a virtual MC roll torque of NaN and a virtual MC
thrust z of minus infinity give NaN on torque setpoint 0 and on thrust0.z, not
zero, a float NaN or infinity times 0 being NaN. -/
theorem fill_actuator_outputs_transition_counterexample :
    (example_coordinator example_faded_transition 2 false)._vtol_type._vtol_mode
        = vtol_mode.TRANSITION_TO_FW
    ∧ example_faded_transition._mc_roll_weight = F32.zero
    ∧ example_faded_transition._mc_pitch_weight = F32.zero
    ∧ example_faded_transition._mc_yaw_weight = F32.zero
    ∧ example_faded_transition._mc_throttle_weight = F32.zero
    ∧ (Standard.fill_actuator_outputs example_nan_actuator_inputs
        (example_coordinator example_faded_transition 2 false))._torque_setpoint_0.xyz.x
        = F32.nan
    ∧ (Standard.fill_actuator_outputs example_nan_actuator_inputs
        (example_coordinator example_faded_transition 2 false))._thrust_setpoint_0.xyz.z
        = F32.nan
    ∧ (Standard.fill_actuator_outputs example_nan_actuator_inputs
        (example_coordinator example_faded_transition 2 false))._torque_setpoint_0.xyz
        ≠ { x := F32.zero, y := F32.zero, z := F32.zero } := by
  refine ⟨rfl, rfl, rfl, rfl, rfl, by decide!, by decide!, by decide!⟩

/-- C16, amended: `fill_actuator_outputs` in either transition mode scales the virtual
MC torque by the weight of each axis (roll, pitch, yaw) and the virtual MC
thrust z by the throttle weight, passes the virtual FW torque to torque
setpoint 1 on all three axes and puts the pusher throttle on thrust0.x. With
all weights 1 the MC channels are the virtual MC stream; with all weights 0
they are exactly zero when the virtual MC torque and thrust z are finite
numbers. -/
theorem fill_actuator_outputs_transition (inp : fill_actuator_outputs_inputs)
    (a : VtolAttitudeControl)
    (hmode : a._vtol_type._vtol_mode = vtol_mode.TRANSITION_TO_FW
      ∨ a._vtol_type._vtol_mode = vtol_mode.TRANSITION_TO_MC) :
    ((Standard.fill_actuator_outputs inp a)._torque_setpoint_0.xyz =
        { x := F32.mul inp.vehicle_torque_setpoint_virtual_mc.xyz.x a._vtol_type._mc_roll_weight,
          y := F32.mul inp.vehicle_torque_setpoint_virtual_mc.xyz.y a._vtol_type._mc_pitch_weight,
          z := F32.mul inp.vehicle_torque_setpoint_virtual_mc.xyz.z a._vtol_type._mc_yaw_weight })
    ∧ (Standard.fill_actuator_outputs inp a)._thrust_setpoint_0.xyz.z
        = F32.mul inp.vehicle_thrust_setpoint_virtual_mc.xyz.z a._vtol_type._mc_throttle_weight
    ∧ (Standard.fill_actuator_outputs inp a)._torque_setpoint_1.xyz
        = inp.vehicle_torque_setpoint_virtual_fw.xyz
    ∧ (Standard.fill_actuator_outputs inp a)._thrust_setpoint_0.xyz.x
        = a._vtol_type._pusher_throttle
    ∧ (a._vtol_type._mc_roll_weight = F32.one → a._vtol_type._mc_pitch_weight = F32.one →
        a._vtol_type._mc_yaw_weight = F32.one → a._vtol_type._mc_throttle_weight = F32.one →
        (Standard.fill_actuator_outputs inp a)._torque_setpoint_0.xyz
            = inp.vehicle_torque_setpoint_virtual_mc.xyz
        ∧ (Standard.fill_actuator_outputs inp a)._thrust_setpoint_0.xyz.z
            = inp.vehicle_thrust_setpoint_virtual_mc.xyz.z)
    ∧ (a._vtol_type._mc_roll_weight = F32.zero → a._vtol_type._mc_pitch_weight = F32.zero →
        a._vtol_type._mc_yaw_weight = F32.zero → a._vtol_type._mc_throttle_weight = F32.zero →
        inp.vehicle_torque_setpoint_virtual_mc.xyz.x.isFinite = true →
        inp.vehicle_torque_setpoint_virtual_mc.xyz.y.isFinite = true →
        inp.vehicle_torque_setpoint_virtual_mc.xyz.z.isFinite = true →
        inp.vehicle_thrust_setpoint_virtual_mc.xyz.z.isFinite = true →
        (Standard.fill_actuator_outputs inp a)._torque_setpoint_0.xyz
            = { x := F32.zero, y := F32.zero, z := F32.zero }
        ∧ (Standard.fill_actuator_outputs inp a)._thrust_setpoint_0.xyz.z = F32.zero) := by
  have hone : ∀ v : F32, F32.mul v F32.one = v := by
    intro v
    cases v <;> simp [F32.mul, F32.one]
  have hzero : ∀ v : F32, v.isFinite = true → F32.mul v F32.zero = F32.zero := by
    intro v hv
    cases v <;> simp_all [F32.mul, F32.zero, F32.isFinite]
  rcases hmode with hmode | hmode
  all_goals
    refine ⟨?_, ?_, ?_, ?_, ?_, ?_⟩
    · simp [Standard.fill_actuator_outputs, hmode]
    · simp [Standard.fill_actuator_outputs, hmode]
    · simp [Standard.fill_actuator_outputs, hmode]
    · simp [Standard.fill_actuator_outputs, hmode]
    · intro h1 h2 h3 h4
      simp [Standard.fill_actuator_outputs, hmode, h1, h2, h3, h4, hone]
    · intro h1 h2 h3 h4 f1 f2 f3 f4
      simp [Standard.fill_actuator_outputs, hmode, h1, h2, h3, h4, hzero _ f1, hzero _ f2,
        hzero _ f3, hzero _ f4]

/-- Witness of C16: the front transition of the example, weights at one
half, pusher throttle 0.7. -/
theorem fill_actuator_outputs_transition_witness :
    ((example_coordinator example_front_transition 2 false)._vtol_type._vtol_mode
        = vtol_mode.TRANSITION_TO_FW
      ∨ (example_coordinator example_front_transition 2 false)._vtol_type._vtol_mode
        = vtol_mode.TRANSITION_TO_MC)
    ∧ (Standard.fill_actuator_outputs (example_actuator_inputs false)
        (example_coordinator example_front_transition 2 false))._torque_setpoint_0.xyz
        = { x := F32.finite (1 / 2), y := F32.finite 1, z := F32.finite (3 / 2) }
    ∧ (Standard.fill_actuator_outputs (example_actuator_inputs false)
        (example_coordinator example_front_transition 2 false))._torque_setpoint_1.xyz
        = { x := F32.finite 4, y := F32.finite 5, z := F32.finite 6 }
    ∧ (Standard.fill_actuator_outputs (example_actuator_inputs false)
        (example_coordinator example_front_transition 2 false))._thrust_setpoint_0.xyz.x
        = F32.finite (7 / 10) :=
  have h := fill_actuator_outputs_transition (example_actuator_inputs false)
    (example_coordinator example_front_transition 2 false) (Or.inl rfl)
  ⟨Or.inl rfl, h.1.trans (by decide!), h.2.2.1, h.2.2.2.1⟩

/-- C17: `fill_actuator_outputs` in FW_MODE makes torque setpoint 1 the
virtual FW torque on all three axes and thrust0.x the virtual FW thrust x,
and zeroes the MC channels (torque setpoint 0 on every axis and thrust0.z),
whatever the outputs, the weights and the pusher throttle were before: two
states in FW_MODE get the same four setpoints from the same inputs. -/
theorem fill_actuator_outputs_fw (inp : fill_actuator_outputs_inputs)
    (a b : VtolAttitudeControl) (hmode : a._vtol_type._vtol_mode = vtol_mode.FW_MODE)
    (hmode_b : b._vtol_type._vtol_mode = vtol_mode.FW_MODE) :
    (Standard.fill_actuator_outputs inp a)._torque_setpoint_1.xyz
        = inp.vehicle_torque_setpoint_virtual_fw.xyz
    ∧ (Standard.fill_actuator_outputs inp a)._thrust_setpoint_0.xyz.x
        = inp.vehicle_thrust_setpoint_virtual_fw.xyz.x
    ∧ (Standard.fill_actuator_outputs inp a)._torque_setpoint_0.xyz
        = { x := F32.zero, y := F32.zero, z := F32.zero }
    ∧ (Standard.fill_actuator_outputs inp a)._thrust_setpoint_0.xyz.z = F32.zero
    ∧ (Standard.fill_actuator_outputs inp a)._torque_setpoint_0
        = (Standard.fill_actuator_outputs inp b)._torque_setpoint_0
    ∧ (Standard.fill_actuator_outputs inp a)._torque_setpoint_1
        = (Standard.fill_actuator_outputs inp b)._torque_setpoint_1
    ∧ (Standard.fill_actuator_outputs inp a)._thrust_setpoint_0
        = (Standard.fill_actuator_outputs inp b)._thrust_setpoint_0
    ∧ (Standard.fill_actuator_outputs inp a)._thrust_setpoint_1
        = (Standard.fill_actuator_outputs inp b)._thrust_setpoint_1 := by
  have ha : ∀ c : VtolAttitudeControl, c._vtol_type._vtol_mode = vtol_mode.FW_MODE →
      (Standard.fill_actuator_outputs inp c)._torque_setpoint_0 =
          { timestamp := inp.hrt_absolute_time,
            timestamp_sample := inp.vehicle_torque_setpoint_virtual_mc.timestamp_sample,
            xyz := { x := F32.zero, y := F32.zero, z := F32.zero } }
      ∧ (Standard.fill_actuator_outputs inp c)._torque_setpoint_1 =
          { timestamp := inp.hrt_absolute_time,
            timestamp_sample := inp.vehicle_torque_setpoint_virtual_fw.timestamp_sample,
            xyz := inp.vehicle_torque_setpoint_virtual_fw.xyz }
      ∧ (Standard.fill_actuator_outputs inp c)._thrust_setpoint_0 =
          { timestamp := inp.hrt_absolute_time,
            timestamp_sample := inp.vehicle_thrust_setpoint_virtual_mc.timestamp_sample,
            xyz := { x := inp.vehicle_thrust_setpoint_virtual_fw.xyz.x,
                     y := F32.zero, z := F32.zero } }
      ∧ (Standard.fill_actuator_outputs inp c)._thrust_setpoint_1 =
          { timestamp := inp.hrt_absolute_time,
            timestamp_sample := inp.vehicle_thrust_setpoint_virtual_fw.timestamp_sample,
            xyz := { x := F32.zero, y := F32.zero, z := F32.zero } } := by
    intro c hc
    simp [Standard.fill_actuator_outputs, hc]
  obtain ⟨a0, a1, a2, a3⟩ := ha a hmode
  obtain ⟨b0, b1, b2, b3⟩ := ha b hmode_b
  refine ⟨?_, ?_, ?_, ?_, ?_, ?_, ?_, ?_⟩
  · rw [a1]
  · rw [a2]
  · rw [a0]
  · rw [a2]
  · rw [a0, b0]
  · rw [a1, b1]
  · rw [a2, b2]
  · rw [a3, b3]

/-- Witness of C17: forward flight entered with weights at one half and
pusher throttle 0.7, once with the outputs of a hover cycle still in place
and once with zeroed outputs. -/
theorem fill_actuator_outputs_fw_witness :
    (Standard.fill_actuator_outputs (example_actuator_inputs false)
        (example_coordinator example_hover 2 false))._torque_setpoint_0.xyz
        = { x := F32.finite 1, y := F32.finite 2, z := F32.finite 3 }
    ∧ ({ Standard.fill_actuator_outputs (example_actuator_inputs false)
            (example_coordinator example_hover 2 false) with
          _vtol_type := example_forward_flight } : VtolAttitudeControl)._vtol_type._vtol_mode
        = vtol_mode.FW_MODE
    ∧ (Standard.fill_actuator_outputs (example_actuator_inputs false)
        { Standard.fill_actuator_outputs (example_actuator_inputs false)
            (example_coordinator example_hover 2 false) with
          _vtol_type := example_forward_flight })._torque_setpoint_0.xyz
        = { x := F32.zero, y := F32.zero, z := F32.zero }
    ∧ (Standard.fill_actuator_outputs (example_actuator_inputs false)
        { Standard.fill_actuator_outputs (example_actuator_inputs false)
            (example_coordinator example_hover 2 false) with
          _vtol_type := example_forward_flight })._thrust_setpoint_0.xyz.x
        = F32.finite 7
    ∧ (Standard.fill_actuator_outputs (example_actuator_inputs false)
        { Standard.fill_actuator_outputs (example_actuator_inputs false)
            (example_coordinator example_hover 2 false) with
          _vtol_type := example_forward_flight })._thrust_setpoint_0
      = (Standard.fill_actuator_outputs (example_actuator_inputs false)
        (example_coordinator example_forward_flight 2 false))._thrust_setpoint_0 :=
  have h := fill_actuator_outputs_fw (example_actuator_inputs false)
    { Standard.fill_actuator_outputs (example_actuator_inputs false)
        (example_coordinator example_hover 2 false) with
      _vtol_type := example_forward_flight }
    (example_coordinator example_forward_flight 2 false) rfl rfl
  ⟨by decide, rfl, h.2.2.1, h.2.1, h.2.2.2.2.2.2.1⟩

/-! ## Auxiliary facts about unsigned time arithmetic and the housekeeping -/

/-- Without wrap-around `hrt_sub` is the difference. -/
theorem hrt_sub_of_le (a b : Nat) (hba : b ≤ a) (ha : a < 2 ^ 64) : hrt_sub a b = a - b := by
  unfold hrt_sub
  have hb : b % 2 ^ 64 = b := Nat.mod_eq_of_lt (lt_of_le_of_lt hba ha)
  rw [hb]
  have h : a + 2 ^ 64 - b = (a - b) + 2 ^ 64 := by omega
  rw [h, Nat.add_mod_right]
  exact Nat.mod_eq_of_lt (lt_of_le_of_lt (Nat.sub_le a b) ha)

/-- The function `quadchute` writes only the failure flag, the events and the
MAVLink log. -/
theorem quadchute_frame (reason : QuadchuteReason) (a : VtolAttitudeControl) :
    (quadchute reason a)._vtol_type = a._vtol_type
    ∧ (quadchute reason a)._vehicle_attitude_sp = a._vehicle_attitude_sp
    ∧ (quadchute reason a)._transition_command = a._transition_command
    ∧ (quadchute reason a)._last_run_timestamp = a._last_run_timestamp := by
  cases hf : a._vtol_vehicle_status.fixed_wing_system_failure <;>
    cases reason <;> simp [quadchute, events_send, hf]

/-- The housekeeping of the base class writes the elapsed time; the attitude
setpoint, the command and the other members of the airframe stay. -/
theorem VtolType_update_transition_state_frame (inp : update_transition_state_inputs)
    (a : VtolAttitudeControl) :
    (VtolType.update_transition_state inp a)._vtol_type =
        { a._vtol_type with
          _time_since_trans_start :=
            F32.div (F32.ofNat (hrt_sub inp.hrt_absolute_time a._vtol_type._trans_start_ts))
              (F32.finite 1000000) }
    ∧ (VtolType.update_transition_state inp a)._vehicle_attitude_sp = a._vehicle_attitude_sp
    ∧ (VtolType.update_transition_state inp a)._transition_command = a._transition_command
    ∧ (VtolType.update_transition_state inp a)._last_run_timestamp
        = a._last_run_timestamp := by
  unfold VtolType.update_transition_state
  by_cases hq : inp.quadchute_check = QuadchuteReason.None
  · simp [hq]
  · simp only [hq, if_false]
    have h := quadchute_frame inp.quadchute_check
      { a with _vtol_type := { a._vtol_type with
        _time_since_trans_start :=
          F32.div (F32.ofNat (hrt_sub inp.hrt_absolute_time a._vtol_type._trans_start_ts))
            (F32.finite 1000000) } }
    exact ⟨h.1, h.2.1, h.2.2.1, h.2.2.2⟩

/-! ## Stale virtual attitude setpoints in `Standard::update_transition_state` -/

/-- C20 as stated fails: with climb-rate control disabled, a virtual MC
attitude setpoint older than 1 s (timestamp 0 at clock 6000000) and a fresh
virtual FW one, `update_transition_state` replaces the attitude setpoint. -/
theorem update_transition_state_stale_mc_counterexample :
    (example_coordinator example_front_transition 2 false)._vtol_type._vtol_mode
        = vtol_mode.TRANSITION_TO_FW
    ∧ (0 : Nat) + time_1_s < 6000000
    ∧ (Standard.update_transition_state
        { example_transition_inputs with
          flag_control_climb_rate_enabled := false,
          mc_virtual_att_sp := { timestamp := 0 } }
        (example_coordinator example_front_transition 2 false))._vehicle_attitude_sp
      ≠ (example_coordinator example_front_transition 2 false)._vehicle_attitude_sp := by
  refine ⟨rfl, by decide, by decide!⟩

/-- C20, amended: `update_transition_state` leaves the attitude setpoint at
its previous value, in either transition mode, when climb-rate control is
enabled and the virtual MC or the virtual FW attitude setpoint is older than
1 s, and when climb-rate control is disabled and the virtual FW attitude
setpoint is older than 1 s; with climb-rate control disabled the age of the
virtual MC setpoint is not looked at. The weights and the pusher throttle stay
as well. -/
theorem update_transition_state_stale (inp : update_transition_state_inputs)
    (a : VtolAttitudeControl) (hnow : inp.hrt_absolute_time < 2 ^ 64)
    (hstale : (inp.flag_control_climb_rate_enabled = true
          ∧ (inp.mc_virtual_att_sp.timestamp + time_1_s < inp.hrt_absolute_time
            ∨ inp.fw_virtual_att_sp.timestamp + time_1_s < inp.hrt_absolute_time))
        ∨ (inp.flag_control_climb_rate_enabled = false
          ∧ inp.fw_virtual_att_sp.timestamp + time_1_s < inp.hrt_absolute_time)) :
    (Standard.update_transition_state inp a)._vehicle_attitude_sp = a._vehicle_attitude_sp
    ∧ (Standard.update_transition_state inp a)._vtol_type._mc_roll_weight
        = a._vtol_type._mc_roll_weight
    ∧ (Standard.update_transition_state inp a)._vtol_type._mc_pitch_weight
        = a._vtol_type._mc_pitch_weight
    ∧ (Standard.update_transition_state inp a)._vtol_type._mc_yaw_weight
        = a._vtol_type._mc_yaw_weight
    ∧ (Standard.update_transition_state inp a)._vtol_type._mc_throttle_weight
        = a._vtol_type._mc_throttle_weight
    ∧ (Standard.update_transition_state inp a)._vtol_type._pusher_throttle
        = a._vtol_type._pusher_throttle := by
  have hcopy : Standard.update_transition_state_copy inp = none := by
    have hsub : time_1_s ≤ inp.hrt_absolute_time →
        hrt_sub inp.hrt_absolute_time time_1_s = inp.hrt_absolute_time - time_1_s :=
      fun h => hrt_sub_of_le _ _ h hnow
    unfold Standard.update_transition_state_copy
    rcases hstale with ⟨hc, h | h⟩ | ⟨hc, h⟩
    · have h1 : inp.mc_virtual_att_sp.timestamp < hrt_sub inp.hrt_absolute_time time_1_s := by
        rw [hsub (by omega)]; omega
      simp [hc, h1]
    · have h1 : inp.fw_virtual_att_sp.timestamp < hrt_sub inp.hrt_absolute_time time_1_s := by
        rw [hsub (by omega)]; omega
      simp [hc, h1]
    · have h1 : inp.fw_virtual_att_sp.timestamp < hrt_sub inp.hrt_absolute_time time_1_s := by
        rw [hsub (by omega)]; omega
      simp [hc, h1]
  have hbase := VtolType_update_transition_state_frame inp a
  simp only [Standard.update_transition_state, hcopy]
  refine ⟨hbase.2.1, ?_, ?_, ?_, ?_, ?_⟩ <;> rw [hbase.1]

/-- Witness of C20, amended: climb-rate control enabled and the virtual MC
attitude setpoint stamped at clock 0, six seconds old. -/
theorem update_transition_state_stale_witness :
    example_transition_inputs.hrt_absolute_time < 2 ^ 64
    ∧ ({ example_transition_inputs with mc_virtual_att_sp := { timestamp := 0 } }
        : update_transition_state_inputs).mc_virtual_att_sp.timestamp + time_1_s
        < example_transition_inputs.hrt_absolute_time
    ∧ (Standard.update_transition_state
        { example_transition_inputs with mc_virtual_att_sp := { timestamp := 0 } }
        (example_coordinator example_front_transition 2 false))._vehicle_attitude_sp
      = (example_coordinator example_front_transition 2 false)._vehicle_attitude_sp :=
  ⟨by decide, by decide,
    (update_transition_state_stale
      { example_transition_inputs with mc_virtual_att_sp := { timestamp := 0 } }
      (example_coordinator example_front_transition 2 false) (by decide)
      (Or.inl ⟨rfl, Or.inl (by decide)⟩)).1⟩

/-! ## Auxiliary facts about float operations on finite values -/

/-- The sum of finite values. -/
theorem F32_add_finite (x y : ℚ) : F32.add (F32.finite x) (F32.finite y) = F32.finite (x + y) :=
  rfl

/-- The difference of finite values. -/
theorem F32_sub_finite (x y : ℚ) : F32.sub (F32.finite x) (F32.finite y) = F32.finite (x - y) := by
  simp [F32.sub, F32.neg, F32.add, sub_eq_add_neg]

/-- The product of finite values. -/
theorem F32_mul_finite (x y : ℚ) : F32.mul (F32.finite x) (F32.finite y) = F32.finite (x * y) :=
  rfl

/-- The quotient of finite values with a nonzero divisor. -/
theorem F32_div_finite (x y : ℚ) (hy : y ≠ 0) :
    F32.div (F32.finite x) (F32.finite y) = F32.finite (x / y) := by
  simp [F32.div, hy]

/-- The comparison `<` of finite values. -/
theorem F32_lt_finite (x y : ℚ) : F32.lt (F32.finite x) (F32.finite y) = decide (x < y) :=
  rfl

/-- The comparison `>` of finite values. -/
theorem F32_gt_finite (x y : ℚ) : F32.gt (F32.finite x) (F32.finite y) = decide (y < x) :=
  rfl

/-- The comparison `<=` of finite values. -/
theorem F32_le_finite (x y : ℚ) : F32.le (F32.finite x) (F32.finite y) = decide (x ≤ y) :=
  rfl

/-- The function `math::min` on finite values. -/
theorem F32_min_finite (x y : ℚ) :
    F32.min (F32.finite x) (F32.finite y) = F32.finite (min x y) := by
  unfold F32.min
  rw [F32_lt_finite]
  by_cases h : x < y
  · simp [h, min_eq_left h.le]
  · simp [h, min_eq_right (not_lt.mp h)]

/-- The function `math::constrain` to [0, 1] on a finite value. -/
theorem F32_constrain_finite (x : ℚ) :
    F32.constrain (F32.finite x) F32.zero F32.one = F32.finite (max 0 (min x 1)) := by
  unfold F32.constrain F32.zero F32.one
  rw [F32_lt_finite, F32_gt_finite]
  by_cases h0 : x < 0
  · have h1 : min x 1 = x := min_eq_left (by linarith)
    simp [h0, h1, max_eq_left h0.le]
  · by_cases h1 : 1 < x
    · simp [h0, h1, min_eq_right h1.le]
    · have hx : min x 1 = x := min_eq_left (not_lt.mp h1)
      simp [h0, h1, hx, max_eq_right (not_lt.mp h0)]

namespace F32

/-- Rounding to the nearest integer gives the floor or the floor plus one. -/
theorem roundHalfEven_mem (x : ℚ) :
    roundHalfEven x = ⌊x⌋ ∨ roundHalfEven x = ⌊x⌋ + 1 := by
  unfold roundHalfEven
  split_ifs <;> simp

/-- Rounding to the nearest integer moves a value by at most one half. -/
theorem roundHalfEven_abs_sub_le (x : ℚ) : |(roundHalfEven x : ℚ) - x| ≤ 1 / 2 := by
  have h1 := Int.floor_le x
  have h2 := Int.lt_floor_add_one x
  unfold roundHalfEven
  split_ifs with ha hb hc
  · rw [abs_le]; constructor <;> linarith
  · push_cast; rw [abs_le]; constructor <;> linarith
  · rw [abs_le]; constructor <;> linarith
  · push_cast; rw [abs_le]; constructor <;> linarith

/-- Rounding to the nearest integer does not go below an integer that the
value is not below. -/
theorem le_roundHalfEven (k : ℤ) (x : ℚ) (h : (k : ℚ) ≤ x) : k ≤ roundHalfEven x := by
  have hk : k ≤ ⌊x⌋ := Int.le_floor.mpr h
  rcases roundHalfEven_mem x with hm | hm <;> omega

/-- Rounding to the nearest integer leaves an integer unchanged. -/
theorem roundHalfEven_intCast (k : ℤ) : roundHalfEven (k : ℚ) = k := by
  unfold roundHalfEven
  simp

/-- Rounding to the nearest integer does not go above an integer that the
value is not above. -/
theorem roundHalfEven_le (k : ℤ) (x : ℚ) (h : x ≤ (k : ℚ)) : roundHalfEven x ≤ k := by
  rcases eq_or_lt_of_le h with heq | hlt
  · rw [heq, roundHalfEven_intCast]
  · have hk : ⌊x⌋ < k := Int.floor_lt.mpr hlt
    rcases roundHalfEven_mem x with hm | hm <;> omega

/-- With enough fuel `log2_steps` is the binary logarithm rounded down. -/
theorem log2_steps_spec (fuel : Nat) :
    ∀ n : Nat, n ≤ fuel → n ≠ 0 →
      2 ^ log2_steps fuel n ≤ n ∧ n < 2 ^ (log2_steps fuel n + 1) := by
  induction fuel with
  | zero =>
    intro n hn h0
    omega
  | succ fuel ih =>
    intro n hn h0
    unfold log2_steps
    by_cases h2 : 2 ≤ n
    · rw [if_pos h2]
      have hhalf := ih (n / 2) (by omega) (by omega)
      constructor
      · calc 2 ^ (log2_steps fuel (n / 2) + 1) = 2 ^ log2_steps fuel (n / 2) * 2 := pow_succ _ _
          _ ≤ n / 2 * 2 := Nat.mul_le_mul_right 2 hhalf.1
          _ ≤ n := Nat.div_mul_le_self n 2
      · have h3 : n / 2 + 1 ≤ 2 ^ (log2_steps fuel (n / 2) + 1) := hhalf.2
        calc n < (n / 2 + 1) * 2 := by omega
          _ ≤ 2 ^ (log2_steps fuel (n / 2) + 1) * 2 := Nat.mul_le_mul_right 2 h3
          _ = 2 ^ (log2_steps fuel (n / 2) + 1 + 1) := (pow_succ _ _).symm
    · rw [if_neg h2]
      constructor <;> simp <;> omega

/-- The exponent of a positive magnitude: at least -126, the magnitude is
below 2 ^ (e + 1), and at least 2 ^ e unless the exponent is -126. -/
theorem exponent_spec (a : ℚ) (ha : 0 < a) :
    -126 ≤ exponent a ∧ a < (2 : ℚ) ^ (exponent a + 1)
      ∧ (-126 < exponent a → (2 : ℚ) ^ exponent a ≤ a) := by
  have hnum : 0 < a.num := Rat.num_pos.mpr ha
  have hn : a.num.natAbs ≠ 0 := Int.natAbs_ne_zero.mpr hnum.ne'
  have hd : a.den ≠ 0 := a.den_nz
  have hncast : ((a.num.natAbs : ℕ) : ℚ) = (a.num : ℚ) := by
    rw [Nat.cast_natAbs, abs_of_pos hnum]
  have hval : a = ((a.num.natAbs : ℕ) : ℚ) / (a.den : ℚ) := by
    rw [hncast]; exact (Rat.num_div_den a).symm
  have hexp : exponent a
      = max (if (2 : ℚ) ^ ((log2_steps a.num.natAbs a.num.natAbs : ℤ)
          - (log2_steps a.den a.den : ℤ)) ≤ a
        then (log2_steps a.num.natAbs a.num.natAbs : ℤ) - (log2_steps a.den a.den : ℤ)
        else (log2_steps a.num.natAbs a.num.natAbs : ℤ) - (log2_steps a.den a.den : ℤ) - 1)
        (-126) := rfl
  have hnspec := log2_steps_spec a.num.natAbs a.num.natAbs le_rfl hn
  have hmspec := log2_steps_spec a.den a.den le_rfl hd
  generalize log2_steps a.num.natAbs a.num.natAbs = L at hexp hnspec
  generalize log2_steps a.den a.den = M at hexp hmspec
  generalize a.num.natAbs = n at hn hval hnspec
  generalize a.den = m at hd hval hmspec
  have hn1 : ((2 : ℚ) ^ L) ≤ (n : ℚ) := by exact_mod_cast hnspec.1
  have hn2 : (n : ℚ) < (2 : ℚ) ^ (L + 1) := by exact_mod_cast hnspec.2
  have hm1 : ((2 : ℚ) ^ M) ≤ (m : ℚ) := by exact_mod_cast hmspec.1
  have hm2 : (m : ℚ) < (2 : ℚ) ^ (M + 1) := by exact_mod_cast hmspec.2
  have hmpos : (0 : ℚ) < (m : ℚ) := by exact_mod_cast Nat.pos_of_ne_zero hd
  have hpL : (0 : ℚ) < (2 : ℚ) ^ L := by positivity
  have hpM : (0 : ℚ) < (2 : ℚ) ^ M := by positivity
  have hzd : (2 : ℚ) ^ ((L : ℤ) - (M : ℤ)) = (2 : ℚ) ^ L / (2 : ℚ) ^ M := by
    rw [zpow_sub₀ (two_ne_zero), zpow_natCast, zpow_natCast]
  have hupper : a < (2 : ℚ) ^ ((L : ℤ) - (M : ℤ) + 1) := by
    rw [zpow_add₀ (two_ne_zero), hzd, zpow_one, hval, div_lt_iff₀ hmpos]
    have : (2 : ℚ) ^ (L + 1) = 2 ^ L * 2 := pow_succ _ _
    rw [this] at hn2
    calc (n : ℚ) < 2 ^ L * 2 := hn2
      _ = 2 ^ L / 2 ^ M * 2 * 2 ^ M := by field_simp
      _ ≤ 2 ^ L / 2 ^ M * 2 * m := by
          apply mul_le_mul_of_nonneg_left hm1
          positivity
  have hlower : (2 : ℚ) ^ ((L : ℤ) - (M : ℤ) - 1) < a := by
    rw [zpow_sub₀ (two_ne_zero), hzd, zpow_one, hval, lt_div_iff₀ hmpos]
    have : (2 : ℚ) ^ (M + 1) = 2 ^ M * 2 := pow_succ _ _
    rw [this] at hm2
    calc 2 ^ L / 2 ^ M / 2 * (m : ℚ)
        < 2 ^ L / 2 ^ M / 2 * (2 ^ M * 2) := by
          apply mul_lt_mul_of_pos_left hm2
          positivity
      _ = 2 ^ L := by field_simp
      _ ≤ n := hn1
  rw [hexp]
  generalize (L : ℤ) - (M : ℤ) = d at hupper hlower
  have hmono : ∀ x y : ℤ, x ≤ y → (2 : ℚ) ^ x ≤ (2 : ℚ) ^ y :=
    fun x y hxy => zpow_le_zpow_right₀ (by norm_num) hxy
  refine ⟨le_max_right _ _, ?_, ?_⟩
  · split_ifs with h
    · exact lt_of_lt_of_le hupper (hmono _ _ (by have := le_max_left d (-126); omega))
    · have hlt : a < (2 : ℚ) ^ d := not_le.mp h
      exact lt_of_lt_of_le hlt (hmono _ _ (by have := le_max_left (d - 1) (-126); omega))
  · intro hgt
    split_ifs at hgt ⊢ with h
    · have : max d (-126) = d := max_eq_left (by
        rcases le_total d (-126) with h1 | h1
        · rw [max_eq_right h1] at hgt; omega
        · exact h1)
      rw [this]; exact h
    · have : max (d - 1) (-126) = d - 1 := max_eq_left (by
        rcases le_total (d - 1) (-126) with h1 | h1
        · rw [max_eq_right h1] at hgt; omega
        · exact h1)
      rw [this]; exact hlower.le

/-- The spacing is positive. -/
theorem ulp_pos (q : ℚ) : 0 < ulp q := by
  unfold ulp
  positivity

/-- Powers of two grow with the exponent. -/
theorem two_zpow_mono (x y : ℤ) (h : x ≤ y) : (2 : ℚ) ^ x ≤ (2 : ℚ) ^ y :=
  zpow_le_zpow_right₀ (by norm_num) h

/-- A power of two with a natural exponent is the cast of the integer power. -/
theorem two_zpow_nat (n : ℕ) : (2 : ℚ) ^ (n : ℤ) = (((2 : ℤ) ^ n : ℤ) : ℚ) := by
  rw [zpow_natCast]
  push_cast
  rfl

/-- The rounded value before the overflow test. -/
theorem round_cases (q : ℚ) :
    round q = finite ((roundHalfEven (q / ulp q) : ℚ) * ulp q)
    ∨ (round q = posInf ∧ (2 : ℚ) ^ (128 : ℕ) ≤ (roundHalfEven (q / ulp q) : ℚ) * ulp q)
    ∨ (round q = negInf ∧ (roundHalfEven (q / ulp q) : ℚ) * ulp q ≤ -(2 : ℚ) ^ (128 : ℕ)) := by
  unfold round
  simp only
  split_ifs with h1 h2
  · exact Or.inr (Or.inl ⟨rfl, h1⟩)
  · exact Or.inr (Or.inr ⟨rfl, h2⟩)
  · exact Or.inl rfl

/-- The nearest multiple of the spacing is at most half a spacing away. -/
theorem roundHalfEven_mul_ulp_sub (q : ℚ) :
    |(roundHalfEven (q / ulp q) : ℚ) * ulp q - q| ≤ ulp q / 2 := by
  have hu := ulp_pos q
  have h := roundHalfEven_abs_sub_le (q / ulp q)
  have heq : (roundHalfEven (q / ulp q) : ℚ) * ulp q - q
      = ((roundHalfEven (q / ulp q) : ℚ) - q / ulp q) * ulp q := by
    field_simp
  rw [heq, abs_mul, abs_of_pos hu]
  calc |(roundHalfEven (q / ulp q) : ℚ) - q / ulp q| * ulp q ≤ 1 / 2 * ulp q :=
        mul_le_mul_of_nonneg_right h hu.le
    _ = ulp q / 2 := by ring

/-- A magnitude below 2 ^ (n + 1) has an exponent of at most `n`. -/
theorem exponent_le_of_abs_le (q : ℚ) (n : ℤ) (hn : -1 ≤ n) (hq : |q| < (2 : ℚ) ^ (n + 1)) :
    exponent |q| ≤ n := by
  rcases eq_or_lt_of_le (abs_nonneg q) with h0 | hpos
  · rw [← h0]
    have : exponent 0 = -1 := by decide!
    omega
  · have hs := exponent_spec |q| hpos
    by_contra hcon
    have hgt : n + 1 ≤ exponent |q| := by omega
    have h1 := hs.2.2 (by omega)
    have h2 := two_zpow_mono _ _ hgt
    linarith

/-- In the normal range the spacing is at most 2 ^ (-23) times the
magnitude. -/
theorem ulp_le_of_normal (q : ℚ) (hq : (2 : ℚ) ^ (-126 : ℤ) ≤ |q|) :
    ulp q ≤ |q| / 2 ^ (23 : ℕ) := by
  have hpos : 0 < |q| := lt_of_lt_of_le (by positivity) hq
  have hs := exponent_spec |q| hpos
  have hle : (2 : ℚ) ^ exponent |q| ≤ |q| := by
    rcases eq_or_lt_of_le hs.1 with h | h
    · rw [← h]; exact hq
    · exact hs.2.2 h
  unfold ulp
  rw [zpow_sub₀ (two_ne_zero), le_div_iff₀ (by positivity)]
  have : (2 : ℚ) ^ (23 : ℤ) = 2 ^ (23 : ℕ) := by norm_num
  rw [this, div_mul_cancel₀ _ (by positivity)]
  exact hle

/-- Rounding of a value of magnitude at most 2 ^ 127 gives a finite float at
most half a spacing away. -/
theorem round_finite (q : ℚ) (hq : |q| ≤ (2 : ℚ) ^ (127 : ℕ)) :
    round q = finite ((roundHalfEven (q / ulp q) : ℚ) * ulp q) := by
  have herr := roundHalfEven_mul_ulp_sub q
  have he : exponent |q| ≤ 127 := by
    apply exponent_le_of_abs_le q 127 (by norm_num)
    calc |q| ≤ (2 : ℚ) ^ (127 : ℕ) := hq
      _ < (2 : ℚ) ^ ((127 : ℤ) + 1) := by norm_num
  have hu : ulp q ≤ (2 : ℚ) ^ (104 : ℕ) := by
    unfold ulp
    calc (2 : ℚ) ^ (exponent |q| - 23) ≤ (2 : ℚ) ^ (104 : ℤ) := two_zpow_mono _ _ (by omega)
      _ = (2 : ℚ) ^ (104 : ℕ) := by norm_num
  have habs := abs_le.mp herr
  have hq' := abs_le.mp hq
  rcases round_cases q with h | ⟨_, h⟩ | ⟨_, h⟩
  · exact h
  · exfalso
    have : (2 : ℚ) ^ (128 : ℕ) = 2 ^ (127 : ℕ) + 2 ^ (104 : ℕ) * 2 ^ (23 : ℕ) := by norm_num
    have h104 : (0 : ℚ) < 2 ^ (104 : ℕ) := by positivity
    nlinarith [habs.2, hq'.2]
  · exfalso
    have : (2 : ℚ) ^ (128 : ℕ) = 2 ^ (127 : ℕ) + 2 ^ (104 : ℕ) * 2 ^ (23 : ℕ) := by norm_num
    have h104 : (0 : ℚ) < 2 ^ (104 : ℕ) := by positivity
    nlinarith [habs.1, hq'.1]

/-- Relative error of rounding in the normal range: at most 2 ^ (-24). -/
theorem round_rel (q : ℚ) (hq1 : (2 : ℚ) ^ (-126 : ℤ) ≤ |q|) (hq2 : |q| ≤ (2 : ℚ) ^ (127 : ℕ)) :
    ∃ r, round q = finite r ∧ |r - q| ≤ |q| / 2 ^ (24 : ℕ) := by
  refine ⟨_, round_finite q hq2, ?_⟩
  have h1 := roundHalfEven_mul_ulp_sub q
  have h2 := ulp_le_of_normal q hq1
  calc |(roundHalfEven (q / ulp q) : ℚ) * ulp q - q| ≤ ulp q / 2 := h1
    _ ≤ |q| / 2 ^ (23 : ℕ) / 2 := by linarith
    _ = |q| / 2 ^ (24 : ℕ) := by ring

/-- Zero is a float. -/
theorem round_zero : round 0 = finite 0 := by decide!

/-- Rounding does not go below a float that the exact value is not below. -/
theorem le_roundHalfEven_mul_ulp (p y : ℚ) (k j : ℤ) (hj : -149 ≤ j) (hk : k ≤ 2 ^ 24)
    (hp : p = (k : ℚ) * (2 : ℚ) ^ j) (h0 : 0 ≤ p) (hpy : p ≤ y) :
    p ≤ (roundHalfEven (y / ulp y) : ℚ) * ulp y := by
  have hu := ulp_pos y
  rcases eq_or_lt_of_le (le_trans h0 hpy) with hy0 | hypos
  · have hp0 : p = 0 := le_antisymm (by rw [hy0]; exact hpy) h0
    rw [hp0, ← hy0, zero_div]
    have := roundHalfEven_intCast 0
    simp only [Int.cast_zero] at this
    rw [this]
    simp
  · have habs : |y| = y := abs_of_pos hypos
    have hs := exponent_spec y hypos
    have hulp : ulp y = (2 : ℚ) ^ (exponent y - 23) := by unfold ulp; rw [habs]
    by_cases hje : exponent y - 23 ≤ j
    · obtain ⟨N, hN⟩ := Int.eq_ofNat_of_zero_le (sub_nonneg.mpr hje)
      have hpu : p = ((k * 2 ^ N : ℤ) : ℚ) * ulp y := by
        rw [hp, hulp]
        have hj' : j = (N : ℤ) + (exponent y - 23) := by omega
        rw [hj', zpow_add₀ (two_ne_zero), two_zpow_nat]
        push_cast
        ring
      have hle : ((k * 2 ^ N : ℤ) : ℚ) ≤ y / ulp y := by
        rw [le_div_iff₀ hu, ← hpu]
        exact hpy
      have hr := le_roundHalfEven _ _ hle
      rw [hpu]
      exact mul_le_mul_of_nonneg_right (by exact_mod_cast hr) hu.le
    · have hlt : j + 24 ≤ exponent y := by omega
      have hnorm : (2 : ℚ) ^ exponent y ≤ y := hs.2.2 (by omega)
      have h23 : (((2 : ℤ) ^ 23 : ℤ) : ℚ) ≤ y / ulp y := by
        rw [le_div_iff₀ hu, hulp, ← two_zpow_nat, ← zpow_add₀ (two_ne_zero)]
        have : ((23 : ℕ) : ℤ) + (exponent y - 23) = exponent y := by omega
        rw [this]
        exact hnorm
      have hr := le_roundHalfEven _ _ h23
      have hr' : (((2 : ℤ) ^ 23 : ℤ) : ℚ) ≤ (roundHalfEven (y / ulp y) : ℚ) := by
        exact_mod_cast hr
      have hlow : (2 : ℚ) ^ exponent y ≤ (roundHalfEven (y / ulp y) : ℚ) * ulp y := by
        calc (2 : ℚ) ^ exponent y = (((2 : ℤ) ^ 23 : ℤ) : ℚ) * ulp y := by
              rw [hulp, ← two_zpow_nat, ← zpow_add₀ (two_ne_zero)]
              congr 1
              omega
          _ ≤ (roundHalfEven (y / ulp y) : ℚ) * ulp y :=
              mul_le_mul_of_nonneg_right hr' hu.le
      have hpj : p ≤ (2 : ℚ) ^ (j + 24) := by
        rw [hp, zpow_add₀ (two_ne_zero), mul_comm ((2 : ℚ) ^ j)]
        apply mul_le_mul_of_nonneg_right _ (by positivity)
        have : ((k : ℤ) : ℚ) ≤ (((2 : ℤ) ^ 24 : ℤ) : ℚ) := by exact_mod_cast hk
        calc (k : ℚ) ≤ (((2 : ℤ) ^ 24 : ℤ) : ℚ) := this
          _ = (2 : ℚ) ^ (24 : ℤ) := by norm_num
      calc p ≤ (2 : ℚ) ^ (j + 24) := hpj
        _ ≤ (2 : ℚ) ^ exponent y := two_zpow_mono _ _ hlt
        _ ≤ _ := hlow

/-- A value that rounding leaves unchanged is an integer of at most 24 bits
times a power of two not below 2 ^ (-149). -/
theorem representable_of_round (p : ℚ) (h : round p = finite p) :
    ∃ k j : ℤ, -149 ≤ j ∧ |k| ≤ 2 ^ 24 ∧ p = (k : ℚ) * (2 : ℚ) ^ j := by
  have hu := ulp_pos p
  have hval : p = (roundHalfEven (p / ulp p) : ℚ) * ulp p := by
    rcases round_cases p with h1 | ⟨h1, _⟩ | ⟨h1, _⟩
    · rw [h] at h1
      exact F32.finite.inj h1
    · rw [h] at h1; exact absurd h1 (by simp)
    · rw [h] at h1; exact absurd h1 (by simp)
  rcases eq_or_lt_of_le (abs_nonneg p) with h0 | hpos
  · refine ⟨0, 0, by norm_num, by norm_num, ?_⟩
    rw [abs_eq_zero.mp h0.symm]
    simp
  · have hs := exponent_spec |p| hpos
    refine ⟨roundHalfEven (p / ulp p), exponent |p| - 23, by omega, ?_, ?_⟩
    · have hq : |p / ulp p| < (((2 : ℤ) ^ 24 : ℤ) : ℚ) := by
        rw [abs_div, abs_of_pos hu, div_lt_iff₀ hu]
        unfold ulp
        rw [← two_zpow_nat, ← zpow_add₀ (two_ne_zero)]
        have : ((24 : ℕ) : ℤ) + (exponent |p| - 23) = exponent |p| + 1 := by omega
        rw [this]
        exact hs.2.1
      have hq' := abs_lt.mp hq
      rw [abs_le]
      constructor
      · have := le_roundHalfEven (-(2 : ℤ) ^ 24) (p / ulp p) (by push_cast at hq' ⊢; linarith)
        omega
      · have := roundHalfEven_le ((2 : ℤ) ^ 24) (p / ulp p) (by push_cast at hq' ⊢; linarith)
        omega
    · exact hval

/-- A 24 bit integer times a power of two not below 2 ^ (-149), of magnitude
below 2 ^ 128, is a float: rounding leaves it unchanged. -/
theorem round_of_representable (q : ℚ) (k j : ℤ) (hj : -149 ≤ j) (hk : |k| ≤ 2 ^ 24)
    (hq : q = (k : ℚ) * (2 : ℚ) ^ j) (hsize : |q| < (2 : ℚ) ^ (128 : ℕ)) :
    round q = finite q := by
  have hu := ulp_pos q
  have hint : ∃ K : ℤ, q / ulp q = (K : ℚ) := by
    rcases eq_or_lt_of_le (abs_nonneg q) with h0 | hpos
    · refine ⟨0, ?_⟩
      rw [abs_eq_zero.mp h0.symm]
      simp
    · have hs := exponent_spec |q| hpos
      by_cases hje : exponent |q| - 23 ≤ j
      · obtain ⟨N, hN⟩ := Int.eq_ofNat_of_zero_le (sub_nonneg.mpr hje)
        refine ⟨k * 2 ^ N, ?_⟩
        have hulp : ulp q = (2 : ℚ) ^ (exponent |q| - 23) := rfl
        rw [div_eq_iff hu.ne', hulp]
        have hj' : j = (N : ℤ) + (exponent |q| - 23) := by omega
        calc q = (k : ℚ) * (2 : ℚ) ^ j := hq
          _ = (k : ℚ) * (2 : ℚ) ^ ((N : ℤ) + (exponent |q| - 23)) := by rw [← hj']
          _ = ((k * 2 ^ N : ℤ) : ℚ) * (2 : ℚ) ^ (exponent |q| - 23) := by
              rw [zpow_add₀ (two_ne_zero), two_zpow_nat]
              push_cast
              ring
      · have hlt : j + 24 ≤ exponent |q| := by omega
        have hnorm : (2 : ℚ) ^ exponent |q| ≤ |q| := hs.2.2 (by omega)
        have hkq : (|k| : ℤ) ≤ 2 ^ 24 := hk
        have habsq : |q| = ((|k| : ℤ) : ℚ) * (2 : ℚ) ^ j := by
          rw [hq, abs_mul, abs_of_pos (by positivity : (0 : ℚ) < (2 : ℚ) ^ j)]
          push_cast
          rfl
        have hup : |q| ≤ (2 : ℚ) ^ (j + 24) := by
          rw [habsq, zpow_add₀ (two_ne_zero), mul_comm ((2 : ℚ) ^ j)]
          apply mul_le_mul_of_nonneg_right _ (by positivity)
          calc ((|k| : ℤ) : ℚ) ≤ (((2 : ℤ) ^ 24 : ℤ) : ℚ) := by exact_mod_cast hkq
            _ = (2 : ℚ) ^ (24 : ℤ) := by norm_num
        have heq : |q| = (2 : ℚ) ^ exponent |q| :=
          le_antisymm (le_trans hup (two_zpow_mono _ _ hlt)) hnorm
        have hdiv : |q| / ulp q = (((2 : ℤ) ^ 23 : ℤ) : ℚ) := by
          rw [div_eq_iff hu.ne']
          unfold ulp
          rw [← two_zpow_nat, ← zpow_add₀ (two_ne_zero)]
          have : ((23 : ℕ) : ℤ) + (exponent |q| - 23) = exponent |q| := by omega
          rw [this]
          exact heq
        rcases abs_cases q with ⟨ha, _⟩ | ⟨ha, _⟩
        · refine ⟨2 ^ 23, ?_⟩
          have hsame : q / ulp q = |q| / ulp q := by rw [ha]
          rw [hsame, hdiv]
        · refine ⟨-(2 ^ 23), ?_⟩
          have hsame : q / ulp q = -(|q| / ulp q) := by rw [ha]; ring
          rw [hsame, hdiv]
          push_cast
          ring
  obtain ⟨K, hK⟩ := hint
  have hr : (roundHalfEven (q / ulp q) : ℚ) * ulp q = q := by
    rw [hK, roundHalfEven_intCast, ← hK, div_mul_cancel₀ _ hu.ne']
  have hsz := abs_lt.mp hsize
  rcases round_cases q with h | ⟨_, h⟩ | ⟨_, h⟩
  · rw [h, hr]
  · rw [hr] at h; linarith
  · rw [hr] at h; linarith

/-- The result of a rounding is a float. -/
theorem round_round (q r : ℚ) (h : round q = finite r) : round r = finite r := by
  have hu := ulp_pos q
  have hval : r = (roundHalfEven (q / ulp q) : ℚ) * ulp q
      ∧ r < (2 : ℚ) ^ (128 : ℕ) ∧ -(2 : ℚ) ^ (128 : ℕ) < r := by
    unfold round at h
    simp only at h
    split_ifs at h with h1 h2
    have := F32.finite.inj h
    exact ⟨this.symm, by rw [← this]; exact not_le.mp h1, by rw [← this]; exact not_le.mp h2⟩
  rcases eq_or_lt_of_le (abs_nonneg q) with h0 | hpos
  · have hq0 : q = 0 := abs_eq_zero.mp h0.symm
    rw [hq0, round_zero] at h
    rw [← F32.finite.inj h]
    exact round_zero
  · have hs := exponent_spec |q| hpos
    have hq : |q / ulp q| < (((2 : ℤ) ^ 24 : ℤ) : ℚ) := by
      rw [abs_div, abs_of_pos hu, div_lt_iff₀ hu]
      unfold ulp
      rw [← two_zpow_nat, ← zpow_add₀ (two_ne_zero)]
      have : ((24 : ℕ) : ℤ) + (exponent |q| - 23) = exponent |q| + 1 := by omega
      rw [this]
      exact hs.2.1
    have hq' := abs_lt.mp hq
    have hk : |roundHalfEven (q / ulp q)| ≤ 2 ^ 24 := by
      rw [abs_le]
      constructor
      · have := le_roundHalfEven (-(2 : ℤ) ^ 24) (q / ulp q) (by push_cast at hq' ⊢; linarith)
        omega
      · have := roundHalfEven_le ((2 : ℤ) ^ 24) (q / ulp q) (by push_cast at hq' ⊢; linarith)
        omega
    apply round_of_representable r (roundHalfEven (q / ulp q)) (exponent |q| - 23) (by omega) hk
    · rw [hval.1]; rfl
    · rw [abs_lt]; exact ⟨hval.2.2, hval.2.1⟩

end F32

/-! ## One step of the pusher ramp -/

/-- The literal `0.05f`, the float nearest to 0.05. -/
theorem F32_round_literal_50_ms :
    F32.round (1 / 20) = F32.finite (13421773 / 268435456) := by decide!

/-- The time step of the pusher ramp as the machine computes it is within a
relative error of 3 * 2 ^ (-24) of min(dt, 0.05 s). -/
theorem pusher_ramp_time_step (n : Nat) (hn : n < 2 ^ 64) :
    ∃ d : ℚ, F32.min (F32.div_f (F32.ofUInt64 n) (F32.finite 1000000)) (F32.round (1 / 20))
        = F32.finite d
      ∧ capped_step n * (1 - 3 / 2 ^ 24) ≤ d ∧ d ≤ capped_step n * (1 + 3 / 2 ^ 24)
      ∧ (n = 0 → d = 0) ∧ (n ≠ 0 → 1 / 2 ^ 20 ≤ d) ∧ d ≤ 1 / 16 := by
  rw [F32_round_literal_50_ms]
  rcases Nat.eq_zero_or_pos n with h0 | hpos
  · subst h0
    refine ⟨0, ?_, ?_, ?_, fun _ => rfl, fun h => absurd rfl h, by norm_num⟩
    · decide!
    · simp [capped_step]
    · simp [capped_step]
  · have hn1 : (1 : ℚ) ≤ (n : ℚ) := by exact_mod_cast hpos
    have hn2 : (n : ℚ) ≤ 2 ^ 64 := by exact_mod_cast hn.le
    -- conversion
    obtain ⟨a, ha, haerr⟩ := F32.round_rel (n : ℚ)
      (by rw [abs_of_pos (by linarith)]; exact le_trans (by norm_num) hn1)
      (by rw [abs_of_pos (by linarith)]; exact le_trans hn2 (by norm_num))
    rw [abs_of_pos (by linarith : (0 : ℚ) < n)] at haerr
    have ha' := abs_le.mp haerr
    have hapos : (1 : ℚ) / 2 ≤ a := by
      have : (n : ℚ) / 2 ^ 24 ≤ (n : ℚ) / 2 := by
        apply div_le_div_of_nonneg_left (by linarith) (by norm_num) (by norm_num)
      linarith [ha'.1]
    -- quotient
    have hquot : (1 : ℚ) / 2 ^ 21 ≤ a / 1000000 := by
      rw [le_div_iff₀ (by norm_num)]
      linarith
    have hquot2 : a / 1000000 ≤ 2 ^ 64 := by
      rw [div_le_iff₀ (by norm_num)]
      have : (n : ℚ) / 2 ^ 24 ≤ n := div_le_self (by linarith) (by norm_num)
      linarith [ha'.2]
    obtain ⟨b, hb, hberr⟩ := F32.round_rel (a / 1000000)
      (by rw [abs_of_pos (by linarith)]; exact le_trans (by norm_num) hquot)
      (by rw [abs_of_pos (by linarith)]; exact le_trans hquot2 (by norm_num))
    rw [abs_of_pos (by linarith : (0 : ℚ) < a / 1000000)] at hberr
    have hb' := abs_le.mp hberr
    have hdiv : F32.div_f (F32.ofUInt64 n) (F32.finite 1000000) = F32.finite b := by
      unfold F32.div_f F32.ofUInt64
      rw [ha, F32_div_finite _ _ (by norm_num)]
      exact hb
    rw [hdiv, F32_min_finite]
    -- bounds on b relative to n / 10^6
    have hx : (0 : ℚ) < (n : ℚ) / 1000000 := by positivity
    have hb_up : b ≤ (n : ℚ) / 1000000 * (1 + 3 / 2 ^ 24) := by
      have h1 : a / 1000000 ≤ (n : ℚ) / 1000000 * (1 + 1 / 2 ^ 24) := by
        rw [div_le_iff₀ (by norm_num)]
        linarith [ha'.2]
      have h2 : b ≤ a / 1000000 * (1 + 1 / 2 ^ 24) := by linarith [hb'.2]
      calc b ≤ a / 1000000 * (1 + 1 / 2 ^ 24) := h2
        _ ≤ (n : ℚ) / 1000000 * (1 + 1 / 2 ^ 24) * (1 + 1 / 2 ^ 24) :=
            mul_le_mul_of_nonneg_right h1 (by norm_num)
        _ ≤ (n : ℚ) / 1000000 * (1 + 3 / 2 ^ 24) := by
            rw [mul_assoc]
            apply mul_le_mul_of_nonneg_left _ hx.le
            norm_num
    have hb_lo : (n : ℚ) / 1000000 * (1 - 3 / 2 ^ 24) ≤ b := by
      have h1 : (n : ℚ) / 1000000 * (1 - 1 / 2 ^ 24) ≤ a / 1000000 := by
        rw [le_div_iff₀ (by norm_num)]
        linarith [ha'.1]
      have h2 : a / 1000000 * (1 - 1 / 2 ^ 24) ≤ b := by linarith [hb'.1]
      calc (n : ℚ) / 1000000 * (1 - 3 / 2 ^ 24)
          ≤ (n : ℚ) / 1000000 * ((1 - 1 / 2 ^ 24) * (1 - 1 / 2 ^ 24)) := by
            apply mul_le_mul_of_nonneg_left _ hx.le
            norm_num
        _ = (n : ℚ) / 1000000 * (1 - 1 / 2 ^ 24) * (1 - 1 / 2 ^ 24) := by ring
        _ ≤ a / 1000000 * (1 - 1 / 2 ^ 24) := mul_le_mul_of_nonneg_right h1 (by norm_num)
        _ ≤ b := h2
    have hb_pos : (1 : ℚ) / 2 ^ 20 ≤ b := by
      have : (1 : ℚ) / 1000000 ≤ (n : ℚ) / 1000000 :=
        div_le_div_of_nonneg_right hn1 (by norm_num)
      have h3 : (1 : ℚ) / 1000000 * (1 - 3 / 2 ^ 24) ≤ (n : ℚ) / 1000000 * (1 - 3 / 2 ^ 24) :=
        mul_le_mul_of_nonneg_right this (by norm_num)
      have h4 : (1 : ℚ) / 2 ^ 20 ≤ 1 / 1000000 * (1 - 3 / 2 ^ 24) := by norm_num
      linarith
    refine ⟨min b (13421773 / 268435456), rfl, ?_, ?_, fun h => absurd h (by omega), fun _ => ?_,
      ?_⟩
    · unfold capped_step
      rcases le_total ((n : ℚ) / 1000000) (1 / 20) with hc | hc
      · rw [min_eq_left hc]
        apply le_min hb_lo
        have : (n : ℚ) / 1000000 * (1 - 3 / 2 ^ 24) ≤ (n : ℚ) / 1000000 := by
          apply mul_le_of_le_one_right hx.le
          norm_num
        linarith [show (1 : ℚ) / 20 ≤ 13421773 / 268435456 by norm_num]
      · rw [min_eq_right hc]
        apply le_min
        · have h5 : (1 : ℚ) / 20 * (1 - 3 / 2 ^ 24) ≤ (n : ℚ) / 1000000 * (1 - 3 / 2 ^ 24) :=
            mul_le_mul_of_nonneg_right hc (by norm_num)
          linarith
        · norm_num
    · unfold capped_step
      rcases le_total ((n : ℚ) / 1000000) (1 / 20) with hc | hc
      · rw [min_eq_left hc]
        exact le_trans (min_le_left _ _) hb_up
      · rw [min_eq_right hc]
        exact le_trans (min_le_right _ _) (by norm_num)
    · exact le_min hb_pos (by norm_num)
    · exact le_trans (min_le_right _ _) (by norm_num)

/-- One step of the pusher ramp as the machine computes it (lines 188 to 190
on finite values), from a float throttle `p` in [0, T]: the new throttle is
in [p, T], within slew * d / 2 ^ 21 + p / 2 ^ 24 of the exact
min(p + slew * d, T), d being the capped time step, and it is a float when
the target is one. -/
theorem pusher_ramp_rounded_step (s T p : ℚ) (n : Nat) (hn : n < 2 ^ 64)
    (hs : (1 : ℚ) / 8388608 < s) (hs2 : s ≤ 2 ^ 64) (hT2 : T ≤ 2 ^ 64)
    (hp : F32.round p = F32.finite p) (h0 : 0 ≤ p) (hpT : p ≤ T) :
    ∃ q : ℚ,
      F32.min
      (F32.add_f (F32.finite p)
        (F32.mul_f (F32.finite s)
          (F32.min (F32.div_f (F32.ofUInt64 n) (F32.finite 1000000))
            (F32.round (1 / 20)))))
      (F32.finite T) = F32.finite q
      ∧ (F32.round T = F32.finite T → F32.round q = F32.finite q) ∧ p ≤ q ∧ q ≤ T
      ∧ |q - min (p + s * capped_step n) T| ≤ s * capped_step n / 2 ^ 21 + p / 2 ^ 24
      ∧ (q < T → p + s * capped_step n - (s * capped_step n / 2 ^ 21 + p / 2 ^ 24) ≤ q) := by
  have hs0 : 0 < s := lt_trans (by norm_num) hs
  obtain ⟨d, hd, hd_lo, hd_up, hd_zero, hd_pos, hd_cap⟩ := pusher_ramp_time_step n hn
  have hc0 : 0 ≤ capped_step n := by
    unfold capped_step
    exact le_min (by positivity) (by norm_num)
  have hA0 : 0 ≤ s * capped_step n := mul_nonneg hs0.le hc0
  rw [hd]
  rcases Nat.eq_zero_or_pos n with hn0 | hnpos
  · -- no time has passed: every operation is exact
    have hd0 := hd_zero hn0
    have hc : capped_step n = 0 := by rw [hn0]; simp [capped_step]
    have hmul : F32.mul_f (F32.finite s) (F32.finite d) = F32.finite 0 := by
      unfold F32.mul_f
      rw [F32_mul_finite, hd0, mul_zero]
      exact F32.round_zero
    have hadd : F32.add_f (F32.finite p) (F32.finite 0) = F32.finite p := by
      unfold F32.add_f
      rw [F32_add_finite, add_zero]
      exact hp
    rw [hmul, hadd, F32_min_finite, min_eq_left hpT, hc, mul_zero, add_zero, min_eq_left hpT]
    refine ⟨p, rfl, fun _ => hp, le_rfl, hpT, ?_, fun _ => ?_⟩
    · simp only [sub_self, abs_zero, zero_div, zero_add]
      positivity
    · have : (0 : ℚ) ≤ p / 2 ^ 24 := by positivity
      linarith
  · have hdpos := hd_pos (by omega)
    -- the product
    have hx_lo : (1 : ℚ) / 2 ^ 43 ≤ s * d := by
      calc (1 : ℚ) / 2 ^ 43 = 1 / 8388608 * (1 / 2 ^ 20) := by norm_num
        _ ≤ s * d := mul_le_mul hs.le hdpos (by norm_num) hs0.le
    have hx_hi : s * d ≤ 2 ^ 60 := by
      calc s * d ≤ 2 ^ 64 * (1 / 16) := mul_le_mul hs2 hd_cap (by linarith) (by norm_num)
        _ = 2 ^ 60 := by norm_num
    have hxpos : (0 : ℚ) < s * d := lt_of_lt_of_le (by norm_num) hx_lo
    obtain ⟨x, hx, hxerr⟩ := F32.round_rel (s * d)
      (by rw [abs_of_pos hxpos]; exact le_trans (by norm_num) hx_lo)
      (by rw [abs_of_pos hxpos]; exact le_trans hx_hi (by norm_num))
    rw [abs_of_pos hxpos] at hxerr
    have hx' := abs_le.mp hxerr
    have hmul : F32.mul_f (F32.finite s) (F32.finite d) = F32.finite x := by
      unfold F32.mul_f
      rw [F32_mul_finite]
      exact hx
    have hx_pos : (1 : ℚ) / 2 ^ 44 ≤ x := by
      have : s * d / 2 ^ 24 ≤ s * d / 2 := by
        apply div_le_div_of_nonneg_left hxpos.le (by norm_num) (by norm_num)
      have h44 : (1 : ℚ) / 2 ^ 44 = 1 / 2 ^ 43 / 2 := by norm_num
      linarith [hx'.1]
    -- the sum
    have hy_lo : (1 : ℚ) / 2 ^ 44 ≤ p + x := by linarith
    have hy_hi : p + x ≤ 2 ^ 66 := by
      have : s * d / 2 ^ 24 ≤ s * d := div_le_self hxpos.le (by norm_num)
      have : x ≤ 2 ^ 61 := by linarith [hx'.2]
      have : p ≤ 2 ^ 64 := le_trans hpT hT2
      linarith
    have hypos : (0 : ℚ) < p + x := lt_of_lt_of_le (by norm_num) hy_lo
    obtain ⟨r, hr, hrerr⟩ := F32.round_rel (p + x)
      (by rw [abs_of_pos hypos]; exact le_trans (by norm_num) hy_lo)
      (by rw [abs_of_pos hypos]; exact le_trans hy_hi (by norm_num))
    rw [abs_of_pos hypos] at hrerr
    have hr' := abs_le.mp hrerr
    have hadd : F32.add_f (F32.finite p) (F32.finite x) = F32.finite r := by
      unfold F32.add_f
      rw [F32_add_finite]
      exact hr
    -- the sum is not below the previous throttle
    have hpr : p ≤ r := by
      obtain ⟨k, j, hj, hk, hpk⟩ := F32.representable_of_round p hp
      have hfin := F32.round_finite (p + x)
        (by rw [abs_of_pos hypos]; exact le_trans hy_hi (by norm_num))
      rw [hr] at hfin
      rw [F32.finite.inj hfin]
      exact F32.le_roundHalfEven_mul_ulp p (p + x) k j hj (abs_le.mp hk).2 hpk h0 (by linarith)
    rw [hmul, hadd, F32_min_finite]
    -- distance of the rounded sum from the exact one
    have hA_up : s * d ≤ s * capped_step n * (1 + 3 / 2 ^ 24) := by
      rw [mul_assoc]
      exact mul_le_mul_of_nonneg_left hd_up hs0.le
    have hA_lo : s * capped_step n * (1 - 3 / 2 ^ 24) ≤ s * d := by
      rw [mul_assoc]
      exact mul_le_mul_of_nonneg_left hd_lo hs0.le
    have hx_up : x ≤ s * capped_step n * (1 + 5 / 2 ^ 24) := by
      have h1 : x ≤ s * d * (1 + 1 / 2 ^ 24) := by linarith [hx'.2]
      calc x ≤ s * d * (1 + 1 / 2 ^ 24) := h1
        _ ≤ s * capped_step n * (1 + 3 / 2 ^ 24) * (1 + 1 / 2 ^ 24) :=
            mul_le_mul_of_nonneg_right hA_up (by norm_num)
        _ ≤ s * capped_step n * (1 + 5 / 2 ^ 24) := by
            rw [mul_assoc (s * capped_step n)]
            apply mul_le_mul_of_nonneg_left _ hA0
            norm_num
    have hx_down : s * capped_step n * (1 - 4 / 2 ^ 24) ≤ x := by
      have h1 : s * d * (1 - 1 / 2 ^ 24) ≤ x := by linarith [hx'.1]
      calc s * capped_step n * (1 - 4 / 2 ^ 24)
          ≤ s * capped_step n * ((1 - 3 / 2 ^ 24) * (1 - 1 / 2 ^ 24)) := by
            apply mul_le_mul_of_nonneg_left _ hA0
            norm_num
        _ = s * capped_step n * (1 - 3 / 2 ^ 24) * (1 - 1 / 2 ^ 24) := by ring
        _ ≤ s * d * (1 - 1 / 2 ^ 24) := mul_le_mul_of_nonneg_right hA_lo (by norm_num)
        _ ≤ x := h1
    have hr_up : r ≤ p + s * capped_step n + (s * capped_step n / 2 ^ 21 + p / 2 ^ 24) := by
      have h1 : r ≤ (p + x) * (1 + 1 / 2 ^ 24) := by linarith [hr'.2]
      have h2 : x * (1 + 1 / 2 ^ 24) ≤ s * capped_step n * (1 + 5 / 2 ^ 24) * (1 + 1 / 2 ^ 24) :=
        mul_le_mul_of_nonneg_right hx_up (by norm_num)
      have h3 : s * capped_step n * (1 + 5 / 2 ^ 24) * (1 + 1 / 2 ^ 24)
          ≤ s * capped_step n * (1 + 8 / 2 ^ 24) := by
        rw [mul_assoc (s * capped_step n)]
        apply mul_le_mul_of_nonneg_left _ hA0
        norm_num
      have h4 : s * capped_step n * (1 + 8 / 2 ^ 24)
          = s * capped_step n + s * capped_step n / 2 ^ 21 := by ring
      have h5 : (p + x) * (1 + 1 / 2 ^ 24) = p + p / 2 ^ 24 + x * (1 + 1 / 2 ^ 24) := by ring
      linarith
    have hr_down : p + s * capped_step n - (s * capped_step n / 2 ^ 21 + p / 2 ^ 24) ≤ r := by
      have h1 : (p + x) * (1 - 1 / 2 ^ 24) ≤ r := by linarith [hr'.1]
      have h2 : s * capped_step n * (1 - 4 / 2 ^ 24) * (1 - 1 / 2 ^ 24) ≤ x * (1 - 1 / 2 ^ 24) :=
        mul_le_mul_of_nonneg_right hx_down (by norm_num)
      have h3 : s * capped_step n * (1 - 8 / 2 ^ 24)
          ≤ s * capped_step n * (1 - 4 / 2 ^ 24) * (1 - 1 / 2 ^ 24) := by
        rw [mul_assoc (s * capped_step n)]
        apply mul_le_mul_of_nonneg_left _ hA0
        norm_num
      have h4 : s * capped_step n * (1 - 8 / 2 ^ 24)
          = s * capped_step n - s * capped_step n / 2 ^ 21 := by ring
      have h5 : (p + x) * (1 - 1 / 2 ^ 24) = p - p / 2 ^ 24 + x * (1 - 1 / 2 ^ 24) := by ring
      linarith
    have hrabs : |r - (p + s * capped_step n)| ≤ s * capped_step n / 2 ^ 21 + p / 2 ^ 24 := by
      rw [abs_le]
      constructor <;> linarith
    refine ⟨min r T, rfl, ?_, le_min hpr hpT, min_le_right _ _, ?_, fun hlt => ?_⟩
    · intro hT
      rcases le_total r T with h | h
      · rw [min_eq_left h]
        exact F32.round_round _ _ hr
      · rw [min_eq_right h]
        exact hT
    · exact le_trans (abs_min_sub_min_le_max r T (p + s * capped_step n) T)
        (by rw [sub_self, abs_zero]; exact max_le hrabs (le_trans (abs_nonneg _) hrabs))
    · have : min r T = r := by
        rcases le_total r T with h | h
        · exact min_eq_left h
        · rw [min_eq_right h] at hlt
          exact absurd hlt (lt_irrefl _)
      rw [this]
      exact hr_down

/-- With fresh setpoints in TRANSITION_TO_FW, `update_transition_state` stores
the result of the pusher ramp and stays in TRANSITION_TO_FW. -/
theorem update_transition_state_front_pusher (inp : update_transition_state_inputs)
    (a : VtolAttitudeControl)
    (hmode : a._vtol_type._vtol_mode = vtol_mode.TRANSITION_TO_FW)
    (hfresh : (Standard.update_transition_state_copy inp).isSome = true) :
    (Standard.update_transition_state inp a)._vtol_type._pusher_throttle
        = (Standard.update_pusher_throttle inp a._vtol_type).1
    ∧ (Standard.update_transition_state inp a)._vtol_type._last_time_pusher_transition_update
        = (Standard.update_pusher_throttle inp a._vtol_type).2
    ∧ (Standard.update_transition_state inp a)._vtol_type._vtol_mode
        = vtol_mode.TRANSITION_TO_FW := by
  obtain ⟨r, hr⟩ := Option.isSome_iff_exists.mp hfresh
  have hbase := (VtolType_update_transition_state_frame inp a).1
  refine ⟨?_, ?_, ?_⟩ <;>
    simp only [Standard.update_transition_state, hr, hbase, hmode] <;> rfl

/-- The pusher ramp with a slew rate above `FLT_EPSILON` from a float
throttle in [0, target]: the time of the update is stored and the new
throttle is in [p, target], within slew * d / 2 ^ 21 + p / 2 ^ 24 of the
exact min(p + slew * d, target), d being the capped time step. -/
theorem update_pusher_throttle_ramp (inp : update_transition_state_inputs) (st : Standard)
    (s T p : ℚ) (hs : inp.param_vt_psher_slew = F32.finite s)
    (htgt : inp.param_vt_f_trans_thr = F32.finite T)
    (hp : st._pusher_throttle = F32.finite p) (hs_pos : (1 : ℚ) / 8388608 < s)
    (hs2 : s ≤ 2 ^ 64) (hT2 : T ≤ 2 ^ 64)
    (hpf : F32.round p = F32.finite p) (h0 : 0 ≤ p) (hpT : p ≤ T) :
    ∃ q : ℚ, Standard.update_pusher_throttle inp st
        = (F32.finite q, inp.hrt_absolute_time)
      ∧ (F32.round T = F32.finite T → F32.round q = F32.finite q) ∧ p ≤ q ∧ q ≤ T
      ∧ |q - min (p + s * capped_step
            (hrt_sub inp.hrt_absolute_time st._last_time_pusher_transition_update)) T|
          ≤ s * capped_step
              (hrt_sub inp.hrt_absolute_time st._last_time_pusher_transition_update) / 2 ^ 21
            + p / 2 ^ 24
      ∧ (q < T →
          p + s * capped_step
              (hrt_sub inp.hrt_absolute_time st._last_time_pusher_transition_update)
            - (s * capped_step
                (hrt_sub inp.hrt_absolute_time st._last_time_pusher_transition_update) / 2 ^ 21
              + p / 2 ^ 24) ≤ q) := by
  have hn : hrt_sub inp.hrt_absolute_time st._last_time_pusher_transition_update < 2 ^ 64 :=
    Nat.mod_lt _ (by norm_num)
  obtain ⟨q, hq, hrest⟩ := pusher_ramp_rounded_step s T p _ hn hs_pos hs2 hT2 hpf h0 hpT
  refine ⟨q, ?_, hrest⟩
  have hnle : ¬ s ≤ 1 / 8388608 := not_le.mpr hs_pos
  unfold Standard.update_pusher_throttle
  simp only [hs, htgt, hp, F32.FLT_EPSILON, F32_le_finite, decide_eq_true_eq, hnle, hpT,
    if_false, if_true, hq]

/-- The function `update_vtol_state` keeps the four weights in [0, 1]: each
of them becomes the previous roll weight, 1 or 0. -/
theorem update_vtol_state_keeps_unit_interval (k : VEHICLE_VTOL_STATE)
    (inp : update_vtol_state_inputs) (a : VtolAttitudeControl)
    (h : a._vtol_type._mc_roll_weight.in_unit_interval = true) :
    (Standard.update_vtol_state k inp a)._vtol_type._mc_roll_weight.in_unit_interval = true
    ∧ (Standard.update_vtol_state k inp a)._vtol_type._mc_pitch_weight.in_unit_interval = true
    ∧ (Standard.update_vtol_state k inp a)._vtol_type._mc_yaw_weight.in_unit_interval = true
    ∧ (Standard.update_vtol_state k inp a)._vtol_type._mc_throttle_weight.in_unit_interval
        = true := by
  have h0 : F32.zero.in_unit_interval = true := by decide
  have h1 : F32.one.in_unit_interval = true := by decide
  have hr : (Standard.update_vtol_state k inp a)._vtol_type._mc_roll_weight.in_unit_interval
      = true := by
    cases hf : a._vtol_vehicle_status.fixed_wing_system_failure <;>
      cases hq : a.is_fixed_wing_requested k <;>
      cases hm : a._vtol_type._vtol_mode <;>
      simp [Standard.update_vtol_state, Standard.update_vtol_state_branch, hf, hq, hm,
        Standard.resetTransitionStates, h, h0, h1] <;>
      split_ifs <;> exact h
  exact ⟨hr, hr, hr, hr⟩

/-- The final `math::constrain(mc_weight, 0.0f, 1.0f)` of
`update_transition_state` yields a value in [0, 1] unless `mc_weight` is
NaN, which it passes through. -/
theorem F32_constrain_unit_interval (x : F32) :
    (x ≠ F32.nan → (F32.constrain x F32.zero F32.one).in_unit_interval = true)
    ∧ F32.constrain F32.nan F32.zero F32.one = F32.nan
    ∧ F32.nan.in_unit_interval = false := by
  refine ⟨?_, rfl, rfl⟩
  intro hx
  cases x with
  | finite q =>
    rw [F32_constrain_finite]
    simp [F32.in_unit_interval, F32.zero, F32.one, F32_le_finite]
  | posInf => decide
  | negInf => decide
  | nan => exact absurd rfl hx

/-- C12 fails on the code at this input: a front transition in its first
microsecond (elapsed time 0) with `FW_USE_AIRSPD` off and a minimum front
transition time of 0, weights at one half before the call. The time-based
blend divides 0 by 0, `math::constrain` passes the NaN on, and
`update_transition_state` leaves the four weights NaN, outside [0, 1]. -/
theorem update_transition_state_weight_range_failing_input :
    (example_coordinator { example_front_transition with _trans_start_ts := 6000000 }
        2 false)._vtol_type._mc_roll_weight.in_unit_interval = true
    ∧ (Standard.update_transition_state
        { example_transition_inputs with
          param_fw_use_airspd := false,
          getMinimumFrontTransitionTime := F32.zero }
        (example_coordinator { example_front_transition with _trans_start_ts := 6000000 }
          2 false))._vtol_type._time_since_trans_start = F32.zero
    ∧ (Standard.update_transition_state
        { example_transition_inputs with
          param_fw_use_airspd := false,
          getMinimumFrontTransitionTime := F32.zero }
        (example_coordinator { example_front_transition with _trans_start_ts := 6000000 }
          2 false))._vtol_type._mc_roll_weight = F32.nan
    ∧ (Standard.update_transition_state
        { example_transition_inputs with
          param_fw_use_airspd := false,
          getMinimumFrontTransitionTime := F32.zero }
        (example_coordinator { example_front_transition with _trans_start_ts := 6000000 }
          2 false))._vtol_type._mc_throttle_weight.in_unit_interval = false := by
  refine ⟨by decide!, by decide!, by decide!, by decide!⟩

/-! ## The rate check of `Run` -/

/-- The polls, the state machine, the mode specific updates and
`fill_actuator_outputs` leave `_last_run_timestamp` as it is. -/
theorem Run_parts_keep_last_run_timestamp (k : VEHICLE_VTOL_STATE) (a : VtolAttitudeControl) :
    (∀ status, (vehicle_status_poll k status a)._last_run_timestamp = a._last_run_timestamp)
    ∧ (∀ req, (action_request_poll_step k req a)._last_run_timestamp = a._last_run_timestamp)
    ∧ (∀ now cmd, (vehicle_cmd_poll_step k now cmd a)._last_run_timestamp
        = a._last_run_timestamp)
    ∧ (∀ inp, (Standard.update_vtol_state k inp a)._last_run_timestamp = a._last_run_timestamp)
    ∧ (∀ inp, (Standard.update_transition_state inp a)._last_run_timestamp
        = a._last_run_timestamp)
    ∧ (∀ inp, (Run_mode_update inp a)._last_run_timestamp = a._last_run_timestamp)
    ∧ (∀ inp, (Standard.fill_actuator_outputs inp a)._last_run_timestamp
        = a._last_run_timestamp) := by
  have htrans : ∀ inp, (Standard.update_transition_state inp a)._last_run_timestamp
      = a._last_run_timestamp := by
    intro inp
    have hbase := (VtolType_update_transition_state_frame inp a).2.2.2
    simp only [Standard.update_transition_state]
    split <;> simp [hbase]
  refine ⟨?_, ?_, ?_, ?_, htrans, ?_, ?_⟩
  · intro status
    simp only [vehicle_status_poll]
    split_ifs <;> rfl
  · intro req
    cases hact : req.action <;> simp [action_request_poll_step, hact]
  · intro now cmd
    simp only [vehicle_cmd_poll_step]
    split_ifs <;> rfl
  · intro inp
    rfl
  · intro inp
    simp only [Run_mode_update]
    split <;> split_ifs <;>
      first
      | rfl
      | exact htrans _
  · intro inp
    simp only [Standard.fill_actuator_outputs]
    split <;> rfl

/-- The two poll loops leave `_last_run_timestamp` as it is. -/
theorem polls_keep_last_run_timestamp (k : VEHICLE_VTOL_STATE)
    (reqs : List action_request_s) (cmds : List (Nat × vehicle_command_s))
    (a : VtolAttitudeControl) :
    (action_request_poll k reqs a)._last_run_timestamp = a._last_run_timestamp
    ∧ (vehicle_cmd_poll k cmds a)._last_run_timestamp = a._last_run_timestamp := by
  constructor
  · induction reqs generalizing a with
    | nil => rfl
    | cons r rs ih =>
      simp only [action_request_poll, List.foldl_cons] at ih ⊢
      rw [ih]
      exact (Run_parts_keep_last_run_timestamp k a).2.1 r
  · induction cmds generalizing a with
    | nil => rfl
    | cons c cs ih =>
      simp only [vehicle_cmd_poll, List.foldl_cons] at ih ⊢
      rw [ih]
      exact (Run_parts_keep_last_run_timestamp k a).2.2.1 c.1 c.2

/-- No path through `Run` writes `_last_run_timestamp`. -/
theorem Run_keeps_last_run_timestamp (k : VEHICLE_VTOL_STATE) (inp : Run_inputs)
    (a : VtolAttitudeControl) :
    (Run k inp a).1._last_run_timestamp = a._last_run_timestamp := by
  have hinit : (if (!a._initialized) = true then { a with _initialized := true } else a
      : VtolAttitudeControl)._last_run_timestamp = a._last_run_timestamp := by
    split_ifs <;> rfl
  have hwork : ∀ a1 : VtolAttitudeControl,
      a1._last_run_timestamp = a._last_run_timestamp →
      (Standard.fill_actuator_outputs inp.actuator_outputs
        (Run_mode_update inp
          (Run_state_update k inp.vtol_state inp.vehicle_status_sub inp.action_request_sub
            inp.vehicle_cmd_sub a1)))._last_run_timestamp = a._last_run_timestamp := by
    intro a1 h1
    simp only [Run_state_update]
    rw [(Run_parts_keep_last_run_timestamp k _).2.2.2.2.2.2 _,
      (Run_parts_keep_last_run_timestamp k _).2.2.2.2.2.1 _,
      (Run_parts_keep_last_run_timestamp k _).2.2.2.1 _,
      (polls_keep_last_run_timestamp k inp.action_request_sub inp.vehicle_cmd_sub _).2,
      (polls_keep_last_run_timestamp k inp.action_request_sub inp.vehicle_cmd_sub _).1,
      (Run_parts_keep_last_run_timestamp k _).1 _, h1]
  have hcycle : ∀ a1 : VtolAttitudeControl,
      a1._last_run_timestamp = a._last_run_timestamp →
      (if Run_should_run inp a1 = true then
          (Standard.fill_actuator_outputs inp.actuator_outputs
            (Run_mode_update inp
              (Run_state_update k inp.vtol_state inp.vehicle_status_sub
                inp.action_request_sub inp.vehicle_cmd_sub a1)), Run_outcome.worked)
        else (a1, Run_outcome.idle)).1._last_run_timestamp = a._last_run_timestamp := by
    intro a1 h1
    split_ifs
    · exact hwork a1 h1
    · exact h1
  unfold Run
  by_cases he : inp.should_exit = true
  · simp [he]
  · by_cases hr : Run_rate_check inp a = true
    · simp [he, hr]
    · by_cases hi : (!a._initialized && !inp.init) = true
      · simp only [he, hr, hi, if_true, if_false]
        trivial
      · simp only [he, hr, hi, if_false]
        exact hcycle _ hinit

/-- In a build without lockstep, once an invocation of `Run` has passed the
rate check, every later invocation passes it as well, however soon it comes:
the timestamp it is measured against never moves. -/
theorem Run_rate_check_never_drops_again (k : VEHICLE_VTOL_STATE) (inp1 inp2 : Run_inputs)
    (a : VtolAttitudeControl)
    (hbuild : inp1.ENABLE_LOCKSTEP_SCHEDULER = false)
    (hlast : a._last_run_timestamp ≤ inp1.hrt_absolute_time)
    (horder : inp1.hrt_absolute_time ≤ inp2.hrt_absolute_time)
    (hnow : inp2.hrt_absolute_time < 2 ^ 64)
    (hpass : Run_rate_check inp1 a = false) :
    Run_rate_check inp2 (Run k inp1 a).1 = false := by
  have hkeep := Run_keeps_last_run_timestamp k inp1 a
  have h1 := hrt_sub_of_le _ _ hlast (lt_of_le_of_lt horder hnow)
  have h2 := hrt_sub_of_le _ _ (le_trans hlast horder) hnow
  unfold Run_rate_check at hpass ⊢
  rw [hkeep, h2]
  rw [h1, hbuild] at hpass
  have hge : ¬ inp1.hrt_absolute_time - a._last_run_timestamp < time_2_ms := by
    simpa using hpass
  have hge2 : ¬ inp2.hrt_absolute_time - a._last_run_timestamp < time_2_ms := by
    omega
  simp [hge2]

/-- C19 fails on the code at this input: in a build without lockstep, with
`_last_run_timestamp` at its initial 0, `Run` is invoked at clock 10000 and
again at clock 10500, 0.5 ms later. Both invocations pass the rate check and
do a working cycle, and `_last_run_timestamp` is still 0 afterwards. -/
theorem Run_rate_check_failing_input :
    (example_run_inputs 10000).ENABLE_LOCKSTEP_SCHEDULER = false
    ∧ (example_coordinator example_hover 3 false)._last_run_timestamp = 0
    ∧ hrt_sub 10500 10000 < time_2_ms
    ∧ (Run example_codes (example_run_inputs 10000)
        (example_coordinator example_hover 3 false)).2 = Run_outcome.worked
    ∧ (Run example_codes (example_run_inputs 10500)
        (Run example_codes (example_run_inputs 10000)
          (example_coordinator example_hover 3 false)).1).2 = Run_outcome.worked
    ∧ (Run example_codes (example_run_inputs 10500)
        (Run example_codes (example_run_inputs 10000)
          (example_coordinator example_hover 3 false)).1).1._last_run_timestamp = 0 := by
  refine ⟨rfl, rfl, by decide, by decide!, by decide!, by decide!⟩

/-! ## The round trip MC, FW, MC -/

/-- With fresh setpoints in TRANSITION_TO_MC, `update_transition_state` sets
the pusher throttle to 0 and each weight to the elapsed time over
`VT_B_TRANS_RAMP` constrained to [0, 1], or to 1 when the ramp is not above
`FLT_EPSILON`. -/
theorem update_transition_state_back (inp : update_transition_state_inputs)
    (a : VtolAttitudeControl) (sp : vehicle_attitude_setpoint_s) (roll_body : F32)
    (hmode : a._vtol_type._vtol_mode = vtol_mode.TRANSITION_TO_MC)
    (hcopy : Standard.update_transition_state_copy inp = some (sp, roll_body)) :
    (Standard.update_transition_state inp a)._vtol_type._mc_roll_weight =
        F32.constrain
          (if F32.gt inp.param_vt_b_trans_ramp F32.FLT_EPSILON = true then
            F32.div
              (F32.div
                (F32.ofNat (hrt_sub inp.hrt_absolute_time a._vtol_type._trans_start_ts))
                (F32.finite 1000000))
              inp.param_vt_b_trans_ramp
          else F32.one)
          F32.zero F32.one
    ∧ (Standard.update_transition_state inp a)._vtol_type._mc_pitch_weight
      = (Standard.update_transition_state inp a)._vtol_type._mc_roll_weight
    ∧ (Standard.update_transition_state inp a)._vtol_type._mc_yaw_weight
      = (Standard.update_transition_state inp a)._vtol_type._mc_roll_weight
    ∧ (Standard.update_transition_state inp a)._vtol_type._mc_throttle_weight
      = (Standard.update_transition_state inp a)._vtol_type._mc_roll_weight
    ∧ (Standard.update_transition_state inp a)._vtol_type._pusher_throttle = F32.zero
    ∧ (Standard.update_transition_state inp a)._vtol_type._vtol_mode
      = vtol_mode.TRANSITION_TO_MC
    ∧ (Standard.update_transition_state inp a)._vtol_type._trans_start_ts
      = a._vtol_type._trans_start_ts := by
  have hbase := (VtolType_update_transition_state_frame inp a).1
  refine ⟨?_, ?_, ?_, ?_, ?_, ?_, ?_⟩ <;>
    simp only [Standard.update_transition_state, hcopy, hbase, hmode]

/-- C14 as stated fails: a round trip that starts in hover, completes the
front transition (FW_MODE, weights 0), requests MC and leaves the back
transition after one second of a three second ramp is in MC_MODE with pusher
throttle 0 and with each of the four weights at one third, not 1; the mode
specific update of the same cycle of `Run` leaves the weights at one third. -/
theorem round_trip_weights_counterexample :
    example_round_trip_forward._vtol_type._vtol_mode = vtol_mode.FW_MODE
    ∧ example_round_trip_forward._vtol_type._mc_roll_weight = F32.zero
    ∧ example_round_trip_back._vtol_type._vtol_mode = vtol_mode.TRANSITION_TO_MC
    ∧ example_round_trip_end._vtol_type._vtol_mode = vtol_mode.MC_MODE
    ∧ example_round_trip_end._vtol_type._pusher_throttle = F32.zero
    ∧ example_round_trip_end._vtol_type._mc_roll_weight = F32.finite (1 / 3)
    ∧ example_round_trip_end._vtol_type._mc_pitch_weight = F32.finite (1 / 3)
    ∧ example_round_trip_end._vtol_type._mc_yaw_weight = F32.finite (1 / 3)
    ∧ example_round_trip_end._vtol_type._mc_throttle_weight = F32.finite (1 / 3)
    ∧ example_round_trip_end._vtol_type._mc_roll_weight ≠ F32.one
    ∧ (Run_mode_update (example_run_inputs 9004000)
        example_round_trip_end)._vtol_type._vtol_mode = vtol_mode.MC_MODE
    ∧ (Run_mode_update (example_run_inputs 9004000)
        example_round_trip_end)._vtol_type._mc_roll_weight = F32.finite (1 / 3) := by
  refine ⟨by decide!, by decide!, by decide!, by decide!, by decide!, by decide!, by decide!,
    by decide!, by decide!, by decide!, by decide!, by decide!⟩

/-- The mode specific update of `Run` in hover: `update_mc_state`, run when
the multirotor attitude setpoint was updated, sets the pusher throttle to the
result of `pusher_assist()` and leaves the mode, the weights, the transition
command and the failure flag. -/
theorem Run_mode_update_rotary_wing (r : Run_inputs) (x : VtolAttitudeControl)
    (hx : x._vtol_type._common_vtol_mode = mode.ROTARY_WING) :
    (Run_mode_update r x)._vtol_type
        = { x._vtol_type with
            _pusher_throttle :=
              if r.mc_att_sp_updated = true then r.pusher_assist
              else x._vtol_type._pusher_throttle }
    ∧ (Run_mode_update r x)._transition_command = x._transition_command
    ∧ (Run_mode_update r x)._vtol_vehicle_status = x._vtol_vehicle_status := by
  have hget : x._vtol_type.get_mode = mode.ROTARY_WING := hx
  cases hu : r.mc_att_sp_updated <;>
    simp [Run_mode_update, hget, hu, Standard.update_mc_state, VtolType.update_mc_state]

/-- In MC_MODE with forward flight not requested and no failure latched,
`update_vtol_state` keeps MC_MODE, sets the four weights to 1 and leaves the
pusher throttle. -/
theorem update_vtol_state_hover (k : VEHICLE_VTOL_STATE) (v : update_vtol_state_inputs)
    (c : VtolAttitudeControl) (hm : c._vtol_type._vtol_mode = vtol_mode.MC_MODE)
    (hq : c.is_fixed_wing_requested k = false)
    (hf : c._vtol_vehicle_status.fixed_wing_system_failure = false) :
    (Standard.update_vtol_state k v c)._vtol_type._vtol_mode = vtol_mode.MC_MODE
    ∧ (Standard.update_vtol_state k v c)._vtol_type._common_vtol_mode = mode.ROTARY_WING
    ∧ (Standard.update_vtol_state k v c)._vtol_type._pusher_throttle
        = c._vtol_type._pusher_throttle
    ∧ (Standard.update_vtol_state k v c)._vtol_type._mc_roll_weight = F32.one
    ∧ (Standard.update_vtol_state k v c)._vtol_type._mc_pitch_weight = F32.one
    ∧ (Standard.update_vtol_state k v c)._vtol_type._mc_yaw_weight = F32.one
    ∧ (Standard.update_vtol_state k v c)._vtol_type._mc_throttle_weight = F32.one := by
  simp [Standard.update_vtol_state, Standard.update_vtol_state_branch, hm, hq, hf,
    Standard.common_mode_of]

/-- C14, amended: at the end of a round trip, when `update_vtol_state` takes
the airframe from TRANSITION_TO_MC back to MC_MODE after a call of
`update_transition_state` with fresh setpoints and no quadchute, the pusher
throttle is 0 and each of the four weights has the last blend value of the
back transition, the elapsed time over `VT_B_TRANS_RAMP` constrained to
[0, 1] (1 when the ramp is not above `FLT_EPSILON`). The mode specific update
of the same cycle of `Run` keeps mode and weights and, when the multirotor
attitude setpoint was updated, lets `update_mc_state` set the pusher throttle
to the result of `pusher_assist()`. In the next cycle `update_vtol_state`
keeps MC_MODE, sets the four weights to 1 and does not write the pusher
throttle, which after the mode specific update is again the result of
`pusher_assist()`, or unchanged without an attitude setpoint update. -/
theorem round_trip_back_to_mc (k : VEHICLE_VTOL_STATE)
    (tinp : update_transition_state_inputs) (vinp vinp_next : update_vtol_state_inputs)
    (r r_next : Run_inputs) (a : VtolAttitudeControl)
    (hmode : a._vtol_type._vtol_mode = vtol_mode.TRANSITION_TO_MC)
    (hreq : a.is_fixed_wing_requested k = false)
    (hfail : a._vtol_vehicle_status.fixed_wing_system_failure = false)
    (hfresh : (Standard.update_transition_state_copy tinp).isSome = true)
    (hquad : tinp.quadchute_check = QuadchuteReason.None)
    (hdone : (Standard.update_vtol_state k vinp
        (Standard.update_transition_state tinp a))._vtol_type._vtol_mode = vtol_mode.MC_MODE) :
    (Standard.update_vtol_state k vinp
        (Standard.update_transition_state tinp a))._vtol_type._pusher_throttle = F32.zero
    ∧ (Standard.update_vtol_state k vinp
        (Standard.update_transition_state tinp a))._vtol_type._mc_roll_weight =
        F32.constrain
          (if F32.gt tinp.param_vt_b_trans_ramp F32.FLT_EPSILON = true then
            F32.div
              (F32.div
                (F32.ofNat (hrt_sub tinp.hrt_absolute_time a._vtol_type._trans_start_ts))
                (F32.finite 1000000))
              tinp.param_vt_b_trans_ramp
          else F32.one)
          F32.zero F32.one
    ∧ (Standard.update_vtol_state k vinp
        (Standard.update_transition_state tinp a))._vtol_type._mc_pitch_weight
      = (Standard.update_vtol_state k vinp
        (Standard.update_transition_state tinp a))._vtol_type._mc_roll_weight
    ∧ (Standard.update_vtol_state k vinp
        (Standard.update_transition_state tinp a))._vtol_type._mc_yaw_weight
      = (Standard.update_vtol_state k vinp
        (Standard.update_transition_state tinp a))._vtol_type._mc_roll_weight
    ∧ (Standard.update_vtol_state k vinp
        (Standard.update_transition_state tinp a))._vtol_type._mc_throttle_weight
      = (Standard.update_vtol_state k vinp
        (Standard.update_transition_state tinp a))._vtol_type._mc_roll_weight
    ∧ (Run_mode_update r (Standard.update_vtol_state k vinp
        (Standard.update_transition_state tinp a)))._vtol_type
      = { (Standard.update_vtol_state k vinp
            (Standard.update_transition_state tinp a))._vtol_type with
          _pusher_throttle := if r.mc_att_sp_updated = true then r.pusher_assist else F32.zero }
    ∧ (Standard.update_vtol_state k vinp_next
        (Run_mode_update r (Standard.update_vtol_state k vinp
          (Standard.update_transition_state tinp a))))._vtol_type._vtol_mode
      = vtol_mode.MC_MODE
    ∧ (Standard.update_vtol_state k vinp_next
        (Run_mode_update r (Standard.update_vtol_state k vinp
          (Standard.update_transition_state tinp a))))._vtol_type._pusher_throttle
      = (if r.mc_att_sp_updated = true then r.pusher_assist else F32.zero)
    ∧ (Standard.update_vtol_state k vinp_next
        (Run_mode_update r (Standard.update_vtol_state k vinp
          (Standard.update_transition_state tinp a))))._vtol_type._mc_roll_weight = F32.one
    ∧ (Standard.update_vtol_state k vinp_next
        (Run_mode_update r (Standard.update_vtol_state k vinp
          (Standard.update_transition_state tinp a))))._vtol_type._mc_pitch_weight = F32.one
    ∧ (Standard.update_vtol_state k vinp_next
        (Run_mode_update r (Standard.update_vtol_state k vinp
          (Standard.update_transition_state tinp a))))._vtol_type._mc_yaw_weight = F32.one
    ∧ (Standard.update_vtol_state k vinp_next
        (Run_mode_update r (Standard.update_vtol_state k vinp
          (Standard.update_transition_state tinp a))))._vtol_type._mc_throttle_weight
      = F32.one
    ∧ (Run_mode_update r_next (Standard.update_vtol_state k vinp_next
        (Run_mode_update r (Standard.update_vtol_state k vinp
          (Standard.update_transition_state tinp a)))))._vtol_type
      = { (Standard.update_vtol_state k vinp_next
            (Run_mode_update r (Standard.update_vtol_state k vinp
              (Standard.update_transition_state tinp a))))._vtol_type with
          _pusher_throttle :=
            if r_next.mc_att_sp_updated = true then r_next.pusher_assist
            else if r.mc_att_sp_updated = true then r.pusher_assist else F32.zero } := by
  obtain ⟨res, hr⟩ := Option.isSome_iff_exists.mp hfresh
  obtain ⟨sp, roll⟩ := res
  have hreq' : (a._transition_command == k.FW) = false := hreq
  have hback := update_transition_state_back tinp a sp roll hmode hr
  have hb_fail : (Standard.update_transition_state tinp a)._vtol_vehicle_status
      = a._vtol_vehicle_status := by
    simp [Standard.update_transition_state, VtolType.update_transition_state, hquad, hr]
  have hb_cmd : (Standard.update_transition_state tinp a)._transition_command
      = a._transition_command := by
    simp [Standard.update_transition_state, VtolType.update_transition_state, hquad, hr]
  have hb_req : (Standard.update_transition_state tinp a).is_fixed_wing_requested k = false := by
    simp only [VtolAttitudeControl.is_fixed_wing_requested, hb_cmd]
    exact hreq'
  -- the call that ends the back transition
  have hc_gen : ∀ b : VtolAttitudeControl,
      b._vtol_type._vtol_mode = vtol_mode.TRANSITION_TO_MC →
      b.is_fixed_wing_requested k = false →
      b._vtol_vehicle_status.fixed_wing_system_failure = false →
      (Standard.update_vtol_state k vinp b)._vtol_type._pusher_throttle
        = b._vtol_type._pusher_throttle
      ∧ (Standard.update_vtol_state k vinp b)._vtol_type._mc_roll_weight
        = b._vtol_type._mc_roll_weight := by
    intro b hm hq hf
    simp only [Standard.update_vtol_state, Standard.update_vtol_state_branch, hm, hq, hf]
    split_ifs <;> simp_all
  have hc := hc_gen (Standard.update_transition_state tinp a) hback.2.2.2.2.2.1 hb_req
    (by rw [hb_fail]; exact hfail)
  have hc_pusher : (Standard.update_vtol_state k vinp
      (Standard.update_transition_state tinp a))._vtol_type._pusher_throttle = F32.zero := by
    rw [hc.1, hback.2.2.2.2.1]
  have hc_req : (Standard.update_vtol_state k vinp
      (Standard.update_transition_state tinp a)).is_fixed_wing_requested k = false := hb_req
  have hc_fail : (Standard.update_vtol_state k vinp
      (Standard.update_transition_state tinp a))._vtol_vehicle_status.fixed_wing_system_failure
      = false := by
    show (Standard.update_transition_state tinp a)._vtol_vehicle_status.fixed_wing_system_failure
      = false
    rw [hb_fail]
    exact hfail
  have hc_common : (Standard.update_vtol_state k vinp
      (Standard.update_transition_state tinp a))._vtol_type._common_vtol_mode
      = mode.ROTARY_WING := by
    have : (Standard.update_vtol_state k vinp
        (Standard.update_transition_state tinp a))._vtol_type._common_vtol_mode
        = Standard.common_mode_of (Standard.update_vtol_state k vinp
          (Standard.update_transition_state tinp a))._vtol_type._vtol_mode := rfl
    rw [this, hdone]
    rfl
  -- the mode specific update of the same cycle
  have hd := Run_mode_update_rotary_wing r _ hc_common
  have hd_type : (Run_mode_update r (Standard.update_vtol_state k vinp
        (Standard.update_transition_state tinp a)))._vtol_type
      = { (Standard.update_vtol_state k vinp
            (Standard.update_transition_state tinp a))._vtol_type with
          _pusher_throttle :=
            if r.mc_att_sp_updated = true then r.pusher_assist else F32.zero } := by
    rw [hd.1, hc_pusher]
  have hd_mode : (Run_mode_update r (Standard.update_vtol_state k vinp
      (Standard.update_transition_state tinp a)))._vtol_type._vtol_mode = vtol_mode.MC_MODE := by
    rw [hd_type]
    exact hdone
  have hd_req : (Run_mode_update r (Standard.update_vtol_state k vinp
      (Standard.update_transition_state tinp a))).is_fixed_wing_requested k = false := by
    simp only [VtolAttitudeControl.is_fixed_wing_requested, hd.2.1]
    exact hc_req
  have hd_fail : (Run_mode_update r (Standard.update_vtol_state k vinp
      (Standard.update_transition_state tinp a)))._vtol_vehicle_status.fixed_wing_system_failure
      = false := by
    rw [hd.2.2]
    exact hc_fail
  -- the next cycle
  have he := update_vtol_state_hover k vinp_next _ hd_mode hd_req hd_fail
  have he_pusher : (Standard.update_vtol_state k vinp_next
        (Run_mode_update r (Standard.update_vtol_state k vinp
          (Standard.update_transition_state tinp a))))._vtol_type._pusher_throttle
      = (if r.mc_att_sp_updated = true then r.pusher_assist else F32.zero) := by
    rw [he.2.2.1, hd_type]
  have hf := Run_mode_update_rotary_wing r_next _ he.2.1
  refine ⟨hc_pusher, hc.2.trans hback.1, rfl, rfl, rfl, hd_type, he.1, he_pusher, he.2.2.2.1,
    he.2.2.2.2.1, he.2.2.2.2.2.1, he.2.2.2.2.2.2, ?_⟩
  rw [hf.1, he_pusher]

/-- Witness of C14, amended: the round trip of the example. After the cycle
that ends the back transition the pusher throttle is the result of
`pusher_assist()`, here 0.2; one cycle later the weights are 1. -/
theorem round_trip_back_to_mc_witness :
    example_round_trip_request._vtol_type._vtol_mode = vtol_mode.TRANSITION_TO_MC
    ∧ example_round_trip_request.is_fixed_wing_requested example_codes = false
    ∧ example_round_trip_end._vtol_type._vtol_mode = vtol_mode.MC_MODE
    ∧ example_round_trip_end._vtol_type._pusher_throttle = F32.zero
    ∧ (Standard.update_vtol_state example_codes example_inputs
        (Run_mode_update
          { example_run_inputs 9004000 with pusher_assist := F32.finite (1 / 5) }
          example_round_trip_end))._vtol_type._pusher_throttle = F32.finite (1 / 5)
    ∧ (Standard.update_vtol_state example_codes example_inputs
        (Run_mode_update
          { example_run_inputs 9004000 with pusher_assist := F32.finite (1 / 5) }
          example_round_trip_end))._vtol_type._mc_roll_weight = F32.one
    ∧ (Standard.update_vtol_state example_codes example_inputs
        (Run_mode_update
          { example_run_inputs 9004000 with pusher_assist := F32.finite (1 / 5) }
          example_round_trip_end))._vtol_type._mc_throttle_weight = F32.one :=
  have h := round_trip_back_to_mc example_codes example_back_transition_inputs
    { example_inputs with v_xy_valid := false, hrt_absolute_time := 9004000 } example_inputs
    { example_run_inputs 9004000 with pusher_assist := F32.finite (1 / 5) }
    (example_run_inputs 9008000)
    example_round_trip_request (by decide!) (by decide!) (by decide!) (by decide!) rfl
    (by decide!)
  ⟨by decide!, by decide!, by decide!, h.1, h.2.2.2.2.2.2.2.1, h.2.2.2.2.2.2.2.2.1,
    h.2.2.2.2.2.2.2.2.2.2.2.1⟩

/-! ## Monotonicity of the weights in the front transition -/

/-- The time-based blend of the front transition, taken when the calibrated
airspeed is not finite, on finite values with a nonzero minimum time. -/
theorem front_transition_mc_weight_time_based (t : update_transition_state_inputs)
    (margin : F32) (M τ : ℚ) (hM : t.getMinimumFrontTransitionTime = F32.finite M)
    (hM0 : M ≠ 0) (hairspeed : t.calibrated_airspeed_m_s.isFinite = false) :
    Standard.front_transition_mc_weight t margin (F32.finite τ)
      = F32.finite (max 0 (min (2 * (1 - τ / M)) 1)) := by
  unfold Standard.front_transition_mc_weight
  simp only [hairspeed, hM, Bool.and_false, Bool.false_and, Bool.not_false, Bool.or_true,
    Bool.false_eq_true, if_false, if_true, F32.one, F32_div_finite _ _ hM0, F32_sub_finite,
    F32_mul_finite]
  exact F32_constrain_finite _

/-- C21 as stated fails: with `_transition_command` at MC, a
DO_VTOL_TRANSITION command with param1 = 7 outside the denied nav states is
accepted and `vehicle_cmd_poll` stores 7, which is neither MC nor FW. -/
theorem transition_command_range_counterexample :
    (example_coordinator example_hover 3 false)._transition_command = example_codes.MC
    ∧ example_other_command.command = VEHICLE_CMD.DO_VTOL_TRANSITION
    ∧ (vehicle_cmd_poll example_codes [(7000000, example_other_command)]
        (example_coordinator example_hover 3 false))._transition_command = 7
    ∧ (vehicle_cmd_poll example_codes [(7000000, example_other_command)]
        (example_coordinator example_hover 3 false))._transition_command ≠ example_codes.MC
    ∧ (vehicle_cmd_poll example_codes [(7000000, example_other_command)]
        (example_coordinator example_hover 3 false))._transition_command
        ≠ example_codes.FW := by
  refine ⟨rfl, rfl, by decide!, by decide!, by decide!⟩

/-- C21, amended: if `_transition_command` is MC or FW, it is MC or FW after
`vehicle_status_poll` and after `action_request_poll` with any requests. After
`vehicle_cmd_poll` with one command it is the rounded param1 when the command
is an accepted DO_VTOL_TRANSITION and the previous value otherwise, so it is
MC or FW again exactly when the command is not an accepted DO_VTOL_TRANSITION
or its param1 rounds to MC or to FW. -/
theorem transition_command_range (k : VEHICLE_VTOL_STATE) (a : VtolAttitudeControl)
    (status : vehicle_status_s) (reqs : List action_request_s) (now : Nat)
    (cmd : vehicle_command_s)
    (h : a._transition_command = k.MC ∨ a._transition_command = k.FW) :
    ((vehicle_status_poll k status a)._transition_command = k.MC
        ∨ (vehicle_status_poll k status a)._transition_command = k.FW)
    ∧ ((action_request_poll k reqs a)._transition_command = k.MC
        ∨ (action_request_poll k reqs a)._transition_command = k.FW)
    ∧ ((vehicle_cmd_poll k [(now, cmd)] a)._transition_command =
        if cmd.command = VEHICLE_CMD.DO_VTOL_TRANSITION
            ∧ ¬ ((F32.add cmd.param1 F32.half).toInt = k.FW
              ∧ (a._vehicle_status.nav_state = NAVIGATION_STATE.AUTO_TAKEOFF
                ∨ a._vehicle_status.nav_state = NAVIGATION_STATE.AUTO_LAND
                ∨ a._vehicle_status.nav_state = NAVIGATION_STATE.AUTO_RTL
                ∨ a._vehicle_status.nav_state = NAVIGATION_STATE.ORBIT))
        then (F32.add cmd.param1 F32.half).toInt
        else a._transition_command)
    ∧ (((vehicle_cmd_poll k [(now, cmd)] a)._transition_command = k.MC
          ∨ (vehicle_cmd_poll k [(now, cmd)] a)._transition_command = k.FW)
        ↔ (¬ (cmd.command = VEHICLE_CMD.DO_VTOL_TRANSITION
              ∧ ¬ ((F32.add cmd.param1 F32.half).toInt = k.FW
                ∧ (a._vehicle_status.nav_state = NAVIGATION_STATE.AUTO_TAKEOFF
                  ∨ a._vehicle_status.nav_state = NAVIGATION_STATE.AUTO_LAND
                  ∨ a._vehicle_status.nav_state = NAVIGATION_STATE.AUTO_RTL
                  ∨ a._vehicle_status.nav_state = NAVIGATION_STATE.ORBIT)))
            ∨ (F32.add cmd.param1 F32.half).toInt = k.MC
            ∨ (F32.add cmd.param1 F32.half).toInt = k.FW)) := by
  have hreqs : (action_request_poll k reqs a)._transition_command = k.MC
      ∨ (action_request_poll k reqs a)._transition_command = k.FW := by
    induction reqs generalizing a with
    | nil => exact h
    | cons r rs ih =>
      simp only [action_request_poll, List.foldl_cons] at ih ⊢
      apply ih
      cases hact : r.action <;> simp [action_request_poll_step, hact, h]
  have hcmd : (vehicle_cmd_poll k [(now, cmd)] a)._transition_command =
      if cmd.command = VEHICLE_CMD.DO_VTOL_TRANSITION
          ∧ ¬ ((F32.add cmd.param1 F32.half).toInt = k.FW
            ∧ (a._vehicle_status.nav_state = NAVIGATION_STATE.AUTO_TAKEOFF
              ∨ a._vehicle_status.nav_state = NAVIGATION_STATE.AUTO_LAND
              ∨ a._vehicle_status.nav_state = NAVIGATION_STATE.AUTO_RTL
              ∨ a._vehicle_status.nav_state = NAVIGATION_STATE.ORBIT))
      then (F32.add cmd.param1 F32.half).toInt
      else a._transition_command := by
    by_cases hc : cmd.command = VEHICLE_CMD.DO_VTOL_TRANSITION <;>
      by_cases hfw : (F32.add cmd.param1 F32.half).toInt = k.FW <;>
      by_cases h1 : a._vehicle_status.nav_state = NAVIGATION_STATE.AUTO_TAKEOFF <;>
      by_cases h2 : a._vehicle_status.nav_state = NAVIGATION_STATE.AUTO_LAND <;>
      by_cases h3 : a._vehicle_status.nav_state = NAVIGATION_STATE.AUTO_RTL <;>
      by_cases h4 : a._vehicle_status.nav_state = NAVIGATION_STATE.ORBIT <;>
      cases hext : cmd.from_external <;>
      simp [vehicle_cmd_poll, vehicle_cmd_poll_step, vehicle_cmd_denied, hc, hfw, hext,
        h1, h2, h3, h4]
  refine ⟨?_, hreqs, hcmd, ?_⟩
  · simp only [vehicle_status_poll]
    split_ifs
    · exact Or.inl rfl
    · exact h
  · rw [hcmd]
    split_ifs with hacc
    · constructor
      · intro hv
        exact Or.inr hv
      · rintro (hn | hv)
        · exact absurd hacc hn
        · exact hv
    · constructor
      · intro _
        exact Or.inl hacc
      · intro _
        exact h

/-- Witness of C21, amended: the command is FW, a TransitionToMc request
arrives and then the rejected FW command during AUTO_LAND. -/
theorem transition_command_range_witness :
    ((example_coordinator example_front_transition 2 false)._transition_command
        = example_codes.MC
      ∨ (example_coordinator example_front_transition 2 false)._transition_command
        = example_codes.FW)
    ∧ (action_request_poll example_codes [{ action := ACTION.VTOL_TRANSITION_TO_MULTICOPTER }]
        (example_coordinator example_front_transition 2 false))._transition_command = 3
    ∧ ((action_request_poll example_codes
        [{ action := ACTION.VTOL_TRANSITION_TO_MULTICOPTER }]
        (example_coordinator example_front_transition 2 false))._transition_command
          = example_codes.MC
      ∨ (action_request_poll example_codes
        [{ action := ACTION.VTOL_TRANSITION_TO_MULTICOPTER }]
        (example_coordinator example_front_transition 2 false))._transition_command
          = example_codes.FW) :=
  ⟨Or.inr rfl, by decide,
    (transition_command_range example_codes
      (example_coordinator example_front_transition 2 false)
      { nav_state := NAVIGATION_STATE.AUTO_LAND }
      [{ action := ACTION.VTOL_TRANSITION_TO_MULTICOPTER }] 7000000 example_fw_command
      (Or.inr rfl)).2.1⟩

/-- C22 as stated fails: the external FW command of the example, sent twice
in a row outside the denied nav states, is answered by two acks. -/
theorem vehicle_cmd_poll_double_send_counterexample :
    example_fw_command.from_external = true
    ∧ (example_coordinator example_hover 3 false).command_ack_pub = []
    ∧ (vehicle_cmd_poll example_codes
        [(7000000, example_fw_command), (7004000, example_fw_command)]
        (example_coordinator example_hover 3 false)).command_ack_pub.length = 2
    ∧ ¬ ((vehicle_cmd_poll example_codes
        [(7000000, example_fw_command), (7004000, example_fw_command)]
        (example_coordinator example_hover 3 false)).command_ack_pub.length ≤ 1) := by
  refine ⟨rfl, rfl, by decide!, by decide!⟩

/-- C22, amended: processing the same command twice in a row with
`vehicle_cmd_poll` leaves `_transition_command`, `_immediate_transition` and
`fixed_wing_system_failure` as processing it once does. An internal command
publishes no ack; an external DO_VTOL_TRANSITION command publishes one ack
each time it is processed, two in total, with the same result and target and
the clock reading of each processing. -/
theorem vehicle_cmd_poll_double_send (k : VEHICLE_VTOL_STATE) (now1 now2 : Nat)
    (cmd : vehicle_command_s) (a : VtolAttitudeControl) :
    (vehicle_cmd_poll k [(now1, cmd), (now2, cmd)] a)._transition_command
        = (vehicle_cmd_poll k [(now1, cmd)] a)._transition_command
    ∧ (vehicle_cmd_poll k [(now1, cmd), (now2, cmd)] a)._immediate_transition
        = (vehicle_cmd_poll k [(now1, cmd)] a)._immediate_transition
    ∧ (vehicle_cmd_poll k [(now1, cmd), (now2, cmd)] a)._vtol_vehicle_status
        = (vehicle_cmd_poll k [(now1, cmd)] a)._vtol_vehicle_status
    ∧ ((vehicle_cmd_poll k [(now1, cmd), (now2, cmd)] a).command_ack_pub =
        if cmd.command = VEHICLE_CMD.DO_VTOL_TRANSITION ∧ cmd.from_external = true then
          a.command_ack_pub ++
            [{ timestamp := now1,
               command := VEHICLE_CMD.DO_VTOL_TRANSITION,
               result :=
                 if (F32.add cmd.param1 F32.half).toInt = k.FW
                     ∧ (a._vehicle_status.nav_state = NAVIGATION_STATE.AUTO_TAKEOFF
                       ∨ a._vehicle_status.nav_state = NAVIGATION_STATE.AUTO_LAND
                       ∨ a._vehicle_status.nav_state = NAVIGATION_STATE.AUTO_RTL
                       ∨ a._vehicle_status.nav_state = NAVIGATION_STATE.ORBIT)
                 then VEHICLE_CMD_RESULT.TEMPORARILY_REJECTED
                 else VEHICLE_CMD_RESULT.ACCEPTED,
               target_system := cmd.source_system,
               target_component := cmd.source_component },
             { timestamp := now2,
               command := VEHICLE_CMD.DO_VTOL_TRANSITION,
               result :=
                 if (F32.add cmd.param1 F32.half).toInt = k.FW
                     ∧ (a._vehicle_status.nav_state = NAVIGATION_STATE.AUTO_TAKEOFF
                       ∨ a._vehicle_status.nav_state = NAVIGATION_STATE.AUTO_LAND
                       ∨ a._vehicle_status.nav_state = NAVIGATION_STATE.AUTO_RTL
                       ∨ a._vehicle_status.nav_state = NAVIGATION_STATE.ORBIT)
                 then VEHICLE_CMD_RESULT.TEMPORARILY_REJECTED
                 else VEHICLE_CMD_RESULT.ACCEPTED,
               target_system := cmd.source_system,
               target_component := cmd.source_component }]
        else
          a.command_ack_pub) := by
  by_cases hc : cmd.command = VEHICLE_CMD.DO_VTOL_TRANSITION
  · by_cases hfw : (F32.add cmd.param1 F32.half).toInt = k.FW <;>
      by_cases h1 : a._vehicle_status.nav_state = NAVIGATION_STATE.AUTO_TAKEOFF <;>
      by_cases h2 : a._vehicle_status.nav_state = NAVIGATION_STATE.AUTO_LAND <;>
      by_cases h3 : a._vehicle_status.nav_state = NAVIGATION_STATE.AUTO_RTL <;>
      by_cases h4 : a._vehicle_status.nav_state = NAVIGATION_STATE.ORBIT <;>
      cases hext : cmd.from_external <;>
      simp [vehicle_cmd_poll, vehicle_cmd_poll_step, vehicle_cmd_denied, hc, hfw, hext,
        h1, h2, h3, h4]
  · simp [vehicle_cmd_poll, vehicle_cmd_poll_step, hc]

/-! ## Theorems about `Standard::parameters_update` -/

/-- C23 as stated fails for a loaded `VT_B_TRANS_DUR` of NaN: `math::min`,
a comparison, then returns NaN as the ramp, and NaN is not at most NaN. -/
theorem parameters_update_clamps_ramp_counterexample :
    (Standard.parameters_update
        { _param_vt_b_trans_ramp := F32.finite 3,
          _param_vt_b_trans_dur := F32.nan })._param_vt_b_trans_ramp = F32.nan
    ∧ (Standard.parameters_update
        { _param_vt_b_trans_ramp := F32.finite 3,
          _param_vt_b_trans_dur := F32.nan })._param_vt_b_trans_dur = F32.nan
    ∧ F32.le
        (Standard.parameters_update
          { _param_vt_b_trans_ramp := F32.finite 3,
            _param_vt_b_trans_dur := F32.nan })._param_vt_b_trans_ramp
        (Standard.parameters_update
          { _param_vt_b_trans_ramp := F32.finite 3,
            _param_vt_b_trans_dur := F32.nan })._param_vt_b_trans_dur = false := by
  refine ⟨by decide, by decide, by decide⟩

/-- C23, amended: after `parameters_update`, `VT_B_TRANS_RAMP` is the minimum of the
loaded `VT_B_TRANS_RAMP` and `VT_B_TRANS_DUR` and `VT_B_TRANS_DUR` is the
loaded value; a second application changes nothing; and `VT_B_TRANS_RAMP` is
at most `VT_B_TRANS_DUR`, for every loaded ramp and every loaded duration
that is a number. -/
theorem parameters_update_clamps_ramp (stored : Standard_parameters) :
    (Standard.parameters_update stored)._param_vt_b_trans_ramp
        = F32.min stored._param_vt_b_trans_ramp stored._param_vt_b_trans_dur
    ∧ (Standard.parameters_update stored)._param_vt_b_trans_dur
        = stored._param_vt_b_trans_dur
    ∧ Standard.parameters_update (Standard.parameters_update stored)
        = Standard.parameters_update stored
    ∧ (stored._param_vt_b_trans_dur ≠ F32.nan →
        F32.le (Standard.parameters_update stored)._param_vt_b_trans_ramp
          (Standard.parameters_update stored)._param_vt_b_trans_dur = true)
    ∧ (∀ ramp dur : ℚ, stored._param_vt_b_trans_ramp = F32.finite ramp →
        stored._param_vt_b_trans_dur = F32.finite dur →
        (Standard.parameters_update stored)._param_vt_b_trans_ramp
          = F32.finite (min ramp dur)) := by
  obtain ⟨ramp, dur⟩ := stored
  have hlt_le : ∀ x y : F32, F32.lt x y = true → F32.le x y = true := by
    intro x y hxy
    cases x <;> cases y <;> simp_all [F32.lt, F32.le]
    exact le_of_lt hxy
  have hle_refl : ∀ y : F32, y ≠ F32.nan → F32.le y y = true := by
    intro y hy
    cases y <;> simp_all [F32.le]
  have hlt_irrefl : ∀ y : F32, F32.lt y y = false := by
    intro y
    cases y <;> simp [F32.lt]
  refine ⟨rfl, rfl, ?_, ?_, ?_⟩
  · simp only [Standard.parameters_update, F32.min]
    by_cases h : F32.lt ramp dur = true
    · simp [h]
    · simp [h, hlt_irrefl]
  · intro hdur
    simp only [Standard.parameters_update, F32.min]
    by_cases h : F32.lt ramp dur = true
    · simp only [h, if_true]
      exact hlt_le _ _ h
    · simp only [h, if_false]
      exact hle_refl _ hdur
  · intro r d hr hd
    simp only at hr hd
    simp only [Standard.parameters_update, hr, hd]
    exact F32_min_finite r d

/-- Instance of C23: a stored ramp of 5 s with a duration of 4 s becomes
4 s. -/
theorem parameters_update_on_example :
    Standard.parameters_update
        { _param_vt_b_trans_ramp := F32.finite 5, _param_vt_b_trans_dur := F32.finite 4 }
      = { _param_vt_b_trans_ramp := F32.finite 4, _param_vt_b_trans_dur := F32.finite 4 } := by
  decide

/-! ## The blend of the front and of the back transition -/

/-- The capped time step is not negative. -/
theorem capped_step_nonneg (n : Nat) : 0 ≤ capped_step n :=
  le_min (by positivity) (by norm_num)

/-- The sum of the capped time steps is not negative. -/
theorem pusher_ramp_capped_steps_nonneg (nows : List Nat) :
    ∀ last : Nat, 0 ≤ pusher_ramp_capped_steps last nows := by
  induction nows with
  | nil => intro last; exact le_rfl
  | cons now rest ih =>
    intro last
    have h1 := capped_step_nonneg (hrt_sub now last)
    have h2 := ih now
    simp only [pusher_ramp_capped_steps]
    linarith

/-- With ticks at most 50 ms apart after the clock `c0`, and the pusher update
before the first tick not later than `c0`, the capped time steps add up to at
least the time elapsed from `c0` to the last tick. -/
theorem pusher_ramp_capped_steps_elapsed (nows : List Nat) :
    ∀ c0 last : Nat, ticks_at_most_50_ms_apart c0 nows = true → last ≤ c0 →
      ((clock_of_last_tick c0 nows : ℚ) - c0) / 1000000
        ≤ pusher_ramp_capped_steps last nows := by
  induction nows with
  | nil =>
    intro c0 last _ _
    simp [clock_of_last_tick, pusher_ramp_capped_steps]
  | cons now rest ih =>
    intro c0 last hspaced hlast
    simp only [ticks_at_most_50_ms_apart, Bool.and_eq_true, decide_eq_true_eq] at hspaced
    obtain ⟨⟨⟨hc0, h50⟩, hwrap⟩, hrest⟩ := hspaced
    have hrec := ih now now hrest le_rfl
    have hsub : hrt_sub now last = now - last := hrt_sub_of_le now last (le_trans hlast hc0) hwrap
    have hcast : ((now - last : Nat) : ℚ) = (now : ℚ) - (last : ℚ) :=
      Nat.cast_sub (le_trans hlast hc0)
    have hl : (last : ℚ) ≤ (c0 : ℚ) := Nat.cast_le.mpr hlast
    have hc : (c0 : ℚ) ≤ (now : ℚ) := Nat.cast_le.mpr hc0
    have h5 : (now : ℚ) ≤ (c0 : ℚ) + 50000 := by exact_mod_cast h50
    have hstep : ((now : ℚ) - c0) / 1000000 ≤ capped_step (hrt_sub now last) := by
      unfold capped_step
      rw [hsub, hcast]
      apply le_min
      · apply div_le_div_of_nonneg_right _ (by norm_num)
        linarith
      · rw [div_le_iff₀ (by norm_num)]
        linarith
    simp only [clock_of_last_tick, pusher_ramp_capped_steps]
    have hsplit : ((clock_of_last_tick now rest : ℚ) - c0) / 1000000
        = ((clock_of_last_tick now rest : ℚ) - now) / 1000000 + ((now : ℚ) - c0) / 1000000 := by
      ring
    rw [hsplit]
    linarith

/-- The pusher ramp over successive ticks of the front transition with fresh
setpoints, the same finite slew rate above `FLT_EPSILON` and the same float
target, from a float throttle p0 in [0, target]: the airframe stays in
TRANSITION_TO_FW and the throttle is a float in [p0, target], within the
accumulated rounding of the exact min(p0 + slew * (d_1 + ... + d_n), target). -/
theorem update_transition_state_ticks_pusher (s T : ℚ) (hs : (1 : ℚ) / 8388608 < s)
    (hs2 : s ≤ 2 ^ 64) (hT2 : T ≤ 2 ^ 64) (hTf : F32.round T = F32.finite T)
    (ticks : List update_transition_state_inputs) :
    ∀ (a : VtolAttitudeControl) (p0 : ℚ),
      a._vtol_type._vtol_mode = vtol_mode.TRANSITION_TO_FW →
      (∀ t ∈ ticks, (Standard.update_transition_state_copy t).isSome = true) →
      (∀ t ∈ ticks, t.param_vt_psher_slew = F32.finite s) →
      (∀ t ∈ ticks, t.param_vt_f_trans_thr = F32.finite T) →
      a._vtol_type._pusher_throttle = F32.finite p0 →
      F32.round p0 = F32.finite p0 → 0 ≤ p0 → p0 ≤ T →
      (Standard.update_transition_state_ticks ticks a)._vtol_type._vtol_mode
          = vtol_mode.TRANSITION_TO_FW
      ∧ ∃ q : ℚ,
          (Standard.update_transition_state_ticks ticks a)._vtol_type._pusher_throttle
            = F32.finite q
          ∧ F32.round q = F32.finite q ∧ p0 ≤ q ∧ q ≤ T
          ∧ |q - min
                (p0 + s * pusher_ramp_capped_steps
                  a._vtol_type._last_time_pusher_transition_update
                  (ticks.map fun t => t.hrt_absolute_time)) T|
              ≤ s * pusher_ramp_capped_steps
                    a._vtol_type._last_time_pusher_transition_update
                    (ticks.map fun t => t.hrt_absolute_time) / 2 ^ 21
                + (ticks.length : ℚ) * T / 2 ^ 24
          ∧ (q < T →
              p0 + s * pusher_ramp_capped_steps
                    a._vtol_type._last_time_pusher_transition_update
                    (ticks.map fun t => t.hrt_absolute_time)
                - (s * pusher_ramp_capped_steps
                      a._vtol_type._last_time_pusher_transition_update
                      (ticks.map fun t => t.hrt_absolute_time) / 2 ^ 21
                  + (ticks.length : ℚ) * T / 2 ^ 24) ≤ q) := by
  have hs0 : 0 < s := lt_trans (by norm_num) hs
  induction ticks with
  | nil =>
    intro a p0 hmode _ _ _ hp0 hpf h0 hle
    refine ⟨hmode, p0, hp0, hpf, le_rfl, hle, ?_, fun _ => ?_⟩
    · simp [pusher_ramp_capped_steps, min_eq_left hle]
    · simp [pusher_ramp_capped_steps]
  | cons t rest ih =>
    intro a p0 hmode hfresh hslew htgt hp0 hpf h0 hle
    have hpush := update_transition_state_front_pusher t a hmode
      (hfresh t (List.mem_cons_self t rest))
    obtain ⟨q1, hq1, hq1f, hpq1, hq1T, herr1, hlow1⟩ := update_pusher_throttle_ramp t
      a._vtol_type s T p0 (hslew t (List.mem_cons_self t rest))
      (htgt t (List.mem_cons_self t rest)) hp0 hs hs2 hT2 hpf h0 hle
    have hp1 : (Standard.update_transition_state t a)._vtol_type._pusher_throttle
        = F32.finite q1 := by
      rw [hpush.1, hq1]
    have hl1 : (Standard.update_transition_state t a)._vtol_type._last_time_pusher_transition_update
        = t.hrt_absolute_time := by
      rw [hpush.2.1, hq1]
    obtain ⟨hmode', q, hq, hqf, hq1q, hqT, herr, hlow⟩ :=
      ih (Standard.update_transition_state t a) q1 hpush.2.2
        (fun u hu => hfresh u (List.mem_cons_of_mem t hu))
        (fun u hu => hslew u (List.mem_cons_of_mem t hu))
        (fun u hu => htgt u (List.mem_cons_of_mem t hu)) hp1 (hq1f hTf) (le_trans h0 hpq1) hq1T
    have hfold : Standard.update_transition_state_ticks (t :: rest) a
        = Standard.update_transition_state_ticks rest (Standard.update_transition_state t a) :=
      rfl
    rw [hfold]
    refine ⟨hmode', q, hq, hqf, le_trans hpq1 hq1q, hqT, ?_, ?_⟩
    all_goals
      rw [hl1] at herr hlow
      simp only [List.map_cons, pusher_ramp_capped_steps, List.length_cons, Nat.cast_add,
        Nat.cast_one]
      have hd1 := capped_step_nonneg
        (hrt_sub t.hrt_absolute_time a._vtol_type._last_time_pusher_transition_update)
      have hD := pusher_ramp_capped_steps_nonneg (rest.map fun t => t.hrt_absolute_time)
        t.hrt_absolute_time
      generalize capped_step
        (hrt_sub t.hrt_absolute_time a._vtol_type._last_time_pusher_transition_update) = d1
        at herr1 hlow1 hd1 ⊢
      generalize pusher_ramp_capped_steps t.hrt_absolute_time
        (rest.map fun t => t.hrt_absolute_time) = D at herr hlow hD ⊢
      generalize (rest.length : ℚ) = L at herr hlow ⊢
      have hsd1 : 0 ≤ s * d1 := mul_nonneg hs0.le hd1
      have hsD : 0 ≤ s * D := mul_nonneg hs0.le hD
      have hT0 : 0 ≤ T := le_trans h0 hle
      have hp24 : p0 / 2 ^ 24 ≤ T / 2 ^ 24 := div_le_div_of_nonneg_right hle (by norm_num)
      have hexp1 : s * (d1 + D) / 2 ^ 21 + (L + 1) * T / 2 ^ 24
          = (s * D / 2 ^ 21 + L * T / 2 ^ 24) + (s * d1 / 2 ^ 21 + T / 2 ^ 24) := by ring
    · have hmin : min (p0 + s * (d1 + D)) T = min (min (p0 + s * d1) T + s * D) T := by
        rcases le_total (p0 + s * d1) T with hcase | hcase
        · rw [min_eq_left hcase]
          congr 1
          ring
        · rw [min_eq_right hcase, min_eq_right (by linarith),
            min_eq_right (by nlinarith)]
      have hshift : |min (q1 + s * D) T - min (min (p0 + s * d1) T + s * D) T|
          ≤ |q1 - min (p0 + s * d1) T| := by
        refine le_trans (abs_min_sub_min_le_max _ _ _ _) ?_
        rw [sub_self, abs_zero, add_sub_add_right_eq_sub]
        exact max_le le_rfl (abs_nonneg _)
      have htri : |q - min (min (p0 + s * d1) T + s * D) T|
          ≤ |q - min (q1 + s * D) T|
            + |min (q1 + s * D) T - min (min (p0 + s * d1) T + s * D) T| :=
        abs_sub_le _ _ _
      rw [hmin, hexp1]
      linarith
    · intro hqlt
      have hq1lt : q1 < T := lt_of_le_of_lt hq1q hqlt
      have ha := hlow1 hq1lt
      have hb := hlow hqlt
      rw [hexp1]
      have : p0 + s * (d1 + D) = p0 + s * d1 + s * D := by ring
      linarith

/-- C27 as stated fails: from pusher throttle 0 with slew 0.5 per second and
the float nearest to 0.7 as target, 28 ticks 50 ms apart have capped time
steps adding up to 1.4 s, so that slew times their sum is not below the
target; the closed form gives the target, and the code, which rounds each sum
to `float`, holds 11744049 / 16777216, two floats below the target. The
target is reached one tick later. -/
theorem pusher_ramp_closed_form_counterexample :
    (example_coordinator example_transition_start 2 false)._vtol_type._pusher_throttle
        = F32.finite 0
    ∧ (∀ t ∈ example_ramp_ticks 28,
        (Standard.update_transition_state_copy t).isSome = true
        ∧ t.param_vt_psher_slew = F32.finite (1 / 2)
        ∧ t.param_vt_f_trans_thr = F32.finite (11744051 / 16777216))
    ∧ pusher_ramp_capped_steps
        (example_coordinator example_transition_start 2
          false)._vtol_type._last_time_pusher_transition_update
        ((example_ramp_ticks 28).map fun t => t.hrt_absolute_time) = 7 / 5
    ∧ min ((0 : ℚ) + 1 / 2 * (7 / 5)) (11744051 / 16777216) = 11744051 / 16777216
    ∧ (Standard.update_transition_state_ticks (example_ramp_ticks 28)
        (example_coordinator example_transition_start 2 false))._vtol_type._pusher_throttle
        = F32.finite (11744049 / 16777216)
    ∧ (Standard.update_transition_state_ticks (example_ramp_ticks 29)
        (example_coordinator example_transition_start 2 false))._vtol_type._pusher_throttle
        = F32.finite (11744051 / 16777216) := by
  refine ⟨rfl, by decide!, by decide!, by decide!, by decide!, by decide!⟩

/-- C27, amended: the pusher ramp up to the rounding of the float operations.
From a front transition with a float pusher throttle p0 in [0, target], a
float target `VT_F_TRANS_THR` and a finite slew above `FLT_EPSILON` (both at
most 2 ^ 64), after n ticks of `update_transition_state` (fresh setpoints)
the pusher throttle is in [p0, target] and within
E = slew (d_1 + ... + d_n) / 2 ^ 21 + n target / 2 ^ 24 of
min(p0 + slew (d_1 + ... + d_n), target), with the capped steps
d_i = min(dt_i, 0.05 s). It is the target once slew (d_1 + ... + d_n) is at
least target - p0 + E, in particular once slew times the elapsed time times
(1 - 2 ^ (-21)) is at least target - p0 + n target / 2 ^ 24 when the ticks are
at most 50 ms apart, and it does not decrease at a further tick. With a slew
at or below `FLT_EPSILON` one tick sets it to the target. -/
theorem pusher_ramp_closed_form (ticks : List update_transition_state_inputs)
    (a : VtolAttitudeControl) (s T p0 : ℚ)
    (hmode : a._vtol_type._vtol_mode = vtol_mode.TRANSITION_TO_FW)
    (hfresh : ∀ t ∈ ticks, (Standard.update_transition_state_copy t).isSome = true)
    (hslew : ∀ t ∈ ticks, t.param_vt_psher_slew = F32.finite s)
    (htgt : ∀ t ∈ ticks, t.param_vt_f_trans_thr = F32.finite T)
    (hp0 : a._vtol_type._pusher_throttle = F32.finite p0)
    (hpf : F32.round p0 = F32.finite p0) (hTf : F32.round T = F32.finite T)
    (h0 : 0 ≤ p0) (hle : p0 ≤ T) (hs : (1 : ℚ) / 8388608 < s)
    (hs2 : s ≤ 2 ^ 64) (hT2 : T ≤ 2 ^ 64) :
    (∃ q : ℚ,
        (Standard.update_transition_state_ticks ticks a)._vtol_type._pusher_throttle
          = F32.finite q
        ∧ p0 ≤ q ∧ q ≤ T
        ∧ |q - min
              (p0 + s * pusher_ramp_capped_steps
                a._vtol_type._last_time_pusher_transition_update
                (ticks.map fun t => t.hrt_absolute_time)) T|
            ≤ s * pusher_ramp_capped_steps
                  a._vtol_type._last_time_pusher_transition_update
                  (ticks.map fun t => t.hrt_absolute_time) / 2 ^ 21
              + (ticks.length : ℚ) * T / 2 ^ 24)
    ∧ (T - p0
          + (s * pusher_ramp_capped_steps
                a._vtol_type._last_time_pusher_transition_update
                (ticks.map fun t => t.hrt_absolute_time) / 2 ^ 21
            + (ticks.length : ℚ) * T / 2 ^ 24)
          ≤ s * pusher_ramp_capped_steps
              a._vtol_type._last_time_pusher_transition_update
              (ticks.map fun t => t.hrt_absolute_time) →
        (Standard.update_transition_state_ticks ticks a)._vtol_type._pusher_throttle
          = F32.finite T)
    ∧ (∀ c0 : Nat,
        ticks_at_most_50_ms_apart c0 (ticks.map fun t => t.hrt_absolute_time) = true →
        a._vtol_type._last_time_pusher_transition_update ≤ c0 →
        T - p0 + (ticks.length : ℚ) * T / 2 ^ 24
          ≤ s * (((clock_of_last_tick c0 (ticks.map fun t => t.hrt_absolute_time) : ℚ)
            - c0) / 1000000) * (1 - 1 / 2 ^ 21) →
        (Standard.update_transition_state_ticks ticks a)._vtol_type._pusher_throttle
          = F32.finite T)
    ∧ (∀ t : update_transition_state_inputs,
        (Standard.update_transition_state_copy t).isSome = true →
        t.param_vt_psher_slew = F32.finite s → t.param_vt_f_trans_thr = F32.finite T →
        F32.le (Standard.update_transition_state_ticks ticks a)._vtol_type._pusher_throttle
          (Standard.update_transition_state t
            (Standard.update_transition_state_ticks ticks a))._vtol_type._pusher_throttle
          = true)
    ∧ (∀ (t : update_transition_state_inputs) (b : VtolAttitudeControl),
        b._vtol_type._vtol_mode = vtol_mode.TRANSITION_TO_FW →
        (Standard.update_transition_state_copy t).isSome = true →
        F32.le t.param_vt_psher_slew F32.FLT_EPSILON = true →
        (Standard.update_transition_state t b)._vtol_type._pusher_throttle
          = t.param_vt_f_trans_thr) := by
  have hs0 : 0 < s := lt_trans (by norm_num) hs
  obtain ⟨hmode', q, hq, hqf, hpq, hqT, herr, hlow⟩ :=
    update_transition_state_ticks_pusher s T hs hs2 hT2 hTf ticks a p0 hmode hfresh hslew htgt
      hp0 hpf h0 hle
  have hfull : T - p0
        + (s * pusher_ramp_capped_steps
              a._vtol_type._last_time_pusher_transition_update
              (ticks.map fun t => t.hrt_absolute_time) / 2 ^ 21
          + (ticks.length : ℚ) * T / 2 ^ 24)
        ≤ s * pusher_ramp_capped_steps
            a._vtol_type._last_time_pusher_transition_update
            (ticks.map fun t => t.hrt_absolute_time) →
      (Standard.update_transition_state_ticks ticks a)._vtol_type._pusher_throttle
        = F32.finite T := by
    intro h
    rw [hq]
    congr 1
    by_contra hne
    have hlt : q < T := lt_of_le_of_ne hqT hne
    have := hlow hlt
    linarith
  refine ⟨⟨q, hq, hpq, hqT, herr⟩, hfull, ?_, ?_, ?_⟩
  · intro c0 hspaced hlast helapsed
    apply hfull
    have hsum := pusher_ramp_capped_steps_elapsed (ticks.map fun t => t.hrt_absolute_time) c0
      a._vtol_type._last_time_pusher_transition_update hspaced hlast
    have hmul := mul_le_mul_of_nonneg_left hsum hs0.le
    have hmul2 := mul_le_mul_of_nonneg_right hmul (by norm_num : (0 : ℚ) ≤ 1 - 1 / 2 ^ 21)
    have hexp : s * pusher_ramp_capped_steps
          a._vtol_type._last_time_pusher_transition_update
          (ticks.map fun t => t.hrt_absolute_time) * (1 - 1 / 2 ^ 21)
        = s * pusher_ramp_capped_steps
            a._vtol_type._last_time_pusher_transition_update
            (ticks.map fun t => t.hrt_absolute_time)
          - s * pusher_ramp_capped_steps
            a._vtol_type._last_time_pusher_transition_update
            (ticks.map fun t => t.hrt_absolute_time) / 2 ^ 21 := by ring
    linarith
  · intro t hft hst htt
    have hpush := update_transition_state_front_pusher t
      (Standard.update_transition_state_ticks ticks a) hmode' hft
    obtain ⟨q', hq', _, hqq', _, _, _⟩ := update_pusher_throttle_ramp t
      (Standard.update_transition_state_ticks ticks a)._vtol_type s T q hst htt hq hs hs2 hT2
      hqf (le_trans h0 hpq) hqT
    rw [hpush.1, hq', hq, F32_le_finite]
    exact decide_eq_true hqq'
  · intro t b hb hft hsnap
    rw [(update_transition_state_front_pusher t b hb hft).1]
    unfold Standard.update_pusher_throttle
    simp only [hsnap, if_true]

/-- Witness of C27, amended: from pusher throttle 0 with slew 0.5 per second
and the float nearest to 0.7 as target, 29 ticks 50 ms apart bring the pusher
throttle to the target at 1.45 s. -/
theorem pusher_ramp_closed_form_witness :
    (example_coordinator example_transition_start 2 false)._vtol_type._pusher_throttle
        = F32.finite 0
    ∧ F32.round (7 / 10) = F32.finite (11744051 / 16777216)
    ∧ (Standard.update_transition_state_ticks (example_ramp_ticks 29)
        (example_coordinator example_transition_start 2 false))._vtol_type._pusher_throttle
        = F32.finite (11744051 / 16777216) :=
  have h := pusher_ramp_closed_form (example_ramp_ticks 29)
    (example_coordinator example_transition_start 2 false) (1 / 2) (11744051 / 16777216) 0 rfl
    (by decide!) (by decide!) (by decide!) rfl (by decide!) (by decide!) (by norm_num)
    (by norm_num) (by norm_num) (by norm_num) (by norm_num)
  ⟨rfl, by decide!, h.2.2.1 5000000 (by decide!) (by decide) (by decide!)⟩

/-! ## The pitch setpoint of the front transition -/

/-- C28 fails on the code at this input: a front transition one second after
its start with fresh setpoints, blend airspeed 8 m/s, transition airspeed
10 m/s, `FW_PSP_OFF` = 5 degrees and a calibrated airspeed of 12 m/s. The
airspeed blend gives `mc_weight` = -1, the pitch composed into the attitude
setpoint is radians(5) * 2, of magnitude above radians(`FW_PSP_OFF`), and only
afterwards is `mc_weight` constrained to 0 for the four weights. -/
theorem update_transition_state_pitch_range_failing_input :
    (example_coordinator example_front_transition 2 false)._vtol_type._vtol_mode
        = vtol_mode.TRANSITION_TO_FW
    ∧ (Standard.update_transition_state_copy example_fast_inputs).isSome = true
    ∧ F32.gt example_fast_inputs.calibrated_airspeed_m_s
        example_fast_inputs.getTransitionAirspeed = true
    ∧ Standard.front_transition_mc_weight example_fast_inputs
        (F32.sub example_fast_inputs.getTransitionAirspeed example_fast_inputs.getBlendAirspeed)
        (F32.finite 1) = F32.finite (-1)
    ∧ (Standard.update_transition_state example_fast_inputs
        (example_coordinator example_front_transition 2 false))._vehicle_attitude_sp.q_d
        = Quatf.from_euler F32.zero
            (F32.mul (F32.radians example_fast_inputs.param_fw_psp_off) (F32.finite 2))
            F32.zero
    ∧ F32.le
        (F32.fabsf
          (F32.mul (F32.radians example_fast_inputs.param_fw_psp_off) (F32.finite 2)))
        (F32.fabsf (F32.radians example_fast_inputs.param_fw_psp_off)) = false
    ∧ (Standard.update_transition_state example_fast_inputs
        (example_coordinator example_front_transition 2 false))._vtol_type._mc_roll_weight
        = F32.zero := by
  decide!

end VtolAttControl
